import Mathlib

/-!
Verification development for the chunk-based voxel rendering resource manager
(`RenderChunkManager.cpp` and `ArenaMeshUtils.h`).

Modelling conventions:
* C++ `double` values are modelled as exact rationals (`ℚ`); floating-point
  rounding is out of scope.
* Machine integers are modelled as `ℤ`/`ℕ` (no overflow is relevant to the
  verified properties).
* `DebugAssert`/`DebugUnhandledReturn`/`DebugNotImplemented` terminate the
  program; fallible computations are modelled with `Option`/`Except`, where
  `none`/`Except.error` is the crash outcome.
* `TextureAsset` values are compared by identity in the source (`operator==`),
  so they are modelled as an abstract identity (`ℕ`).
* Named constants and small helpers that live in source files outside the
  reviewed sample (`Constants::HalfPi`, `Constants::Epsilon`,
  `ArenaRenderUtils::DOOR_MIN_VISIBLE`, `DoorUtils` tables, the
  chunk-to-world coordinate conversion) are passed in as explicit parameters,
  so every theorem quantifies over them.
-/

/-- Texture asset identity (assets are compared with `==` in the source). -/
abbrev TextureAsset := ℕ

/-- GPU object texture handle (`ObjectTextureID`). -/
abbrev ObjectTextureID := ℤ

/-- `ChasmDefinition::AnimationType`. -/
inductive AnimationType where
  | solidColor
  | animated
deriving DecidableEq, Repr

/-- `ChasmDefinition`: solid-color palette index, animated frame assets and
the wall texture asset. -/
structure ChasmDefinition where
  animType : AnimationType
  paletteIndex : ℕ
  animatedTextureAssets : List TextureAsset
  wallTextureAsset : TextureAsset
deriving DecidableEq, Repr

/-- `RenderChunkManager::LoadedVoxelTexture`: one cached voxel texture. -/
structure LoadedVoxelTexture where
  textureAsset : TextureAsset
  objectTextureRef : ObjectTextureID
deriving DecidableEq, Repr

/-- `RenderChunkManager::LoadedChasmFloorTextureList`. -/
structure LoadedChasmFloorTextureList where
  animType : AnimationType
  paletteIndex : ℕ
  textureAssets : List TextureAsset
  objectTextureRefs : List ObjectTextureID
deriving DecidableEq, Repr

/-- `LoadedChasmFloorTextureList::initColor`. -/
def LoadedChasmFloorTextureList.initColor (paletteIndex : ℕ)
    (objectTextureRef : ObjectTextureID) : LoadedChasmFloorTextureList :=
  { animType := AnimationType.solidColor
    paletteIndex := paletteIndex
    textureAssets := []
    objectTextureRefs := [objectTextureRef] }

/-- `LoadedChasmFloorTextureList::initTextured`. -/
def LoadedChasmFloorTextureList.initTextured (textureAssets : List TextureAsset)
    (objectTextureRefs : List ObjectTextureID) : LoadedChasmFloorTextureList :=
  { animType := AnimationType.animated
    paletteIndex := 0
    textureAssets := textureAssets
    objectTextureRefs := objectTextureRefs }

/-- `RenderChunkManager::LoadedChasmTextureKey`. -/
structure LoadedChasmTextureKey where
  chunkPos : ℤ × ℤ
  chasmDefID : ℕ
  chasmFloorListIndex : ℕ
  chasmWallIndex : ℕ
deriving DecidableEq, Repr

/-- C++ `static_cast<int>` on a `double`: truncation toward zero. -/
def truncToInt (x : ℚ) : ℤ :=
  if x < 0 then ⌈x⌉ else ⌊x⌋

/-- `std::clamp(v, lo, hi)` for integers (precondition `lo ≤ hi` at use site). -/
def intClamp (v lo hi : ℤ) : ℤ :=
  if v < lo then lo else if hi < v then hi else v

/-- `LoadedChasmFloorTextureList::getTextureIndex`: `DebugAssert`s that at
least one texture is present, returns `0` for solid-color lists, and
`clamp(int(textureCount * chasmAnimPercent), 0, textureCount - 1)` for
animated lists. `none` is the assertion-failure outcome. -/
def LoadedChasmFloorTextureList.getTextureIndex
    (l : LoadedChasmFloorTextureList) (chasmAnimPercent : ℚ) : Option ℤ :=
  let textureCount : ℤ := l.objectTextureRefs.length
  if textureCount ≥ 1 then
    match l.animType with
    | AnimationType.solidColor => some 0
    | AnimationType.animated =>
        some (intClamp (truncToInt (textureCount * chasmAnimPercent)) 0 (textureCount - 1))
  else
    none

theorem truncToInt_eq_floor_of_nonneg {x : ℚ} (h : 0 ≤ x) : truncToInt x = ⌊x⌋ := by
  simp [truncToInt, not_lt.mpr h]

theorem truncToInt_mono {x y : ℚ} (h : x ≤ y) : truncToInt x ≤ truncToInt y := by
  unfold truncToInt
  split_ifs with hx hy hy
  · exact Int.ceil_le_ceil h
  · refine le_trans (Int.ceil_le.mpr ?_) (Int.floor_nonneg.mpr (not_lt.mp hy))
    exact_mod_cast hx.le
  · exact absurd (lt_of_le_of_lt h hy) hx
  · exact Int.floor_le_floor h

theorem intClamp_mono {v w lo hi : ℤ} (hlh : lo ≤ hi) (h : v ≤ w) :
    intClamp v lo hi ≤ intClamp w lo hi := by
  unfold intClamp
  split_ifs <;> omega

theorem intClamp_trunc_eq_intClamp_floor (x : ℚ) (hi : ℤ) (hhi : 0 ≤ hi) :
    intClamp (truncToInt x) 0 hi = intClamp ⌊x⌋ 0 hi := by
  rcases lt_or_le x 0 with hx | hx
  · have hceil : ⌈x⌉ ≤ 0 := by
      refine Int.ceil_le.mpr ?_
      exact_mod_cast hx.le
    have hfloor : ⌊x⌋ < 0 := by
      refine Int.floor_lt.mpr ?_
      exact_mod_cast hx
    rw [truncToInt, if_pos hx]
    unfold intClamp
    split_ifs <;> omega
  · rw [truncToInt_eq_floor_of_nonneg hx]

theorem getTextureIndex_animated (l : LoadedChasmFloorTextureList) (F : ℕ)
    (hlen : l.objectTextureRefs.length = F) (hF : 1 ≤ F)
    (hanim : l.animType = AnimationType.animated) (p : ℚ) :
    l.getTextureIndex p = some (intClamp (truncToInt ((F : ℚ) * p)) 0 ((F : ℤ) - 1)) := by
  unfold LoadedChasmFloorTextureList.getTextureIndex
  rw [hlen, hanim]
  have hFz : ((F : ℤ)) ≥ 1 := by exact_mod_cast hF
  rw [if_pos hFz]
  push_cast
  rfl

theorem getTextureIndex_solidColor (l : LoadedChasmFloorTextureList) (F : ℕ)
    (hlen : l.objectTextureRefs.length = F) (hF : 1 ≤ F)
    (hsolid : l.animType = AnimationType.solidColor) (p : ℚ) :
    l.getTextureIndex p = some 0 := by
  unfold LoadedChasmFloorTextureList.getTextureIndex
  rw [hlen, hsolid]
  have hFz : ((F : ℤ)) ≥ 1 := by exact_mod_cast hF
  rw [if_pos hFz]

/-- C3: for an `Animated` chasm floor-texture list with `F ≥ 1` frames, the
frame chosen for `animPercent` is `clamp(floor(F * animPercent), 0, F - 1)`:
frame `0` at `animPercent = 0`, frame `F - 1` for `animPercent` just under
`1.0`, and the mapping is monotonic non-decreasing in `animPercent`; for a
`SolidColor` list the single texture (index `0`) is returned for every
`animPercent`. -/
theorem claim_C3_chasm_frame_selection (l : LoadedChasmFloorTextureList) (F : ℕ)
    (hlen : l.objectTextureRefs.length = F) (hF : 1 ≤ F) :
    (l.animType = AnimationType.animated →
      (∀ p : ℚ, l.getTextureIndex p = some (intClamp ⌊(F : ℚ) * p⌋ 0 ((F : ℤ) - 1)))
      ∧ l.getTextureIndex 0 = some 0
      ∧ (∀ p : ℚ, 1 - 1 / (F : ℚ) ≤ p → p < 1 → l.getTextureIndex p = some ((F : ℤ) - 1))
      ∧ (∀ p q : ℚ, p ≤ q → ∀ i j : ℤ,
          l.getTextureIndex p = some i → l.getTextureIndex q = some j → i ≤ j))
    ∧ (l.animType = AnimationType.solidColor → ∀ p : ℚ, l.getTextureIndex p = some 0) := by
  have hFz : (1 : ℤ) ≤ (F : ℤ) := by exact_mod_cast hF
  have hFq : (0 : ℚ) < (F : ℚ) := by exact_mod_cast Nat.lt_of_lt_of_le Nat.zero_lt_one hF
  constructor
  · intro hanim
    have hidx : ∀ p : ℚ, l.getTextureIndex p =
        some (intClamp ⌊(F : ℚ) * p⌋ 0 ((F : ℤ) - 1)) := by
      intro p
      rw [getTextureIndex_animated l F hlen hF hanim p,
        intClamp_trunc_eq_intClamp_floor _ _ (by omega)]
    refine ⟨hidx, ?_, ?_, ?_⟩
    · rw [hidx 0]
      norm_num
      unfold intClamp
      split_ifs <;> omega
    · intro p hlo hhi
      rw [hidx p]
      have h1 : (F : ℚ) * p < F := by
        calc (F : ℚ) * p < (F : ℚ) * 1 := by exact mul_lt_mul_of_pos_left hhi hFq
          _ = F := mul_one _
      have h2 : (F : ℚ) - 1 ≤ (F : ℚ) * p := by
        have heq : (F : ℚ) * (1 - 1 / F) = F - 1 := by field_simp
        calc (F : ℚ) - 1 = (F : ℚ) * (1 - 1 / F) := heq.symm
          _ ≤ (F : ℚ) * p := mul_le_mul_of_nonneg_left hlo (le_of_lt hFq)
      have hfl : ⌊(F : ℚ) * p⌋ = (F : ℤ) - 1 := by
        refine Int.floor_eq_iff.mpr ⟨?_, ?_⟩
        · push_cast
          linarith
        · push_cast
          linarith
      rw [hfl]
      have hcl : intClamp ((F : ℤ) - 1) 0 ((F : ℤ) - 1) = (F : ℤ) - 1 := by
        unfold intClamp
        split_ifs <;> omega
      rw [hcl]
    · intro p q hpq i j hi hj
      rw [hidx p] at hi
      rw [hidx q] at hj
      have hi' := Option.some.inj hi
      have hj' := Option.some.inj hj
      subst hi' hj'
      exact intClamp_mono (by omega)
        (Int.floor_le_floor (mul_le_mul_of_nonneg_left hpq (le_of_lt hFq)))
  · intro hsolid p
    exact getTextureIndex_solidColor l F hlen hF hsolid p

/-- A concrete animated chasm floor-texture list with three frames. -/
def chasmFloorListExampleA : LoadedChasmFloorTextureList :=
  LoadedChasmFloorTextureList.initTextured [0, 1, 2] [10, 11, 12]

theorem claim_C3_chasm_frame_selection_witness :
    chasmFloorListExampleA.objectTextureRefs.length = 3 ∧ 1 ≤ 3 ∧
    ((chasmFloorListExampleA.animType = AnimationType.animated →
      (∀ p : ℚ, chasmFloorListExampleA.getTextureIndex p =
        some (intClamp ⌊(3 : ℚ) * p⌋ 0 ((3 : ℤ) - 1)))
      ∧ chasmFloorListExampleA.getTextureIndex 0 = some 0
      ∧ (∀ p : ℚ, 1 - 1 / (3 : ℚ) ≤ p → p < 1 →
          chasmFloorListExampleA.getTextureIndex p = some ((3 : ℤ) - 1))
      ∧ (∀ p q : ℚ, p ≤ q → ∀ i j : ℤ,
          chasmFloorListExampleA.getTextureIndex p = some i →
          chasmFloorListExampleA.getTextureIndex q = some j → i ≤ j))
    ∧ (chasmFloorListExampleA.animType = AnimationType.solidColor →
        ∀ p : ℚ, chasmFloorListExampleA.getTextureIndex p = some 0)) :=
  ⟨rfl, by decide, by
    have h := claim_C3_chasm_frame_selection chasmFloorListExampleA 3 rfl (by decide)
    exact_mod_cast h⟩

/-- Oracle for the external collaborators of the texture loaders: the
texture manager (`tryGetTextureBuilderID`) and the renderer
(`tryCreateObjectTexture`, `lockObjectTexture`).  Success and handle values
are deterministic per asset (each asset is created at most once per cache,
so this loses no generality for the verified properties); the dry-chasm
1×1 texture calls are keyed by the palette index being written. -/
structure TexOracle where
  builderOk : TextureAsset → Bool
  createOk : TextureAsset → Bool
  texId : TextureAsset → ObjectTextureID
  dryCreateOk : ℕ → Bool
  dryLockOk : ℕ → Bool
  dryTexId : ℕ → ObjectTextureID

/-- One iteration of the loop in `sgTexture::LoadVoxelDefTextures`: skip the
asset if it is already cached, otherwise try the texture builder and the GPU
texture creation (either failure skips this asset), else append a new entry. -/
def loadVoxelTextureStep (o : TexOracle) (voxelTextures : List LoadedVoxelTexture)
    (textureAsset : TextureAsset) : List LoadedVoxelTexture :=
  if voxelTextures.any (fun t => t.textureAsset == textureAsset) then
    voxelTextures
  else if !o.builderOk textureAsset then
    voxelTextures
  else if !o.createOk textureAsset then
    voxelTextures
  else
    voxelTextures ++ [{ textureAsset := textureAsset, objectTextureRef := o.texId textureAsset }]

/-- `sgTexture::LoadVoxelDefTextures`: ensure every asset of a voxel texture
definition is cached. -/
def LoadVoxelDefTextures (o : TexOracle) (voxelTextureDef : List TextureAsset)
    (voxelTextures : List LoadedVoxelTexture) : List LoadedVoxelTexture :=
  voxelTextureDef.foldl (loadVoxelTextureStep o) voxelTextures

/-- `sgTexture::LoadedChasmFloorComparer`: content equality between a cached
floor-texture list and a chasm definition (animation type, then palette index
for solid color or the ordered asset list for animated). -/
def LoadedChasmFloorComparer (l : LoadedChasmFloorTextureList) (d : ChasmDefinition) : Bool :=
  if l.animType = d.animType then
    match l.animType with
    | AnimationType.solidColor => decide (l.paletteIndex = d.paletteIndex)
    | AnimationType.animated => decide (l.textureAssets = d.animatedTextureAssets)
  else
    false

/-- The loop over `chasmDef.animated.textureAssets` in
`sgTexture::LoadChasmDefTextures`: load each frame, skipping (with a warning)
frames whose builder lookup or GPU creation fails. -/
def loadChasmFrameStep (o : TexOracle)
    (acc : List TextureAsset × List ObjectTextureID) (ta : TextureAsset) :
    List TextureAsset × List ObjectTextureID :=
  if !o.builderOk ta then acc
  else if !o.createOk ta then acc
  else (acc.1 ++ [ta], acc.2 ++ [o.texId ta])

def loadChasmAnimatedFrames (o : TexOracle) (assets : List TextureAsset) :
    List TextureAsset × List ObjectTextureID :=
  assets.foldl (loadChasmFrameStep o) ([], [])

/-- `std::find_if` followed by `std::distance` from the container's begin:
the index of the first element satisfying the predicate, if any. -/
def findIdxOpt (p : α → Bool) : List α → Option ℕ
  | [] => none
  | x :: xs => if p x then some 0 else (findIdxOpt p xs).map (· + 1)

/-- `sgTexture::LoadChasmDefTextures`. `none` is the crash outcome of the
`DebugAssert` that the chasm wall texture is already present among the voxel
textures; early returns (existing key, failed solid-color texture creation or
lock) leave the caches unchanged. -/
def LoadChasmDefTextures (o : TexOracle) (chunkPos : ℤ × ℤ) (chasmDefID : ℕ)
    (chasmDef : ChasmDefinition) (voxelTextures : List LoadedVoxelTexture)
    (chasmFloorTextureLists : List LoadedChasmFloorTextureList)
    (chasmTextureKeys : List LoadedChasmTextureKey) :
    Option (List LoadedChasmFloorTextureList × List LoadedChasmTextureKey) :=
  if chasmTextureKeys.any (fun k => k.chasmDefID == chasmDefID && k.chunkPos == chunkPos) then
    some (chasmFloorTextureLists, chasmTextureKeys)
  else
    let found := findIdxOpt (fun l => LoadedChasmFloorComparer l chasmDef) chasmFloorTextureLists
    let step : Option (List LoadedChasmFloorTextureList × ℕ) :=
      match found with
      | some i => some (chasmFloorTextureLists, i)
      | none =>
          match chasmDef.animType with
          | AnimationType.solidColor =>
              if !o.dryCreateOk chasmDef.paletteIndex then none
              else if !o.dryLockOk chasmDef.paletteIndex then none
              else
                some (chasmFloorTextureLists ++
                  [LoadedChasmFloorTextureList.initColor chasmDef.paletteIndex
                    (o.dryTexId chasmDef.paletteIndex)],
                  chasmFloorTextureLists.length)
          | AnimationType.animated =>
              let frames := loadChasmAnimatedFrames o chasmDef.animatedTextureAssets
              some (chasmFloorTextureLists ++
                [LoadedChasmFloorTextureList.initTextured frames.1 frames.2],
                chasmFloorTextureLists.length)
    match step with
    | none => some (chasmFloorTextureLists, chasmTextureKeys)
    | some (lists', chasmFloorListIndex) =>
        match findIdxOpt (fun t => t.textureAsset == chasmDef.wallTextureAsset) voxelTextures with
        | none => none
        | some chasmWallIndex =>
            some (lists', chasmTextureKeys ++
              [{ chunkPos := chunkPos, chasmDefID := chasmDefID,
                 chasmFloorListIndex := chasmFloorListIndex,
                 chasmWallIndex := chasmWallIndex }])

/-- The content identity by which chasm floor lists are deduplicated:
animation type together with the palette index (solid color) or the ordered
asset list (animated). -/
def chasmDefContent (d : ChasmDefinition) : ℕ ⊕ List TextureAsset :=
  match d.animType with
  | AnimationType.solidColor => Sum.inl d.paletteIndex
  | AnimationType.animated => Sum.inr d.animatedTextureAssets

/-- Content identity of a cached chasm floor-texture list. -/
def floorListContent (l : LoadedChasmFloorTextureList) : ℕ ⊕ List TextureAsset :=
  match l.animType with
  | AnimationType.solidColor => Sum.inl l.paletteIndex
  | AnimationType.animated => Sum.inr l.textureAssets

set_option maxRecDepth 4000 in
theorem comparer_eq_content (l : LoadedChasmFloorTextureList) (d : ChasmDefinition) :
    LoadedChasmFloorComparer l d = true ↔ floorListContent l = chasmDefContent d := by
  rcases l with ⟨lty, lpal, lassets, lrefs⟩
  rcases d with ⟨dty, dpal, dassets, dwall⟩
  cases lty <;> cases dty <;>
    simp [LoadedChasmFloorComparer, floorListContent, chasmDefContent]

theorem voxelTextures_mem_iff (vt : List LoadedVoxelTexture) (ta : TextureAsset) :
    (vt.any fun t => t.textureAsset == ta) = true ↔ ta ∈ vt.map (·.textureAsset) := by
  simp [List.any_eq_true, beq_iff_eq]

theorem loadVoxelTextureStep_of_mem (o : TexOracle) (vt : List LoadedVoxelTexture)
    (ta : TextureAsset) (h : ta ∈ vt.map (·.textureAsset)) :
    loadVoxelTextureStep o vt ta = vt := by
  unfold loadVoxelTextureStep
  rw [if_pos ((voxelTextures_mem_iff vt ta).mpr h)]

theorem loadVoxelTextureStep_nodup (o : TexOracle) (vt : List LoadedVoxelTexture)
    (ta : TextureAsset) (h : (vt.map (·.textureAsset)).Nodup) :
    ((loadVoxelTextureStep o vt ta).map (·.textureAsset)).Nodup := by
  unfold loadVoxelTextureStep
  split_ifs with h1 h2 h3
  · exact h
  · exact h
  · exact h
  · rw [List.map_append]
    rw [List.nodup_append]
    refine ⟨h, List.nodup_singleton _, ?_⟩
    intro x hx hx'
    have hxe : x = ta := by simpa using hx'
    rw [hxe] at hx
    exact h1 ((voxelTextures_mem_iff vt ta).mpr hx)

theorem loadVoxelTextureStep_toFinset_success (o : TexOracle) (vt : List LoadedVoxelTexture)
    (ta : TextureAsset) (hb : o.builderOk ta = true) (hc : o.createOk ta = true) :
    ((loadVoxelTextureStep o vt ta).map (·.textureAsset)).toFinset =
      (vt.map (·.textureAsset)).toFinset ∪ {ta} := by
  unfold loadVoxelTextureStep
  split_ifs with h1 h2 h3
  · have : ta ∈ (vt.map (·.textureAsset)).toFinset :=
      List.mem_toFinset.mpr ((voxelTextures_mem_iff vt ta).mp h1)
    rw [Finset.union_eq_left.mpr (by simpa using this)]
  · simp [hb] at h2
  · simp [hc] at h3
  · rw [List.map_append]
    simp [List.toFinset_append]

theorem LoadVoxelDefTextures_nodup (o : TexOracle) (L : List TextureAsset)
    (vt : List LoadedVoxelTexture) (h : (vt.map (·.textureAsset)).Nodup) :
    ((LoadVoxelDefTextures o L vt).map (·.textureAsset)).Nodup := by
  induction L generalizing vt with
  | nil => exact h
  | cons ta L ih => exact ih _ (loadVoxelTextureStep_nodup o vt ta h)

theorem LoadVoxelDefTextures_toFinset (o : TexOracle) (L : List TextureAsset)
    (vt : List LoadedVoxelTexture)
    (hsucc : ∀ ta ∈ L, o.builderOk ta = true ∧ o.createOk ta = true) :
    ((LoadVoxelDefTextures o L vt).map (·.textureAsset)).toFinset =
      (vt.map (·.textureAsset)).toFinset ∪ L.toFinset := by
  induction L generalizing vt with
  | nil => simp [LoadVoxelDefTextures]
  | cons ta L ih =>
      have hta := hsucc ta (List.mem_cons_self ta L)
      have hstep := loadVoxelTextureStep_toFinset_success o vt ta hta.1 hta.2
      have : LoadVoxelDefTextures o (ta :: L) vt =
          LoadVoxelDefTextures o L (loadVoxelTextureStep o vt ta) := rfl
      rw [this, ih _ (fun x hx => hsucc x (List.mem_cons_of_mem ta hx)), hstep,
        List.toFinset_cons, Finset.union_assoc, ← Finset.insert_eq]

theorem LoadVoxelDefTextures_of_cached (o : TexOracle) (L : List TextureAsset)
    (vt : List LoadedVoxelTexture)
    (hmem : ∀ ta ∈ L, ta ∈ vt.map (·.textureAsset)) :
    LoadVoxelDefTextures o L vt = vt := by
  induction L generalizing vt with
  | nil => rfl
  | cons ta L ih =>
      have hta := hmem ta (List.mem_cons_self ta L)
      have : LoadVoxelDefTextures o (ta :: L) vt =
          LoadVoxelDefTextures o L (loadVoxelTextureStep o vt ta) := rfl
      rw [this, loadVoxelTextureStep_of_mem o vt ta hta]
      exact ih vt (fun x hx => hmem x (List.mem_cons_of_mem ta hx))

theorem findIdxOpt_eq_none_iff {p : α → Bool} {l : List α} :
    findIdxOpt p l = none ↔ ∀ x ∈ l, p x = false := by
  induction l with
  | nil => simp [findIdxOpt]
  | cons x xs ih =>
      by_cases hx : p x = true
      · simp [findIdxOpt, hx]
      · simp only [Bool.not_eq_true] at hx
        simp [findIdxOpt, hx, ih]

theorem findIdxOpt_append_left {p : α → Bool} {l₁ : List α} (l₂ : List α) {i : ℕ}
    (h : findIdxOpt p l₁ = some i) : findIdxOpt p (l₁ ++ l₂) = some i := by
  induction l₁ generalizing i with
  | nil => simp [findIdxOpt] at h
  | cons x xs ih =>
      by_cases hx : p x = true
      · simp [findIdxOpt, hx] at h ⊢
        exact h
      · simp only [Bool.not_eq_true] at hx
        simp only [findIdxOpt, hx, Bool.false_eq_true, if_false, Option.map_eq_some'] at h
        obtain ⟨j, hj, rfl⟩ := h
        simp only [List.cons_append, findIdxOpt, hx, Bool.false_eq_true, if_false,
          Option.map_eq_some']
        exact ⟨j, ih hj, rfl⟩

theorem findIdxOpt_append_new {p : α → Bool} {l : List α} {y : α}
    (hl : ∀ x ∈ l, p x = false) (hy : p y = true) :
    findIdxOpt p (l ++ [y]) = some l.length := by
  induction l with
  | nil => simp [findIdxOpt, hy]
  | cons x xs ih =>
      have hx := hl x (List.mem_cons_self x xs)
      simp only [List.cons_append, findIdxOpt, hx, Bool.false_eq_true, if_false]
      show Option.map (· + 1) (findIdxOpt p (xs ++ [y])) = some (x :: xs).length
      rw [ih (fun z hz => hl z (List.mem_cons_of_mem x hz))]
      simp

theorem findIdxOpt_some_lt {p : α → Bool} {l : List α} {i : ℕ}
    (h : findIdxOpt p l = some i) : i < l.length := by
  induction l generalizing i with
  | nil => simp [findIdxOpt] at h
  | cons x xs ih =>
      by_cases hx : p x = true
      · simp [findIdxOpt, hx] at h
        simp [← h]
      · simp only [Bool.not_eq_true] at hx
        simp only [findIdxOpt, hx, Bool.false_eq_true, if_false, Option.map_eq_some'] at h
        obtain ⟨j, hj, rfl⟩ := h
        have := ih hj
        simp
        omega

theorem loadChasmFrames_go (o : TexOracle) (assets : List TextureAsset)
    (acc : List TextureAsset × List ObjectTextureID)
    (h : ∀ ta ∈ assets, o.builderOk ta = true ∧ o.createOk ta = true) :
    assets.foldl (loadChasmFrameStep o) acc =
      (acc.1 ++ assets, acc.2 ++ assets.map o.texId) := by
  induction assets generalizing acc with
  | nil => simp
  | cons ta rest ih =>
      have hta := h ta (List.mem_cons_self ta rest)
      have hstep : loadChasmFrameStep o acc ta = (acc.1 ++ [ta], acc.2 ++ [o.texId ta]) := by
        unfold loadChasmFrameStep
        rw [hta.1, hta.2]
        rfl
      show List.foldl (loadChasmFrameStep o) (loadChasmFrameStep o acc ta) rest = _
      rw [hstep, ih _ (fun x hx => h x (List.mem_cons_of_mem ta hx))]
      simp

theorem loadChasmAnimatedFrames_success (o : TexOracle) (assets : List TextureAsset)
    (h : ∀ ta ∈ assets, o.builderOk ta = true ∧ o.createOk ta = true) :
    loadChasmAnimatedFrames o assets = (assets, assets.map o.texId) := by
  unfold loadChasmAnimatedFrames
  rw [loadChasmFrames_go o assets ([], []) h]
  simp

/-- All texture-manager/renderer calls made when building a new floor list
for this chasm definition succeed. -/
def ChasmDefLoadSucceeds (o : TexOracle) (d : ChasmDefinition) : Prop :=
  match d.animType with
  | AnimationType.solidColor =>
      o.dryCreateOk d.paletteIndex = true ∧ o.dryLockOk d.paletteIndex = true
  | AnimationType.animated =>
      ∀ ta ∈ d.animatedTextureAssets, o.builderOk ta = true ∧ o.createOk ta = true

/-- The floor list built for a chasm definition when no existing list matches
and every texture call succeeds. -/
def newFloorList (o : TexOracle) (d : ChasmDefinition) : LoadedChasmFloorTextureList :=
  match d.animType with
  | AnimationType.solidColor =>
      LoadedChasmFloorTextureList.initColor d.paletteIndex (o.dryTexId d.paletteIndex)
  | AnimationType.animated =>
      LoadedChasmFloorTextureList.initTextured d.animatedTextureAssets
        (d.animatedTextureAssets.map o.texId)

theorem newFloorList_content (o : TexOracle) (d : ChasmDefinition) :
    floorListContent (newFloorList o d) = chasmDefContent d := by
  unfold newFloorList floorListContent chasmDefContent
  cases d.animType <;> rfl

theorem LoadChasmDefTextures_key_exists (o : TexOracle) (cp : ℤ × ℤ) (cid : ℕ)
    (d : ChasmDefinition) (vt : List LoadedVoxelTexture)
    (lists : List LoadedChasmFloorTextureList) (keys : List LoadedChasmTextureKey)
    (hkey : (keys.any fun k => k.chasmDefID == cid && k.chunkPos == cp) = true) :
    LoadChasmDefTextures o cp cid d vt lists keys = some (lists, keys) := by
  unfold LoadChasmDefTextures
  rw [if_pos hkey]

theorem LoadChasmDefTextures_found (o : TexOracle) (cp : ℤ × ℤ) (cid : ℕ)
    (d : ChasmDefinition) (vt : List LoadedVoxelTexture)
    (lists : List LoadedChasmFloorTextureList) (keys : List LoadedChasmTextureKey)
    (i w : ℕ)
    (hkey : (keys.any fun k => k.chasmDefID == cid && k.chunkPos == cp) = false)
    (hfound : findIdxOpt (fun l => LoadedChasmFloorComparer l d) lists = some i)
    (hwall : findIdxOpt (fun t => t.textureAsset == d.wallTextureAsset) vt = some w) :
    LoadChasmDefTextures o cp cid d vt lists keys =
      some (lists, keys ++ [(⟨cp, cid, i, w⟩ : LoadedChasmTextureKey)]) := by
  unfold LoadChasmDefTextures
  rw [if_neg (by simp [hkey]), hfound, hwall]

theorem LoadChasmDefTextures_new (o : TexOracle) (cp : ℤ × ℤ) (cid : ℕ)
    (d : ChasmDefinition) (vt : List LoadedVoxelTexture)
    (lists : List LoadedChasmFloorTextureList) (keys : List LoadedChasmTextureKey)
    (w : ℕ)
    (hkey : (keys.any fun k => k.chasmDefID == cid && k.chunkPos == cp) = false)
    (hfound : findIdxOpt (fun l => LoadedChasmFloorComparer l d) lists = none)
    (hsucc : ChasmDefLoadSucceeds o d)
    (hwall : findIdxOpt (fun t => t.textureAsset == d.wallTextureAsset) vt = some w) :
    LoadChasmDefTextures o cp cid d vt lists keys =
      some (lists ++ [newFloorList o d],
        keys ++ [(⟨cp, cid, lists.length, w⟩ : LoadedChasmTextureKey)]) := by
  unfold LoadChasmDefTextures
  rw [if_neg (by simp [hkey]), hfound]
  unfold ChasmDefLoadSucceeds at hsucc
  unfold newFloorList
  rcases hd : d.animType
  · rw [hd] at hsucc
    simp only [hd, hsucc.1, hsucc.2, Bool.not_true, Bool.false_eq_true, if_false, hwall]
  · rw [hd] at hsucc
    simp only [hd, hwall]
    rw [loadChasmAnimatedFrames_success o d.animatedTextureAssets hsucc]

theorem findIdxOpt_congr {p q : α → Bool} (l : List α) (h : ∀ x ∈ l, p x = q x) :
    findIdxOpt p l = findIdxOpt q l := by
  induction l with
  | nil => rfl
  | cons x xs ih =>
      unfold findIdxOpt
      rw [h x (List.mem_cons_self x xs), ih (fun z hz => h z (List.mem_cons_of_mem x hz))]

theorem LoadChasmDefTextures_wall_missing_found (o : TexOracle) (cp : ℤ × ℤ) (cid : ℕ)
    (d : ChasmDefinition) (vt : List LoadedVoxelTexture)
    (lists : List LoadedChasmFloorTextureList) (keys : List LoadedChasmTextureKey) (i : ℕ)
    (hkey : (keys.any fun k => k.chasmDefID == cid && k.chunkPos == cp) = false)
    (hfound : findIdxOpt (fun l => LoadedChasmFloorComparer l d) lists = some i)
    (hwall : findIdxOpt (fun t => t.textureAsset == d.wallTextureAsset) vt = none) :
    LoadChasmDefTextures o cp cid d vt lists keys = none := by
  unfold LoadChasmDefTextures
  rw [if_neg (by simp [hkey]), hfound, hwall]

theorem LoadChasmDefTextures_wall_missing_new (o : TexOracle) (cp : ℤ × ℤ) (cid : ℕ)
    (d : ChasmDefinition) (vt : List LoadedVoxelTexture)
    (lists : List LoadedChasmFloorTextureList) (keys : List LoadedChasmTextureKey)
    (hkey : (keys.any fun k => k.chasmDefID == cid && k.chunkPos == cp) = false)
    (hfound : findIdxOpt (fun l => LoadedChasmFloorComparer l d) lists = none)
    (hsucc : ChasmDefLoadSucceeds o d)
    (hwall : findIdxOpt (fun t => t.textureAsset == d.wallTextureAsset) vt = none) :
    LoadChasmDefTextures o cp cid d vt lists keys = none := by
  unfold LoadChasmDefTextures
  rw [if_neg (by simp [hkey]), hfound]
  unfold ChasmDefLoadSucceeds at hsucc
  rcases hd : d.animType
  · rw [hd] at hsucc
    simp only [hd, hsucc.1, hsucc.2, Bool.not_true, Bool.false_eq_true, if_false, hwall]
  · rw [hd] at hsucc
    simp only [hd, hwall]

theorem LoadChasmDefTextures_preserves_content_nodup (o : TexOracle) (cp : ℤ × ℤ)
    (cid : ℕ) (d : ChasmDefinition) (vt : List LoadedVoxelTexture)
    (lists : List LoadedChasmFloorTextureList) (keys : List LoadedChasmTextureKey)
    (lists' : List LoadedChasmFloorTextureList) (keys' : List LoadedChasmTextureKey)
    (hnd : (lists.map floorListContent).Nodup)
    (hsucc : ChasmDefLoadSucceeds o d)
    (h : LoadChasmDefTextures o cp cid d vt lists keys = some (lists', keys')) :
    (lists'.map floorListContent).Nodup := by
  by_cases hkey : (keys.any fun k => k.chasmDefID == cid && k.chunkPos == cp) = true
  · rw [LoadChasmDefTextures_key_exists o cp cid d vt lists keys hkey] at h
    obtain ⟨h1, h2⟩ := Prod.mk.injEq .. ▸ Option.some.inj h
    rw [← h1]
    exact hnd
  · have hkey' : (keys.any fun k => k.chasmDefID == cid && k.chunkPos == cp) = false := by
      simpa using hkey
    cases hfound : findIdxOpt (fun l => LoadedChasmFloorComparer l d) lists with
    | some i =>
        cases hwall : findIdxOpt (fun t => t.textureAsset == d.wallTextureAsset) vt with
        | none =>
            rw [LoadChasmDefTextures_wall_missing_found o cp cid d vt lists keys i hkey'
              hfound hwall] at h
            exact absurd h (by simp)
        | some w =>
            rw [LoadChasmDefTextures_found o cp cid d vt lists keys i w hkey'
              hfound hwall] at h
            obtain ⟨h1, h2⟩ := Prod.mk.injEq .. ▸ Option.some.inj h
            rw [← h1]
            exact hnd
    | none =>
        cases hwall : findIdxOpt (fun t => t.textureAsset == d.wallTextureAsset) vt with
        | none =>
            rw [LoadChasmDefTextures_wall_missing_new o cp cid d vt lists keys hkey'
              hfound hsucc hwall] at h
            exact absurd h (by simp)
        | some w =>
            rw [LoadChasmDefTextures_new o cp cid d vt lists keys w hkey'
              hfound hsucc hwall] at h
            obtain ⟨h1, h2⟩ := Prod.mk.injEq .. ▸ Option.some.inj h
            rw [← h1, List.map_append, List.nodup_append]
            refine ⟨hnd, by simp, ?_⟩
            intro x hx hx'
            have hxc : x = floorListContent (newFloorList o d) := by simpa using hx'
            have hnone := findIdxOpt_eq_none_iff.mp hfound
            obtain ⟨l, hl, hlx⟩ := List.mem_map.mp hx
            have hcomp : LoadedChasmFloorComparer l d = false := hnone l hl
            have : floorListContent l ≠ chasmDefContent d := by
              intro hc
              rw [(comparer_eq_content l d).mpr hc] at hcomp
              exact Bool.true_eq_false ▸ hcomp
            exact this (by rw [hlx, hxc, newFloorList_content])

theorem LoadChasmDefTextures_same_content_same_index (o : TexOracle)
    (cp1 cp2 : ℤ × ℤ) (cid1 cid2 : ℕ) (d d' : ChasmDefinition)
    (vt : List LoadedVoxelTexture)
    (lists lists1 lists2 : List LoadedChasmFloorTextureList)
    (keys keys1 keys2 : List LoadedChasmTextureKey)
    (hc : chasmDefContent d = chasmDefContent d')
    (hkey1 : (keys.any fun k => k.chasmDefID == cid1 && k.chunkPos == cp1) = false)
    (hkey2 : (keys1.any fun k => k.chasmDefID == cid2 && k.chunkPos == cp2) = false)
    (hsucc : ChasmDefLoadSucceeds o d)
    (h1 : LoadChasmDefTextures o cp1 cid1 d vt lists keys = some (lists1, keys1))
    (h2 : LoadChasmDefTextures o cp2 cid2 d' vt lists1 keys1 = some (lists2, keys2)) :
    ∃ i w1 w2, keys1 = keys ++ [(⟨cp1, cid1, i, w1⟩ : LoadedChasmTextureKey)] ∧
      keys2 = keys1 ++ [(⟨cp2, cid2, i, w2⟩ : LoadedChasmTextureKey)] := by
  have hpred : ∀ l ∈ lists, (LoadedChasmFloorComparer l d : Bool) = LoadedChasmFloorComparer l d' := by
    intro l _
    rcases hb : LoadedChasmFloorComparer l d'
    · rcases hb' : LoadedChasmFloorComparer l d
      · rfl
      · have := (comparer_eq_content l d).mp hb'
        rw [hc] at this
        rw [(comparer_eq_content l d').mpr this] at hb
        exact hb
    · exact (comparer_eq_content l d).mpr (hc ▸ (comparer_eq_content l d').mp hb)
  cases hfound : findIdxOpt (fun l => LoadedChasmFloorComparer l d) lists with
  | some i =>
      cases hwall : findIdxOpt (fun t => t.textureAsset == d.wallTextureAsset) vt with
      | none =>
          rw [LoadChasmDefTextures_wall_missing_found o cp1 cid1 d vt lists keys i hkey1
            hfound hwall] at h1
          exact absurd h1 (by simp)
      | some w1 =>
          rw [LoadChasmDefTextures_found o cp1 cid1 d vt lists keys i w1 hkey1
            hfound hwall] at h1
          obtain ⟨e1, e2⟩ := Prod.mk.injEq .. ▸ Option.some.inj h1
          have hfound' : findIdxOpt (fun l => LoadedChasmFloorComparer l d') lists1 = some i := by
            rw [← e1, ← findIdxOpt_congr lists hpred]
            exact hfound
          cases hwall2 : findIdxOpt (fun t => t.textureAsset == d'.wallTextureAsset) vt with
          | none =>
              rw [LoadChasmDefTextures_wall_missing_found o cp2 cid2 d' vt lists1 keys1 i hkey2
                hfound' hwall2] at h2
              exact absurd h2 (by simp)
          | some w2 =>
              rw [LoadChasmDefTextures_found o cp2 cid2 d' vt lists1 keys1 i w2 hkey2
                hfound' hwall2] at h2
              obtain ⟨f1, f2⟩ := Prod.mk.injEq .. ▸ Option.some.inj h2
              exact ⟨i, w1, w2, e2.symm, f2.symm⟩
  | none =>
      cases hwall : findIdxOpt (fun t => t.textureAsset == d.wallTextureAsset) vt with
      | none =>
          rw [LoadChasmDefTextures_wall_missing_new o cp1 cid1 d vt lists keys hkey1
            hfound hsucc hwall] at h1
          exact absurd h1 (by simp)
      | some w1 =>
          rw [LoadChasmDefTextures_new o cp1 cid1 d vt lists keys w1 hkey1
            hfound hsucc hwall] at h1
          obtain ⟨e1, e2⟩ := Prod.mk.injEq .. ▸ Option.some.inj h1
          have hnewcomp : LoadedChasmFloorComparer (newFloorList o d) d' = true :=
            (comparer_eq_content _ d').mpr (newFloorList_content o d ▸ hc ▸ rfl)
          have hfound' : findIdxOpt (fun l => LoadedChasmFloorComparer l d') lists1 =
              some lists.length := by
            rw [← e1]
            refine findIdxOpt_append_new ?_ hnewcomp
            intro x hx
            rw [← hpred x hx]
            exact findIdxOpt_eq_none_iff.mp hfound x hx
          cases hwall2 : findIdxOpt (fun t => t.textureAsset == d'.wallTextureAsset) vt with
          | none =>
              rw [LoadChasmDefTextures_wall_missing_found o cp2 cid2 d' vt lists1 keys1
                lists.length hkey2 hfound' hwall2] at h2
              exact absurd h2 (by simp)
          | some w2 =>
              rw [LoadChasmDefTextures_found o cp2 cid2 d' vt lists1 keys1
                lists.length w2 hkey2 hfound' hwall2] at h2
              obtain ⟨f1, f2⟩ := Prod.mk.injEq .. ▸ Option.some.inj h2
              exact ⟨lists.length, w1, w2, e2.symm, f2.symm⟩

/-- Oracle for the C4 counterexample: loading texture asset `1` fails at the
texture-builder lookup, everything else succeeds. -/
def oracleC4 : TexOracle :=
  { builderOk := fun ta => !(ta == 1)
    createOk := fun _ => true
    texId := fun ta => (ta : ℤ)
    dryCreateOk := fun _ => true
    dryLockOk := fun _ => true
    dryTexId := fun p => 100 + (p : ℤ) }

/-- An animated chasm definition with frames `[0, 1]` and wall asset `7`. -/
def chasmDefC4 : ChasmDefinition :=
  { animType := AnimationType.animated
    paletteIndex := 0
    animatedTextureAssets := [0, 1]
    wallTextureAsset := 7 }

/-- Voxel-texture cache already holding the chasm wall asset. -/
def vtC4 : List LoadedVoxelTexture := [{ textureAsset := 7, objectTextureRef := 70 }]

/-- Cache state after loading `chasmDefC4` for chunk `(0, 0)`. -/
def c4state1 : List LoadedChasmFloorTextureList × List LoadedChasmTextureKey :=
  (LoadChasmDefTextures oracleC4 (0, 0) 0 chasmDefC4 vtC4 [] []).getD ([], [])

/-- Cache state after additionally loading `chasmDefC4` for chunk `(1, 0)`. -/
def c4state2 : List LoadedChasmFloorTextureList × List LoadedChasmTextureKey :=
  (LoadChasmDefTextures oracleC4 (1, 0) 0 chasmDefC4 vtC4 c4state1.1 c4state1.2).getD ([], [])

/-- C4 counterexample: when a frame of an animated chasm definition fails to
load, the cache ends up with two content-equal floor lists, and the very same
chasm definition referenced from two different chunks resolves to two
different floor-list indices (`0` and `1`), contradicting the claim's
unconditional dedup guarantees. -/
theorem claim_C4_counterexample :
    ¬ ((c4state2.1.map floorListContent).Nodup) ∧
    c4state2.2 = [(⟨(0, 0), 0, 0, 0⟩ : LoadedChasmTextureKey),
      (⟨(1, 0), 0, 1, 0⟩ : LoadedChasmTextureKey)] := by
  decide

/-- C4 (amended): provided every texture-builder lookup and GPU texture
creation involved succeeds, the voxel-texture cache holds at most one entry
per distinct texture asset (loading already-cached content creates no new
entry, and `N` assets of which `M` are duplicates yield `N − M` entries), the
chasm floor-texture cache holds at most one list per distinct animation
content, and two chasm definitions with identical content referenced from
different chunks resolve to the same floor-list index. -/
theorem claim_C4_cache_dedup :
    (∀ (o : TexOracle) (L : List TextureAsset) (vt : List LoadedVoxelTexture),
      (vt.map (·.textureAsset)).Nodup →
      ((LoadVoxelDefTextures o L vt).map (·.textureAsset)).Nodup)
    ∧ (∀ (o : TexOracle) (L : List TextureAsset) (vt : List LoadedVoxelTexture),
      (∀ ta ∈ L, ta ∈ vt.map (·.textureAsset)) → LoadVoxelDefTextures o L vt = vt)
    ∧ (∀ (o : TexOracle) (L : List TextureAsset),
      (∀ ta ∈ L, o.builderOk ta = true ∧ o.createOk ta = true) →
      (LoadVoxelDefTextures o L []).length = L.dedup.length)
    ∧ (∀ (o : TexOracle) (cp : ℤ × ℤ) (cid : ℕ) (d : ChasmDefinition)
        (vt : List LoadedVoxelTexture) (lists lists' : List LoadedChasmFloorTextureList)
        (keys keys' : List LoadedChasmTextureKey),
      (lists.map floorListContent).Nodup →
      ChasmDefLoadSucceeds o d →
      LoadChasmDefTextures o cp cid d vt lists keys = some (lists', keys') →
      (lists'.map floorListContent).Nodup)
    ∧ (∀ (o : TexOracle) (cp1 cp2 : ℤ × ℤ) (cid1 cid2 : ℕ) (d d' : ChasmDefinition)
        (vt : List LoadedVoxelTexture)
        (lists lists1 lists2 : List LoadedChasmFloorTextureList)
        (keys keys1 keys2 : List LoadedChasmTextureKey),
      chasmDefContent d = chasmDefContent d' →
      (keys.any fun k => k.chasmDefID == cid1 && k.chunkPos == cp1) = false →
      (keys1.any fun k => k.chasmDefID == cid2 && k.chunkPos == cp2) = false →
      ChasmDefLoadSucceeds o d →
      LoadChasmDefTextures o cp1 cid1 d vt lists keys = some (lists1, keys1) →
      LoadChasmDefTextures o cp2 cid2 d' vt lists1 keys1 = some (lists2, keys2) →
      ∃ i w1 w2, keys1 = keys ++ [(⟨cp1, cid1, i, w1⟩ : LoadedChasmTextureKey)] ∧
        keys2 = keys1 ++ [(⟨cp2, cid2, i, w2⟩ : LoadedChasmTextureKey)]) := by
  refine ⟨LoadVoxelDefTextures_nodup, LoadVoxelDefTextures_of_cached, ?_,
    fun o cp cid d vt lists lists' keys keys' hnd hs h =>
      LoadChasmDefTextures_preserves_content_nodup o cp cid d vt lists keys lists' keys' hnd hs h,
    fun o cp1 cp2 cid1 cid2 d d' vt lists lists1 lists2 keys keys1 keys2 hc h1 h2 hs hl1 hl2 =>
      LoadChasmDefTextures_same_content_same_index o cp1 cp2 cid1 cid2 d d' vt
        lists lists1 lists2 keys keys1 keys2 hc h1 h2 hs hl1 hl2⟩
  intro o L hs
  have h2 := LoadVoxelDefTextures_nodup o L [] (by simp)
  have h1 := LoadVoxelDefTextures_toFinset o L [] hs
  have h3 : ((LoadVoxelDefTextures o L []).map (·.textureAsset)).toFinset = L.toFinset := by
    rw [h1]
    simp
  have h4 := List.toFinset_card_of_nodup h2
  rw [h3] at h4
  rw [List.length_map] at h4
  rw [← h4]
  rfl

/-- Oracle where every texture-manager and renderer call succeeds. -/
def oracleAllOk : TexOracle :=
  { builderOk := fun _ => true
    createOk := fun _ => true
    texId := fun ta => (ta : ℤ)
    dryCreateOk := fun _ => true
    dryLockOk := fun _ => true
    dryTexId := fun p => 100 + (p : ℤ) }

/-- An animated chasm definition with one frame asset `5` and wall asset `7`. -/
def chasmDefW : ChasmDefinition :=
  { animType := AnimationType.animated
    paletteIndex := 0
    animatedTextureAssets := [5]
    wallTextureAsset := 7 }

/-- Floor lists after loading `chasmDefW` once with the all-success oracle. -/
def listsW1 : List LoadedChasmFloorTextureList :=
  [LoadedChasmFloorTextureList.initTextured [5] [5]]

/-- Keys after loading `chasmDefW` for chunk `(0, 0)`. -/
def keysW1 : List LoadedChasmTextureKey := [⟨(0, 0), 0, 0, 0⟩]

/-- Keys after additionally loading `chasmDefW` for chunk `(1, 0)`. -/
def keysW2 : List LoadedChasmTextureKey := keysW1 ++ [⟨(1, 0), 1, 0, 0⟩]

theorem claim_C4_cache_dedup_witness :
    ((LoadVoxelDefTextures oracleAllOk [3, 4, 3] []).map (·.textureAsset)).Nodup
    ∧ LoadVoxelDefTextures oracleAllOk [7] vtC4 = vtC4
    ∧ (LoadVoxelDefTextures oracleAllOk [3, 4, 3] []).length = 2
    ∧ (listsW1.map floorListContent).Nodup
    ∧ (∃ i w1 w2,
        keysW1 = [] ++ [(⟨(0, 0), 0, i, w1⟩ : LoadedChasmTextureKey)] ∧
        keysW2 = keysW1 ++ [(⟨(1, 0), 1, i, w2⟩ : LoadedChasmTextureKey)]) := by
  obtain ⟨t1, t2, t3, t4, t5⟩ := claim_C4_cache_dedup
  refine ⟨t1 oracleAllOk [3, 4, 3] [] (by decide),
    t2 oracleAllOk [7] vtC4 (by decide), ?_, ?_, ?_⟩
  · have h := t3 oracleAllOk [3, 4, 3] (by decide)
    rw [h]
    decide
  · exact t4 oracleAllOk (0, 0) 0 chasmDefW vtC4 [] listsW1 [] keysW1 (by decide)
      (by intro ta hta; exact ⟨rfl, rfl⟩) (by decide)
  · exact t5 oracleAllOk (0, 0) (1, 0) 0 1 chasmDefW chasmDefW vtC4 [] listsW1 listsW1
      [] keysW1 keysW2 rfl (by decide) (by decide)
      (by intro ta hta; exact ⟨rfl, rfl⟩) (by decide) (by decide)

/-- An animated chasm definition whose single frame asset `1` fails to load
under `oracleC4`. -/
def chasmDefC10 : ChasmDefinition :=
  { animType := AnimationType.animated
    paletteIndex := 0
    animatedTextureAssets := [1]
    wallTextureAsset := 7 }

/-- Cache state after loading `chasmDefC10` when its only frame fails. -/
def c10state : List LoadedChasmFloorTextureList × List LoadedChasmTextureKey :=
  (LoadChasmDefTextures oracleC4 (0, 0) 0 chasmDefC10 vtC4 [] []).getD ([], [])

/-- C10 (code bug): when every frame asset of an animated chasm definition
fails to load, `LoadChasmDefTextures` still caches the floor-texture list —
with zero GPU texture handles — so the cached-list invariant claimed (at
least one handle per cached list) is violated and
`getTextureIndex`'s own `textureCount >= 1` assertion fails on that list. -/
theorem claim_C10_empty_floor_list :
    c10state.1 = [LoadedChasmFloorTextureList.initTextured [] []]
    ∧ (LoadedChasmFloorTextureList.initTextured [] []).objectTextureRefs.length = 0
    ∧ (LoadedChasmFloorTextureList.initTextured [] []).getTextureIndex 0 = none := by
  decide

/-- Modelled from the spec: the four chasm-wall adjacency bit constants of
`ArenaMeshUtils` (its `.cpp` is outside the reviewed sample); four distinct
bits for north, east, south, west. -/
def CHASM_WALL_NORTH : ℕ := 1

/-- Modelled from the spec: east adjacency bit. -/
def CHASM_WALL_EAST : ℕ := 2

/-- Modelled from the spec: south adjacency bit. -/
def CHASM_WALL_SOUTH : ℕ := 4

/-- Modelled from the spec: west adjacency bit. -/
def CHASM_WALL_WEST : ℕ := 8

/-- The four per-face index patterns produced by
`ArenaMeshUtils::WriteChasmWallRendererIndexBuffers` (modelled from the spec:
a fixed two-triangle pattern per face; the writer lives outside the reviewed
sample, so the patterns are parameters). -/
structure ChasmWallPatterns where
  north : List ℤ
  east : List ℤ
  south : List ℤ
  west : List ℤ

/-- The `countFace` sum in `RenderChunkManager::init`. -/
def chasmWallFaceCount (n e s w : Bool) : ℕ :=
  (cond n 1 0) + (cond e 1 0) + (cond s 1 0) + (cond w 1 0)

/-- The `tryWriteIndices` sequence in `RenderChunkManager::init`: concatenate
the fixed pattern of each present face in the order north, east, south,
west. -/
def chasmWallIndices (pat : ChasmWallPatterns) (n e s w : Bool) : List ℤ :=
  (if n then pat.north else []) ++ (if e then pat.east else []) ++
    (if s then pat.south else []) ++ (if w then pat.west else [])

/-- One slot of the chasm-wall index-buffer table built by
`RenderChunkManager::init`: slot `i` holds the combination with adjacency
bits `i + 1`; a zero-face combination or a failed index-buffer creation
(`createOk i = false`, logged and skipped) leaves the slot empty (`-1`). -/
def chasmWallIndexBufferSlot (pat : ChasmWallPatterns) (createOk : ℕ → Bool)
    (i : ℕ) : Option (List ℤ) :=
  let baseIndex := i + 1
  let hasNorth := baseIndex.land CHASM_WALL_NORTH != 0
  let hasEast := baseIndex.land CHASM_WALL_EAST != 0
  let hasSouth := baseIndex.land CHASM_WALL_SOUTH != 0
  let hasWest := baseIndex.land CHASM_WALL_WEST != 0
  if chasmWallFaceCount hasNorth hasEast hasSouth hasWest = 0 then
    none
  else if createOk i then
    some (chasmWallIndices pat hasNorth hasEast hasSouth hasWest)
  else
    none

/-- The adjacency bit-mask of a face combination. -/
def chasmWallBits (n e s w : Bool) : ℕ :=
  (cond n CHASM_WALL_NORTH 0) + (cond e CHASM_WALL_EAST 0) +
    (cond s CHASM_WALL_SOUTH 0) + (cond w CHASM_WALL_WEST 0)

/-- C9: after startup initialization, for each of the 16 combinations of the
north/east/south/west adjacency bits with at least one bit set, the
chasm-wall table slot for that combination holds an index buffer of exactly
`facesPresent * indicesPerFace` indices, formed by concatenating the fixed
two-triangle pattern of each present face in the order north, east, south,
west; the all-zero combination (slot 15, base index 16) has no buffer. -/
theorem claim_C9_chasm_wall_table (pat : ChasmWallPatterns) (createOk : ℕ → Bool)
    (hN : pat.north.length = 6) (hE : pat.east.length = 6)
    (hS : pat.south.length = 6) (hW : pat.west.length = 6)
    (hok : ∀ i < 16, createOk i = true) :
    (∀ n e s w : Bool, (n || e || s || w) = true →
      chasmWallIndexBufferSlot pat createOk (chasmWallBits n e s w - 1) =
        some (chasmWallIndices pat n e s w) ∧
      (chasmWallIndices pat n e s w).length = chasmWallFaceCount n e s w * 6)
    ∧ chasmWallIndexBufferSlot pat createOk 15 = none := by
  constructor
  · intro n e s w hne
    have hslot : createOk (chasmWallBits n e s w - 1) = true := by
      apply hok
      cases n <;> cases e <;> cases s <;> cases w <;> decide
    cases n <;> cases e <;> cases s <;> cases w <;>
      simp_all +decide [chasmWallIndexBufferSlot, chasmWallBits, chasmWallIndices,
        chasmWallFaceCount, CHASM_WALL_NORTH, CHASM_WALL_EAST, CHASM_WALL_SOUTH,
        CHASM_WALL_WEST]
  · simp +decide [chasmWallIndexBufferSlot, chasmWallFaceCount, CHASM_WALL_NORTH,
      CHASM_WALL_EAST, CHASM_WALL_SOUTH, CHASM_WALL_WEST]

/-- Concrete length-6 index patterns for the C9 witness. -/
def patW : ChasmWallPatterns :=
  { north := [0, 1, 2, 0, 2, 3]
    east := [4, 5, 6, 4, 6, 7]
    south := [8, 9, 10, 8, 10, 11]
    west := [12, 13, 14, 12, 14, 15] }

theorem claim_C9_chasm_wall_table_witness :
    patW.north.length = 6 ∧
    ((∀ n e s w : Bool, (n || e || s || w) = true →
      chasmWallIndexBufferSlot patW (fun _ => true) (chasmWallBits n e s w - 1) =
        some (chasmWallIndices patW n e s w) ∧
      (chasmWallIndices patW n e s w).length = chasmWallFaceCount n e s w * 6)
    ∧ chasmWallIndexBufferSlot patW (fun _ => true) 15 = none) :=
  ⟨rfl, claim_C9_chasm_wall_table patW (fun _ => true) rfl rfl rfl rfl
    (fun _ _ => rfl)⟩

/-- GPU buffer events observable in `RenderChunkManager::loadVoxelMeshBuffers`
for one voxel mesh shape. -/
inductive BufEvent where
  | createVertexBuffer
  | createAttributeBuffer
  | createIndexBuffer
  | createFail
  | freeShapeBuffers
deriving DecidableEq, Repr

/-- Shape-relevant inputs of one `VoxelMeshDefinition` in
`loadVoxelMeshBuffers`. -/
structure MeshShape where
  isEmpty : Bool
  opaqueIndexBufferCount : ℕ
  hasAlphaTested : Bool
deriving DecidableEq, Repr

/-- The opaque index-buffer loop of `loadVoxelMeshBuffers`: on a creation
failure the code logs, frees the shape's buffers and `continue`s — which
continues the *inner* `bufferIndex` loop, so later iterations still create
index buffers. `ok` is the per-call success schedule of
`Renderer::tryCreate*`, `c` the running call counter. -/
def opaqueLoopEvents (ok : ℕ → Bool) : ℕ → ℕ → List BufEvent × ℕ
  | c, 0 => ([], c)
  | c, Nat.succ k =>
      let rest := opaqueLoopEvents ok (c + 1) k
      if ok c then (BufEvent.createIndexBuffer :: rest.1, rest.2)
      else (BufEvent.createFail :: BufEvent.freeShapeBuffers :: rest.1, rest.2)

/-- Processing of one shape in `loadVoxelMeshBuffers`: returns the buffer
event trace, the new call counter, and whether `addMeshDefinition` (plus the
`meshDefMappings` entry) was reached for this shape.  Vertex/attribute and
alpha-tested index-buffer failures abort the shape (outer `continue`); an
opaque index-buffer failure frees the buffers but only continues the inner
loop. -/
def processShape (ok : ℕ → Bool) (c : ℕ) (shape : MeshShape) :
    List BufEvent × ℕ × Bool :=
  if shape.isEmpty then ([], c, true)
  else if !ok c then ([BufEvent.createFail], c + 1, false)
  else if !ok (c + 1) then
    ([BufEvent.createVertexBuffer, BufEvent.createFail, BufEvent.freeShapeBuffers],
      c + 2, false)
  else if !ok (c + 2) then
    ([BufEvent.createVertexBuffer, BufEvent.createAttributeBuffer, BufEvent.createFail,
      BufEvent.freeShapeBuffers], c + 3, false)
  else
    let op := opaqueLoopEvents ok (c + 3) shape.opaqueIndexBufferCount
    let base := [BufEvent.createVertexBuffer, BufEvent.createAttributeBuffer,
      BufEvent.createAttributeBuffer] ++ op.1
    if shape.hasAlphaTested then
      if ok op.2 then (base ++ [BufEvent.createIndexBuffer], op.2 + 1, true)
      else (base ++ [BufEvent.createFail, BufEvent.freeShapeBuffers], op.2 + 1, false)
    else (base, op.2, true)

/-- Everything after the first `freeShapeBuffers` event of a trace. -/
def dropThroughFirstFree : List BufEvent → List BufEvent
  | [] => []
  | e :: rest =>
      if e = BufEvent.freeShapeBuffers then rest else dropThroughFirstFree rest

/-- Whether an event creates a GPU buffer. -/
def isCreateEvent : BufEvent → Bool
  | BufEvent.createVertexBuffer => true
  | BufEvent.createAttributeBuffer => true
  | BufEvent.createIndexBuffer => true
  | _ => false

/-- Schedule for the C5 failing input: the fourth creation call (the first
opaque index buffer of the shape) fails, everything else succeeds. -/
def schedC5 : ℕ → Bool := fun n => !(n == 3)

/-- A wall-like shape: three opaque index groups, no alpha-tested group. -/
def shapeC5 : MeshShape :=
  { isEmpty := false, opaqueIndexBufferCount := 3, hasAlphaTested := false }

/-- C5 (code bug): when the first opaque index-buffer creation for a shape
fails, the code frees the shape's buffers but the `continue` lands on the
inner `bufferIndex` loop, so the remaining opaque index buffers are still
created after the release, and the partially-freed mesh definition is still
added to the render chunk (`addMeshDefinition` reached, flag `true`) —
contradicting the claim that no further buffers are created for that shape
and no partially-initialized mesh state is left. -/
theorem claim_C5_mesh_buffer_failure :
    processShape schedC5 0 shapeC5 =
      ([BufEvent.createVertexBuffer, BufEvent.createAttributeBuffer,
        BufEvent.createAttributeBuffer, BufEvent.createFail, BufEvent.freeShapeBuffers,
        BufEvent.createIndexBuffer, BufEvent.createIndexBuffer], 6, true)
    ∧ ((dropThroughFirstFree (processShape schedC5 0 shapeC5).1).any isCreateEvent) = true := by
  decide

/-- `ArenaTypes::VoxelType`. -/
inductive VoxelType where
  | air
  | wall
  | floor
  | ceiling
  | raised
  | diagonal
  | transparentWall
  | edge
  | chasm
  | door
deriving DecidableEq, Repr

/-- `ArenaTypes::ChasmType`. -/
inductive ChasmType where
  | dry
  | wet
  | lava
deriving DecidableEq, Repr

/-- `ArenaTypes::DoorType`. -/
inductive DoorType where
  | swinging
  | sliding
  | raising
  | splitting
deriving DecidableEq, Repr

/-- `ArenaMeshUtils::GetOpaqueIndexBufferCount`. -/
def GetOpaqueIndexBufferCount : VoxelType → ℕ
  | VoxelType.wall => 3
  | VoxelType.raised => 2
  | VoxelType.floor => 1
  | VoxelType.ceiling => 1
  | VoxelType.diagonal => 1
  | VoxelType.chasm => 1
  | VoxelType.air => 0
  | VoxelType.transparentWall => 0
  | VoxelType.edge => 0
  | VoxelType.door => 0

/-- `ArenaMeshUtils::GetAlphaTestedIndexBufferCount`. -/
def GetAlphaTestedIndexBufferCount : VoxelType → ℕ
  | VoxelType.air => 0
  | VoxelType.wall => 0
  | VoxelType.floor => 0
  | VoxelType.ceiling => 0
  | VoxelType.diagonal => 0
  | VoxelType.chasm => 0
  | VoxelType.raised => 1
  | VoxelType.transparentWall => 1
  | VoxelType.edge => 1
  | VoxelType.door => 1

/-- `sgTexture::GetVoxelOpaqueTextureAssetIndex`; `none` is the
`DebugUnhandledReturn`/`DebugNotImplemented` crash outcome. -/
def GetVoxelOpaqueTextureAssetIndex (voxelType : VoxelType) (indexBufferIndex : ℕ) :
    Option ℕ :=
  match voxelType with
  | VoxelType.wall => some indexBufferIndex
  | VoxelType.floor => some indexBufferIndex
  | VoxelType.ceiling => some indexBufferIndex
  | VoxelType.diagonal => some indexBufferIndex
  | VoxelType.raised =>
      if indexBufferIndex = 0 then some 1
      else if indexBufferIndex = 1 then some 2
      else none
  | VoxelType.chasm => if indexBufferIndex = 0 then some 0 else none
  | _ => none

/-- `sgTexture::GetVoxelAlphaTestedTextureAssetIndex`; `none` is the crash
outcome. -/
def GetVoxelAlphaTestedTextureAssetIndex (voxelType : VoxelType) : Option ℕ :=
  match voxelType with
  | VoxelType.raised => some 0
  | VoxelType.transparentWall => some 0
  | VoxelType.edge => some 0
  | VoxelType.door => some 0
  | VoxelType.chasm => some 1
  | _ => none

/-- The only `Matrix4d` values constructed by the draw-call code: identity,
`Matrix4d::yRotation(radians)` and `Matrix4d::scale(x, y, z)`. -/
inductive Matrix4 where
  | identity
  | yRotation (radians : ℚ)
  | scale (x y z : ℚ)
deriving DecidableEq, Repr

/-- `VertexShaderType` variants used by the voxel draw-call code. -/
inductive VertexShaderType where
  | voxel
  | swingingDoor
  | slidingDoor
  | raisingDoor
deriving DecidableEq, Repr

/-- `PixelShaderType` variants used by the voxel draw-call code. -/
inductive PixelShaderType where
  | opaqueShader
  | opaqueWithFade
  | alphaTested
  | alphaTestedWithVariableTexCoordUMin
  | alphaTestedWithVariableTexCoordVMin
  | opaqueWithAlphaTestLayer
deriving DecidableEq, Repr

/-- `TextureSamplingType`. -/
inductive TextureSamplingType where
  | defaultSampling
  | screenSpaceRepeatY
deriving DecidableEq, Repr

/-- `RenderDrawCall`: a plain value record; buffer/texture handles are weak
references. -/
structure RenderDrawCall where
  position : ℚ × ℚ × ℚ
  preScaleTranslation : ℚ × ℚ × ℚ
  rotation : Matrix4
  scale : Matrix4
  vertexBufferID : ℤ
  normalBufferID : ℤ
  texCoordBufferID : ℤ
  indexBufferID : ℤ
  textureID0 : ObjectTextureID
  textureID1 : Option ObjectTextureID
  textureSamplingType : TextureSamplingType
  vertexShaderType : VertexShaderType
  pixelShaderType : PixelShaderType
  pixelShaderParam0 : ℚ
deriving DecidableEq, Repr

/-- The four draw-call lists of a `RenderChunk`. -/
structure DrawLists where
  staticDrawCalls : List RenderDrawCall
  doorDrawCalls : List RenderDrawCall
  chasmDrawCalls : List RenderDrawCall
  fadingDrawCalls : List RenderDrawCall
deriving DecidableEq, Repr

/-- No draw calls. -/
def DrawLists.empty : DrawLists := ⟨[], [], [], []⟩

/-- List-wise concatenation of draw-call lists. -/
def DrawLists.append (a b : DrawLists) : DrawLists :=
  ⟨a.staticDrawCalls ++ b.staticDrawCalls, a.doorDrawCalls ++ b.doorDrawCalls,
    a.chasmDrawCalls ++ b.chasmDrawCalls, a.fadingDrawCalls ++ b.fadingDrawCalls⟩

/-- Named constants and small helpers living outside the reviewed sample
(modelled from the spec): `Constants::HalfPi`, `Constants::Epsilon`,
`ArenaRenderUtils::DOOR_MIN_VISIBLE`, the `DoorUtils` hinge-offset and
base-angle tables, and `VoxelUtils::chunkVoxelToNewVoxel`. -/
structure RenderConsts where
  halfPi : ℚ
  epsilon : ℚ
  doorMinVisible : ℚ
  hingeOffset : Fin 4 → ℚ × ℚ × ℚ
  baseAngle : Fin 4 → ℚ
  chunkVoxelToWorldXZ : (ℤ × ℤ) → (ℤ × ℤ) → ℤ × ℤ

/-- The per-shape GPU resources of a `RenderVoxelMeshDefinition` as seen by
the draw-call assembler (`opaqueIndexBufferIdCount` is the length of the
opaque index-buffer list). -/
structure RenderMeshInfo where
  vertexBufferID : ℤ
  normalBufferID : ℤ
  texCoordBufferID : ℤ
  opaqueIndexBufferIDs : List ℤ
  alphaTestedIndexBufferID : ℤ
deriving DecidableEq, Repr

/-- Door state of a voxel: definition type, optional animation instance
(percent open) and optional visibility instance (visible faces, in
`DoorUtils::Facings` order). -/
structure DoorInfo where
  doorType : DoorType
  animPercent : Option ℚ
  visibleFaces : Option (Bool × Bool × Bool × Bool)
deriving DecidableEq, Repr

/-- Chasm state of a voxel: its chasm definition id, chasm sub-type and the
chunk's precomputed wall index buffer for this voxel, if any. -/
structure ChasmInfo where
  chasmDefID : ℕ
  chasmType : ChasmType
  wallIndexBufferID : Option ℤ
deriving DecidableEq, Repr

/-- One non-air voxel as visited by
`RenderChunkManager::loadVoxelDrawCalls`: its coordinate, mesh emptiness,
traits type, texture-definition assets, optional door/chasm/fade state, and
the resolved render mesh resources. -/
structure VoxelEntry where
  x : ℤ
  y : ℤ
  z : ℤ
  meshEmpty : Bool
  vtype : VoxelType
  textureAssets : List TextureAsset
  doorInfo : Option DoorInfo
  chasmInfo : Option ChasmInfo
  fadePercent : Option ℚ
  mesh : RenderMeshInfo
deriving DecidableEq, Repr

/-- The `std::find_if` over `voxelTextures` used in the draw-call opaque and
alpha-tested paths; a missing entry is logged and the draw call skipped. -/
def lookupVoxelTexture (vt : List LoadedVoxelTexture) (ta : TextureAsset) :
    Option ObjectTextureID :=
  (vt.find? fun t => t.textureAsset == ta).map (·.objectTextureRef)

/-- `RenderChunkManager::getChasmFloorTextureID`; `none` is the crash outcome
of its `DebugAssertMsg`/`DebugAssertIndex` checks. -/
def getChasmFloorTextureID (lists : List LoadedChasmFloorTextureList)
    (keys : List LoadedChasmTextureKey) (chunkPos : ℤ × ℤ) (chasmDefID : ℕ)
    (chasmAnimPercent : ℚ) : Option ObjectTextureID :=
  match keys.find? fun k => k.chunkPos == chunkPos && k.chasmDefID == chasmDefID with
  | none => none
  | some key =>
      match lists.get? key.chasmFloorListIndex with
      | none => none
      | some l =>
          match l.getTextureIndex chasmAnimPercent with
          | none => none
          | some idx =>
              if idx < 0 then none
              else l.objectTextureRefs.get? idx.toNat

/-- `RenderChunkManager::getChasmWallTextureID`; `none` is the crash outcome
(missing key assert, or indexing `voxelTextures` out of bounds). -/
def getChasmWallTextureID (vt : List LoadedVoxelTexture)
    (keys : List LoadedChasmTextureKey) (chunkPos : ℤ × ℤ) (chasmDefID : ℕ) :
    Option ObjectTextureID :=
  match keys.find? fun k => k.chunkPos == chunkPos && k.chasmDefID == chasmDefID with
  | none => none
  | some key => (vt.get? key.chasmWallIndex).map (·.objectTextureRef)

/-- Componentwise addition of positions. -/
def addQ3 (a b : ℚ × ℚ × ℚ) : ℚ × ℚ × ℚ := (a.1 + b.1, a.2.1 + b.2.1, a.2.2 + b.2.2)

/-- The voxel's world-space position (`VoxelUtils::chunkVoxelToNewVoxel` on
XZ, `y * ceilingScale` on Y). -/
def voxelWorldPos (consts : RenderConsts) (chunkPos : ℤ × ℤ) (ceilingScale : ℚ)
    (v : VoxelEntry) : ℚ × ℚ × ℚ :=
  let worldXZ := consts.chunkVoxelToWorldXZ chunkPos (v.x, v.z)
  ((worldXZ.1 : ℚ), (v.y : ℚ) * ceilingScale, (worldXZ.2 : ℚ))

/-- Texture resolution of one opaque index-buffer group: the cache lookup
for ordinary voxels (`none` result: logged miss, the group is skipped) or the
chasm floor lookup for chasm voxels (whose asserts crash). -/
def opaqueGroupTexture (vt : List LoadedVoxelTexture)
    (lists : List LoadedChasmFloorTextureList) (keys : List LoadedChasmTextureKey)
    (chunkPos : ℤ × ℤ) (chasmAnimPercent : ℚ) (v : VoxelEntry) (bufferIndex : ℕ) :
    Except Unit (Option ObjectTextureID) :=
  match v.chasmInfo with
  | none =>
      match GetVoxelOpaqueTextureAssetIndex v.vtype bufferIndex with
      | none => Except.error ()
      | some textureAssetIndex =>
          match v.textureAssets.get? textureAssetIndex with
          | none => Except.error ()
          | some ta => Except.ok (lookupVoxelTexture vt ta)
  | some c =>
      match getChasmFloorTextureID lists keys chunkPos c.chasmDefID chasmAnimPercent with
      | none => Except.error ()
      | some tid => Except.ok (some tid)

/-- One iteration of the opaque index-buffer loop of
`RenderChunkManager::loadVoxelDrawCalls`: resolve the texture, skip the group
if it resolved to no handle (`textureID < 0`), otherwise emit one draw call
routed to the chasm, fading, or static list.  `Except.error` is the crash
outcome. -/
def emitOpaqueGroup (vt : List LoadedVoxelTexture)
    (lists : List LoadedChasmFloorTextureList) (keys : List LoadedChasmTextureKey)
    (chunkPos : ℤ × ℤ) (chasmAnimPercent : ℚ) (worldPos : ℚ × ℚ × ℚ)
    (v : VoxelEntry) (bufferIndex : ℕ) : Except Unit DrawLists :=
  match opaqueGroupTexture vt lists keys chunkPos chasmAnimPercent v bufferIndex with
  | Except.error () => Except.error ()
  | Except.ok none => Except.ok DrawLists.empty
  | Except.ok (some textureID) =>
      match v.mesh.opaqueIndexBufferIDs.get? bufferIndex with
      | none => Except.error ()
      | some opaqueIndexBufferID =>
          let isChasm := v.chasmInfo.isSome
          let isFading := v.fadePercent.isSome
          let textureSamplingType :=
            if !isChasm then TextureSamplingType.defaultSampling
            else TextureSamplingType.screenSpaceRepeatY
          let pixelShaderType :=
            if isFading then PixelShaderType.opaqueWithFade else PixelShaderType.opaqueShader
          let pixelShaderParam0 : ℚ :=
            match v.fadePercent with
            | some f => f
            | none => 0
          let call : RenderDrawCall :=
            { position := worldPos
              preScaleTranslation := (0, 0, 0)
              rotation := Matrix4.identity
              scale := Matrix4.identity
              vertexBufferID := v.mesh.vertexBufferID
              normalBufferID := v.mesh.normalBufferID
              texCoordBufferID := v.mesh.texCoordBufferID
              indexBufferID := opaqueIndexBufferID
              textureID0 := textureID
              textureID1 := none
              textureSamplingType := textureSamplingType
              vertexShaderType := VertexShaderType.voxel
              pixelShaderType := pixelShaderType
              pixelShaderParam0 := pixelShaderParam0 }
          if isChasm then Except.ok { DrawLists.empty with chasmDrawCalls := [call] }
          else if isFading then Except.ok { DrawLists.empty with fadingDrawCalls := [call] }
          else Except.ok { DrawLists.empty with staticDrawCalls := [call] }

/-- The opaque index-buffer loop over all groups of the voxel's render mesh. -/
def emitOpaqueSection (vt : List LoadedVoxelTexture)
    (lists : List LoadedChasmFloorTextureList) (keys : List LoadedChasmTextureKey)
    (chunkPos : ℤ × ℤ) (chasmAnimPercent : ℚ) (worldPos : ℚ × ℚ × ℚ)
    (v : VoxelEntry) : Except Unit DrawLists :=
  (List.range v.mesh.opaqueIndexBufferIDs.length).foldlM
    (fun acc bufferIndex => do
      let d ← emitOpaqueGroup vt lists keys chunkPos chasmAnimPercent worldPos v bufferIndex
      pure (acc.append d))
    DrawLists.empty

/-- Face flag of a door visibility instance, in `DoorUtils::Facings` order. -/
def visFlag (vis : Bool × Bool × Bool × Bool) : Fin 4 → Bool
  | ⟨0, _⟩ => vis.1
  | ⟨1, _⟩ => vis.2.1
  | ⟨2, _⟩ => vis.2.2.1
  | ⟨3, _⟩ => vis.2.2.2

/-- Number of visible faces. -/
def visCount (vis : Bool × Bool × Bool × Bool) : ℕ :=
  (cond vis.1 1 0) + (cond vis.2.1 1 0) + (cond vis.2.2.1 1 0) + (cond vis.2.2.2 1 0)

/-- The per-face door loop: one draw call per visible face, in face order. -/
def doorFaceCalls (vis : Bool × Bool × Bool × Bool) (mk : Fin 4 → RenderDrawCall) :
    List RenderDrawCall :=
  (List.finRange 4).foldl (fun acc i => if visFlag vis i then acc ++ [mk i] else acc) []

/-- The alpha-tested section of `loadVoxelDrawCalls` for one voxel: the
`DebugAssert(!isChasm)`, the texture lookup (a miss `continue`s to the next
voxel — second component `true`), and for doors the per-face draw calls by
door type (`Splitting` is `DebugNotImplemented`, a crash); non-door voxels
get a single static alpha-tested draw call. -/
def emitAlphaSection (vt : List LoadedVoxelTexture) (consts : RenderConsts)
    (ceilingScale : ℚ) (worldPos : ℚ × ℚ × ℚ) (v : VoxelEntry) :
    Except Unit (DrawLists × Bool) := do
  if v.chasmInfo.isSome then Except.error () else
  match GetVoxelAlphaTestedTextureAssetIndex v.vtype with
  | none => Except.error ()
  | some textureAssetIndex =>
      match v.textureAssets.get? textureAssetIndex with
      | none => Except.error ()
      | some ta =>
          match lookupVoxelTexture vt ta with
          | none => pure (DrawLists.empty, true)
          | some textureID =>
              match v.doorInfo with
              | some door => do
                  let doorAnimPercent := door.animPercent.getD 0
                  match door.visibleFaces with
                  | none => pure (DrawLists.empty, true)
                  | some vis =>
                      if visCount vis > 2 then Except.error () else
                      match door.doorType with
                      | DoorType.swinging =>
                          let rotationAmount :=
                            -(consts.halfPi - consts.epsilon) * doorAnimPercent
                          let calls := doorFaceCalls vis fun i =>
                            { position := addQ3 worldPos (consts.hingeOffset i)
                              preScaleTranslation := (0, 0, 0)
                              rotation := Matrix4.yRotation (consts.baseAngle i + rotationAmount)
                              scale := Matrix4.identity
                              vertexBufferID := v.mesh.vertexBufferID
                              normalBufferID := v.mesh.normalBufferID
                              texCoordBufferID := v.mesh.texCoordBufferID
                              indexBufferID := v.mesh.alphaTestedIndexBufferID
                              textureID0 := textureID
                              textureID1 := none
                              textureSamplingType := TextureSamplingType.defaultSampling
                              vertexShaderType := VertexShaderType.swingingDoor
                              pixelShaderType := PixelShaderType.alphaTested
                              pixelShaderParam0 := 0 }
                          pure ({ DrawLists.empty with doorDrawCalls := calls }, false)
                      | DoorType.sliding =>
                          let uMin := (1 - consts.doorMinVisible) * doorAnimPercent
                          let scaleAmount := 1 - uMin
                          let calls := doorFaceCalls vis fun i =>
                            { position := addQ3 worldPos (consts.hingeOffset i)
                              preScaleTranslation := (0, 0, 0)
                              rotation := Matrix4.yRotation (consts.baseAngle i)
                              scale := Matrix4.scale 1 1 scaleAmount
                              vertexBufferID := v.mesh.vertexBufferID
                              normalBufferID := v.mesh.normalBufferID
                              texCoordBufferID := v.mesh.texCoordBufferID
                              indexBufferID := v.mesh.alphaTestedIndexBufferID
                              textureID0 := textureID
                              textureID1 := none
                              textureSamplingType := TextureSamplingType.defaultSampling
                              vertexShaderType := VertexShaderType.slidingDoor
                              pixelShaderType := PixelShaderType.alphaTestedWithVariableTexCoordUMin
                              pixelShaderParam0 := uMin }
                          pure ({ DrawLists.empty with doorDrawCalls := calls }, false)
                      | DoorType.raising =>
                          let preScaleTranslationY := -ceilingScale
                          let vMin := (1 - consts.doorMinVisible) * doorAnimPercent
                          let scaleAmount := 1 - vMin
                          let calls := doorFaceCalls vis fun i =>
                            { position := addQ3 worldPos (consts.hingeOffset i)
                              preScaleTranslation := (1, preScaleTranslationY, 1)
                              rotation := Matrix4.yRotation (consts.baseAngle i)
                              scale := Matrix4.scale 1 scaleAmount 1
                              vertexBufferID := v.mesh.vertexBufferID
                              normalBufferID := v.mesh.normalBufferID
                              texCoordBufferID := v.mesh.texCoordBufferID
                              indexBufferID := v.mesh.alphaTestedIndexBufferID
                              textureID0 := textureID
                              textureID1 := none
                              textureSamplingType := TextureSamplingType.defaultSampling
                              vertexShaderType := VertexShaderType.raisingDoor
                              pixelShaderType := PixelShaderType.alphaTestedWithVariableTexCoordVMin
                              pixelShaderParam0 := vMin }
                          pure ({ DrawLists.empty with doorDrawCalls := calls }, false)
                      | DoorType.splitting => Except.error ()
              | none =>
                  let call : RenderDrawCall :=
                    { position := worldPos
                      preScaleTranslation := (0, 0, 0)
                      rotation := Matrix4.identity
                      scale := Matrix4.identity
                      vertexBufferID := v.mesh.vertexBufferID
                      normalBufferID := v.mesh.normalBufferID
                      texCoordBufferID := v.mesh.texCoordBufferID
                      indexBufferID := v.mesh.alphaTestedIndexBufferID
                      textureID0 := textureID
                      textureID1 := none
                      textureSamplingType := TextureSamplingType.defaultSampling
                      vertexShaderType := VertexShaderType.voxel
                      pixelShaderType := PixelShaderType.alphaTested
                      pixelShaderParam0 := 0 }
                  pure ({ DrawLists.empty with staticDrawCalls := [call] }, false)

/-- The chasm-wall section of `loadVoxelDrawCalls` for one voxel: if the
chunk has a precomputed wall index buffer for this voxel, `DebugAssert` the
traits type is `Chasm` (outside the flag check), then — when the chasm's
animation category matches the rebuild request (dry chasms are static,
liquid chasms animate) — emit one two-texture draw call into the chasm
list. -/
def emitChasmWallSection (vt : List LoadedVoxelTexture)
    (lists : List LoadedChasmFloorTextureList) (keys : List LoadedChasmTextureKey)
    (chunkPos : ℤ × ℤ) (chasmAnimPercent : ℚ) (worldPos : ℚ × ℚ × ℚ)
    (updateStatics updateAnimating : Bool) (v : VoxelEntry) : Except Unit DrawLists :=
  match v.chasmInfo with
  | none => pure DrawLists.empty
  | some c =>
      match c.wallIndexBufferID with
      | none => pure DrawLists.empty
      | some chasmWallIndexBufferID =>
          if v.vtype ≠ VoxelType.chasm then Except.error () else
          let isAnimatingChasm : Bool := !(c.chasmType == ChasmType.dry)
          if (!isAnimatingChasm && updateStatics) || (isAnimatingChasm && updateAnimating) then
            match getChasmFloorTextureID lists keys chunkPos c.chasmDefID chasmAnimPercent with
            | none => Except.error ()
            | some textureID0 =>
                match getChasmWallTextureID vt keys chunkPos c.chasmDefID with
                | none => Except.error ()
                | some textureID1 =>
                    Except.ok { DrawLists.empty with chasmDrawCalls :=
                      [{ position := worldPos
                         preScaleTranslation := (0, 0, 0)
                         rotation := Matrix4.identity
                         scale := Matrix4.identity
                         vertexBufferID := v.mesh.vertexBufferID
                         normalBufferID := v.mesh.normalBufferID
                         texCoordBufferID := v.mesh.texCoordBufferID
                         indexBufferID := chasmWallIndexBufferID
                         textureID0 := textureID0
                         textureID1 := some textureID1
                         textureSamplingType := TextureSamplingType.screenSpaceRepeatY
                         vertexShaderType := VertexShaderType.voxel
                         pixelShaderType := PixelShaderType.opaqueWithAlphaTestLayer
                         pixelShaderParam0 := 0 }] }
          else pure DrawLists.empty

/-- Draw-call generation of `RenderChunkManager::loadVoxelDrawCalls` for one
non-air voxel: the opaque section runs when the voxel's animation capability
(door, chasm, or fading) matches the rebuild flags; the alpha-tested section
runs when the mesh has an alpha-tested buffer and `updateStatics ||
(updateAnimating && isDoor)` (its texture miss or missing door visibility
instance `continue`s past the chasm-wall section); the chasm-wall section
runs last. -/
def emitVoxel (vt : List LoadedVoxelTexture)
    (lists : List LoadedChasmFloorTextureList) (keys : List LoadedChasmTextureKey)
    (consts : RenderConsts) (chunkPos : ℤ × ℤ) (ceilingScale chasmAnimPercent : ℚ)
    (updateStatics updateAnimating : Bool) (v : VoxelEntry) : Except Unit DrawLists := do
  if v.meshEmpty then pure DrawLists.empty else
  let isDoor := v.doorInfo.isSome
  let isChasm := v.chasmInfo.isSome
  let isFading := v.fadePercent.isSome
  let canAnimate := isDoor || isChasm || isFading
  let worldPos := voxelWorldPos consts chunkPos ceilingScale v
  let d1 ←
    if (!canAnimate && updateStatics) || (canAnimate && updateAnimating) then
      emitOpaqueSection vt lists keys chunkPos chasmAnimPercent worldPos v
    else pure DrawLists.empty
  if v.mesh.alphaTestedIndexBufferID ≥ 0 then
    if updateStatics || (updateAnimating && isDoor) then do
      let alphaResult ← emitAlphaSection vt consts ceilingScale worldPos v
      if alphaResult.2 then pure (d1.append alphaResult.1)
      else do
        let d3 ← emitChasmWallSection vt lists keys chunkPos chasmAnimPercent worldPos
          updateStatics updateAnimating v
        pure ((d1.append alphaResult.1).append d3)
    else do
      let d3 ← emitChasmWallSection vt lists keys chunkPos chasmAnimPercent worldPos
        updateStatics updateAnimating v
      pure (d1.append d3)
  else do
    let d3 ← emitChasmWallSection vt lists keys chunkPos chasmAnimPercent worldPos
      updateStatics updateAnimating v
    pure (d1.append d3)

/-- The per-chunk inputs consumed by the chunk lifecycle manager: chunk
position and height, texture definitions, chasm definitions (their
`ChasmDefID` is their index), and the voxels in iteration order. -/
structure VoxelChunkData where
  position : ℤ × ℤ
  height : ℕ
  textureDefs : List (List TextureAsset)
  chasmDefs : List ChasmDefinition
  voxels : List VoxelEntry

/-- A `RenderChunk` as seen by the draw-call and lifecycle claims: its
position, height, and four draw-call lists. -/
structure RenderChunkL where
  position : ℤ × ℤ
  height : ℕ
  drawLists : DrawLists
deriving DecidableEq, Repr

/-- The `RenderChunkManager` state relevant to the verified claims. -/
structure RenderChunkMgr where
  voxelTextures : List LoadedVoxelTexture
  chasmFloorTextureLists : List LoadedChasmFloorTextureList
  chasmTextureKeys : List LoadedChasmTextureKey
  renderChunks : List RenderChunkL
deriving DecidableEq, Repr

/-- The voxel walk of `RenderChunkManager::loadVoxelDrawCalls`, appending
each voxel's draw calls to the chunk's lists in order. -/
def loadVoxelDrawCallsGo (vt : List LoadedVoxelTexture)
    (lists : List LoadedChasmFloorTextureList) (keys : List LoadedChasmTextureKey)
    (consts : RenderConsts) (chunkPos : ℤ × ℤ) (ceilingScale chasmAnimPercent : ℚ)
    (updateStatics updateAnimating : Bool) :
    DrawLists → List VoxelEntry → Except Unit DrawLists
  | acc, [] => pure acc
  | acc, v :: vs => do
      let d ← emitVoxel vt lists keys consts chunkPos ceilingScale chasmAnimPercent
        updateStatics updateAnimating v
      loadVoxelDrawCallsGo vt lists keys consts chunkPos ceilingScale chasmAnimPercent
        updateStatics updateAnimating (acc.append d) vs

/-- The list clearing of `RenderChunkManager::rebuildVoxelChunkDrawCalls`:
`updateStatics` clears the static list, `updateAnimating` clears the door,
chasm and fading lists. -/
def clearLists (updateStatics updateAnimating : Bool) (l : DrawLists) : DrawLists :=
  { staticDrawCalls := if updateStatics then [] else l.staticDrawCalls
    doorDrawCalls := if updateAnimating then [] else l.doorDrawCalls
    chasmDrawCalls := if updateAnimating then [] else l.chasmDrawCalls
    fadingDrawCalls := if updateAnimating then [] else l.fadingDrawCalls }

/-- `RenderChunkManager::tryGetRenderChunkIndex`. -/
def tryGetRenderChunkIndex (mgr : RenderChunkMgr) (chunkPos : ℤ × ℤ) : Option ℕ :=
  findIdxOpt (fun rc => rc.position == chunkPos) mgr.renderChunks

/-- `RenderChunkManager::rebuildVoxelChunkDrawCalls`: looks up the render
chunk by position — if absent, logs an error and returns normally with
nothing modified — otherwise clears the requested lists and re-runs the
draw-call walk. `Except.error` is the crash outcome of the walk's asserts. -/
def rebuildVoxelChunkDrawCalls (consts : RenderConsts) (mgr : RenderChunkMgr)
    (chunk : VoxelChunkData) (ceilingScale chasmAnimPercent : ℚ)
    (updateStatics updateAnimating : Bool) : Except Unit RenderChunkMgr :=
  match tryGetRenderChunkIndex mgr chunk.position with
  | none => pure mgr
  | some i =>
      match mgr.renderChunks.get? i with
      | none => Except.error ()
      | some rc => do
          let cleared := clearLists updateStatics updateAnimating rc.drawLists
          let newLists ← loadVoxelDrawCallsGo mgr.voxelTextures mgr.chasmFloorTextureLists
            mgr.chasmTextureKeys consts chunk.position ceilingScale chasmAnimPercent
            updateStatics updateAnimating cleared chunk.voxels
          pure { mgr with renderChunks :=
            mgr.renderChunks.set i { rc with drawLists := newLists } }

/-- Concrete `RenderConsts` for witnesses and counterexamples. -/
def constsW : RenderConsts :=
  { halfPi := 157 / 100
    epsilon := 1 / 100000
    doorMinVisible := 1 / 10
    hingeOffset := fun _ => (0, 0, 0)
    baseAngle := fun i => (i : ℚ)
    chunkVoxelToWorldXZ := fun cp v => (cp.1 * 64 + v.1, cp.2 * 64 + v.2) }

/-- An empty manager: no caches, no render chunks. -/
def mgrEmpty : RenderChunkMgr :=
  { voxelTextures := []
    chasmFloorTextureLists := []
    chasmTextureKeys := []
    renderChunks := [] }

/-- A chunk at position `(0, 0)` with no content. -/
def chunkEmpty : VoxelChunkData :=
  { position := (0, 0)
    height := 1
    textureDefs := []
    chasmDefs := []
    voxels := [] }

/-- C7 counterexample: rebuilding draw calls for a position with no loaded
render chunk logs an error and returns normally (`Except.ok`) with the
manager unchanged — it is not a fatal assertion/crash path. -/
theorem claim_C7_counterexample :
    rebuildVoxelChunkDrawCalls constsW mgrEmpty chunkEmpty 1 0 true true =
      Except.ok mgrEmpty := by
  rfl

/-- C7 (amended): calling `rebuildVoxelChunkDrawCalls` for a chunk position
that has no loaded render chunk is handled gracefully: the code logs an
error (`DebugLogError`) and returns normally without modifying any state. -/
theorem claim_C7_missing_chunk_graceful (consts : RenderConsts)
    (mgr : RenderChunkMgr) (chunk : VoxelChunkData) (ceilingScale chasmAnimPercent : ℚ)
    (updateStatics updateAnimating : Bool)
    (h : tryGetRenderChunkIndex mgr chunk.position = none) :
    rebuildVoxelChunkDrawCalls consts mgr chunk ceilingScale chasmAnimPercent
      updateStatics updateAnimating = Except.ok mgr := by
  unfold rebuildVoxelChunkDrawCalls
  rw [h]
  rfl

theorem claim_C7_missing_chunk_graceful_witness :
    tryGetRenderChunkIndex mgrEmpty chunkEmpty.position = none ∧
    rebuildVoxelChunkDrawCalls constsW mgrEmpty chunkEmpty 1 0 false true =
      Except.ok mgrEmpty :=
  ⟨rfl, claim_C7_missing_chunk_graceful constsW mgrEmpty chunkEmpty 1 0 false true rfl⟩

theorem doorFaceCalls_length (vis : Bool × Bool × Bool × Bool)
    (mk : Fin 4 → RenderDrawCall) : (doorFaceCalls vis mk).length = visCount vis := by
  rcases vis with ⟨a, b, c, d⟩
  cases a <;> cases b <;> cases c <;> cases d <;> rfl

theorem doorFaceCalls_eq_filter_map (vis : Bool × Bool × Bool × Bool)
    (mk : Fin 4 → RenderDrawCall) :
    doorFaceCalls vis mk = ((List.finRange 4).filter fun i => visFlag vis i).map mk := by
  rcases vis with ⟨a, b, c, d⟩
  cases a <;> cases b <;> cases c <;> cases d <;> rfl

theorem doorFaceCalls_mem (vis : Bool × Bool × Bool × Bool)
    (mk : Fin 4 → RenderDrawCall) (call : RenderDrawCall)
    (h : call ∈ doorFaceCalls vis mk) :
    ∃ i : Fin 4, visFlag vis i = true ∧ call = mk i := by
  rw [doorFaceCalls_eq_filter_map] at h
  obtain ⟨i, hi, rfl⟩ := List.mem_map.mp h
  exact ⟨i, (List.mem_filter.mp hi).2, rfl⟩

theorem emitAlphaSection_swinging (vt : List LoadedVoxelTexture) (consts : RenderConsts)
    (ceilingScale : ℚ) (worldPos : ℚ × ℚ × ℚ) (v : VoxelEntry) (door : DoorInfo)
    (p : ℚ) (vis : Bool × Bool × Bool × Bool) (ai : ℕ) (ta : TextureAsset)
    (tid : ObjectTextureID)
    (hchasm : v.chasmInfo = none)
    (hdoor : v.doorInfo = some door)
    (hanim : door.animPercent = some p)
    (hvis : door.visibleFaces = some vis)
    (hcount : visCount vis ≤ 2)
    (hai : GetVoxelAlphaTestedTextureAssetIndex v.vtype = some ai)
    (hta : v.textureAssets.get? ai = some ta)
    (htid : lookupVoxelTexture vt ta = some tid)
    (hdt : door.doorType = DoorType.swinging) :
    emitAlphaSection vt consts ceilingScale worldPos v =
      Except.ok
        ({ DrawLists.empty with
            doorDrawCalls := doorFaceCalls vis fun i =>
              { position := addQ3 worldPos (consts.hingeOffset i)
                preScaleTranslation := (0, 0, 0)
                rotation := Matrix4.yRotation
                  (consts.baseAngle i + -(consts.halfPi - consts.epsilon) * p)
                scale := Matrix4.identity
                vertexBufferID := v.mesh.vertexBufferID
                normalBufferID := v.mesh.normalBufferID
                texCoordBufferID := v.mesh.texCoordBufferID
                indexBufferID := v.mesh.alphaTestedIndexBufferID
                textureID0 := tid
                textureID1 := none
                textureSamplingType := TextureSamplingType.defaultSampling
                vertexShaderType := VertexShaderType.swingingDoor
                pixelShaderType := PixelShaderType.alphaTested
                pixelShaderParam0 := 0 } }, false) := by
  have hiss : v.chasmInfo.isSome = false := by rw [hchasm]; rfl
  simp only [emitAlphaSection, hiss, Bool.false_eq_true, if_false, hai, hta, htid,
    hdoor, hanim, hvis, hdt, Option.getD_some]
  rw [if_neg (by omega)]
  rfl

theorem emitAlphaSection_sliding (vt : List LoadedVoxelTexture) (consts : RenderConsts)
    (ceilingScale : ℚ) (worldPos : ℚ × ℚ × ℚ) (v : VoxelEntry) (door : DoorInfo)
    (p : ℚ) (vis : Bool × Bool × Bool × Bool) (ai : ℕ) (ta : TextureAsset)
    (tid : ObjectTextureID)
    (hchasm : v.chasmInfo = none)
    (hdoor : v.doorInfo = some door)
    (hanim : door.animPercent = some p)
    (hvis : door.visibleFaces = some vis)
    (hcount : visCount vis ≤ 2)
    (hai : GetVoxelAlphaTestedTextureAssetIndex v.vtype = some ai)
    (hta : v.textureAssets.get? ai = some ta)
    (htid : lookupVoxelTexture vt ta = some tid)
    (hdt : door.doorType = DoorType.sliding) :
    emitAlphaSection vt consts ceilingScale worldPos v =
      Except.ok
        ({ DrawLists.empty with
            doorDrawCalls := doorFaceCalls vis fun i =>
              { position := addQ3 worldPos (consts.hingeOffset i)
                preScaleTranslation := (0, 0, 0)
                rotation := Matrix4.yRotation (consts.baseAngle i)
                scale := Matrix4.scale 1 1 (1 - (1 - consts.doorMinVisible) * p)
                vertexBufferID := v.mesh.vertexBufferID
                normalBufferID := v.mesh.normalBufferID
                texCoordBufferID := v.mesh.texCoordBufferID
                indexBufferID := v.mesh.alphaTestedIndexBufferID
                textureID0 := tid
                textureID1 := none
                textureSamplingType := TextureSamplingType.defaultSampling
                vertexShaderType := VertexShaderType.slidingDoor
                pixelShaderType := PixelShaderType.alphaTestedWithVariableTexCoordUMin
                pixelShaderParam0 := (1 - consts.doorMinVisible) * p } }, false) := by
  have hiss : v.chasmInfo.isSome = false := by rw [hchasm]; rfl
  simp only [emitAlphaSection, hiss, Bool.false_eq_true, if_false, hai, hta, htid,
    hdoor, hanim, hvis, hdt, Option.getD_some]
  rw [if_neg (by omega)]
  rfl

theorem emitAlphaSection_raising (vt : List LoadedVoxelTexture) (consts : RenderConsts)
    (ceilingScale : ℚ) (worldPos : ℚ × ℚ × ℚ) (v : VoxelEntry) (door : DoorInfo)
    (p : ℚ) (vis : Bool × Bool × Bool × Bool) (ai : ℕ) (ta : TextureAsset)
    (tid : ObjectTextureID)
    (hchasm : v.chasmInfo = none)
    (hdoor : v.doorInfo = some door)
    (hanim : door.animPercent = some p)
    (hvis : door.visibleFaces = some vis)
    (hcount : visCount vis ≤ 2)
    (hai : GetVoxelAlphaTestedTextureAssetIndex v.vtype = some ai)
    (hta : v.textureAssets.get? ai = some ta)
    (htid : lookupVoxelTexture vt ta = some tid)
    (hdt : door.doorType = DoorType.raising) :
    emitAlphaSection vt consts ceilingScale worldPos v =
      Except.ok
        ({ DrawLists.empty with
            doorDrawCalls := doorFaceCalls vis fun i =>
              { position := addQ3 worldPos (consts.hingeOffset i)
                preScaleTranslation := (1, -ceilingScale, 1)
                rotation := Matrix4.yRotation (consts.baseAngle i)
                scale := Matrix4.scale 1 (1 - (1 - consts.doorMinVisible) * p) 1
                vertexBufferID := v.mesh.vertexBufferID
                normalBufferID := v.mesh.normalBufferID
                texCoordBufferID := v.mesh.texCoordBufferID
                indexBufferID := v.mesh.alphaTestedIndexBufferID
                textureID0 := tid
                textureID1 := none
                textureSamplingType := TextureSamplingType.defaultSampling
                vertexShaderType := VertexShaderType.raisingDoor
                pixelShaderType := PixelShaderType.alphaTestedWithVariableTexCoordVMin
                pixelShaderParam0 := (1 - consts.doorMinVisible) * p } }, false) := by
  have hiss : v.chasmInfo.isSome = false := by rw [hchasm]; rfl
  simp only [emitAlphaSection, hiss, Bool.false_eq_true, if_false, hai, hta, htid,
    hdoor, hanim, hvis, hdt, Option.getD_some]
  rw [if_neg (by omega)]
  rfl

/-- C8: for every visible door face and every `openPercent` in `[0, 1]`: a
Swinging door's rotation amount is `-(π/2 - ε) * openPercent` — `0` at
`openPercent = 0` and never reaching magnitude `π/2`; a Sliding door uses
`uMin = (1 - MIN_VISIBLE) * openPercent` with Z scale `1 - uMin`; a Raising
door uses `vMin = (1 - MIN_VISIBLE) * openPercent` with Y scale `1 - vMin`
and Y pre-scale translation `-ceilingScale`; the Sliding/Raising scale
factor is `1` at `openPercent = 0` and `MIN_VISIBLE` at `openPercent = 1`;
and one draw call per visible face is appended to the door list. -/
theorem claim_C8_door_transforms (vt : List LoadedVoxelTexture) (consts : RenderConsts)
    (ceilingScale : ℚ) (worldPos : ℚ × ℚ × ℚ) (v : VoxelEntry) (door : DoorInfo)
    (p : ℚ) (vis : Bool × Bool × Bool × Bool) (ai : ℕ) (ta : TextureAsset)
    (tid : ObjectTextureID)
    (hchasm : v.chasmInfo = none)
    (hdoor : v.doorInfo = some door)
    (hanim : door.animPercent = some p)
    (hvis : door.visibleFaces = some vis)
    (hcount : visCount vis ≤ 2)
    (hai : GetVoxelAlphaTestedTextureAssetIndex v.vtype = some ai)
    (hta : v.textureAssets.get? ai = some ta)
    (htid : lookupVoxelTexture vt ta = some tid)
    (heps : 0 < consts.epsilon) (hepsh : consts.epsilon ≤ consts.halfPi)
    (hp0 : 0 ≤ p) (hp1 : p ≤ 1) :
    (door.doorType = DoorType.swinging →
      ∃ delta : DrawLists,
        emitAlphaSection vt consts ceilingScale worldPos v = Except.ok (delta, false)
        ∧ delta.staticDrawCalls = [] ∧ delta.chasmDrawCalls = []
        ∧ delta.fadingDrawCalls = []
        ∧ delta.doorDrawCalls.length = visCount vis
        ∧ ∀ call ∈ delta.doorDrawCalls,
            call.vertexShaderType = VertexShaderType.swingingDoor
            ∧ call.pixelShaderType = PixelShaderType.alphaTested
            ∧ call.scale = Matrix4.identity
            ∧ ∃ i : Fin 4, visFlag vis i = true
              ∧ call.rotation = Matrix4.yRotation
                  (consts.baseAngle i + -(consts.halfPi - consts.epsilon) * p))
    ∧ (door.doorType = DoorType.sliding →
      ∃ delta : DrawLists,
        emitAlphaSection vt consts ceilingScale worldPos v = Except.ok (delta, false)
        ∧ delta.staticDrawCalls = [] ∧ delta.chasmDrawCalls = []
        ∧ delta.fadingDrawCalls = []
        ∧ delta.doorDrawCalls.length = visCount vis
        ∧ ∀ call ∈ delta.doorDrawCalls,
            call.vertexShaderType = VertexShaderType.slidingDoor
            ∧ call.pixelShaderType = PixelShaderType.alphaTestedWithVariableTexCoordUMin
            ∧ call.scale = Matrix4.scale 1 1 (1 - (1 - consts.doorMinVisible) * p)
            ∧ call.pixelShaderParam0 = (1 - consts.doorMinVisible) * p)
    ∧ (door.doorType = DoorType.raising →
      ∃ delta : DrawLists,
        emitAlphaSection vt consts ceilingScale worldPos v = Except.ok (delta, false)
        ∧ delta.staticDrawCalls = [] ∧ delta.chasmDrawCalls = []
        ∧ delta.fadingDrawCalls = []
        ∧ delta.doorDrawCalls.length = visCount vis
        ∧ ∀ call ∈ delta.doorDrawCalls,
            call.vertexShaderType = VertexShaderType.raisingDoor
            ∧ call.pixelShaderType = PixelShaderType.alphaTestedWithVariableTexCoordVMin
            ∧ call.scale = Matrix4.scale 1 (1 - (1 - consts.doorMinVisible) * p) 1
            ∧ call.preScaleTranslation = (1, -ceilingScale, 1)
            ∧ call.pixelShaderParam0 = (1 - consts.doorMinVisible) * p)
    ∧ -(consts.halfPi - consts.epsilon) * (0 : ℚ) = 0
    ∧ |-(consts.halfPi - consts.epsilon) * p| < consts.halfPi
    ∧ 1 - (1 - consts.doorMinVisible) * (0 : ℚ) = 1
    ∧ 1 - (1 - consts.doorMinVisible) * (1 : ℚ) = consts.doorMinVisible := by
  refine ⟨?_, ?_, ?_, by ring, ?_, by ring, by ring⟩
  · intro hdt
    refine ⟨_, emitAlphaSection_swinging vt consts ceilingScale worldPos v door p vis
      ai ta tid hchasm hdoor hanim hvis hcount hai hta htid hdt,
      rfl, rfl, rfl, by simpa using doorFaceCalls_length vis _, ?_⟩
    intro call hcall
    obtain ⟨i, hvisi, rfl⟩ := doorFaceCalls_mem vis _ call (by simpa using hcall)
    exact ⟨rfl, rfl, rfl, i, hvisi, congrArg Matrix4.yRotation (by ring)⟩
  · intro hdt
    refine ⟨_, emitAlphaSection_sliding vt consts ceilingScale worldPos v door p vis
      ai ta tid hchasm hdoor hanim hvis hcount hai hta htid hdt,
      rfl, rfl, rfl, by simpa using doorFaceCalls_length vis _, ?_⟩
    intro call hcall
    obtain ⟨i, hvisi, rfl⟩ := doorFaceCalls_mem vis _ call (by simpa using hcall)
    exact ⟨rfl, rfl, rfl, rfl⟩
  · intro hdt
    refine ⟨_, emitAlphaSection_raising vt consts ceilingScale worldPos v door p vis
      ai ta tid hchasm hdoor hanim hvis hcount hai hta htid hdt,
      rfl, rfl, rfl, by simpa using doorFaceCalls_length vis _, ?_⟩
    intro call hcall
    obtain ⟨i, hvisi, rfl⟩ := doorFaceCalls_mem vis _ call (by simpa using hcall)
    exact ⟨rfl, rfl, rfl, rfl, rfl⟩
  · have hx : -(consts.halfPi - consts.epsilon) * p ≤ 0 := by nlinarith
    rw [abs_of_nonpos hx]
    nlinarith

/-- A swinging door voxel for the C8 witness. -/
def doorW8 : DoorInfo :=
  { doorType := DoorType.swinging
    animPercent := some (1 / 2)
    visibleFaces := some (true, false, false, true) }

/-- Render mesh of the witness door voxel. -/
def meshW8 : RenderMeshInfo :=
  { vertexBufferID := 1
    normalBufferID := 2
    texCoordBufferID := 3
    opaqueIndexBufferIDs := []
    alphaTestedIndexBufferID := 4 }

/-- The witness door voxel. -/
def vW8 : VoxelEntry :=
  { x := 0, y := 0, z := 0
    meshEmpty := false
    vtype := VoxelType.door
    textureAssets := [21]
    doorInfo := some doorW8
    chasmInfo := none
    fadePercent := none
    mesh := meshW8 }

/-- Texture cache holding the witness door's alpha-tested texture. -/
def vtW8 : List LoadedVoxelTexture := [{ textureAsset := 21, objectTextureRef := 210 }]

theorem claim_C8_door_transforms_witness :
    (visCount (true, false, false, true) ≤ 2
      ∧ 0 < constsW.epsilon ∧ constsW.epsilon ≤ constsW.halfPi
      ∧ (0 : ℚ) ≤ 1 / 2 ∧ (1 / 2 : ℚ) ≤ 1)
    ∧ ((doorW8.doorType = DoorType.swinging →
      ∃ delta : DrawLists,
        emitAlphaSection vtW8 constsW 2 (0, 0, 0) vW8 = Except.ok (delta, false)
        ∧ delta.staticDrawCalls = [] ∧ delta.chasmDrawCalls = []
        ∧ delta.fadingDrawCalls = []
        ∧ delta.doorDrawCalls.length = visCount (true, false, false, true)
        ∧ ∀ call ∈ delta.doorDrawCalls,
            call.vertexShaderType = VertexShaderType.swingingDoor
            ∧ call.pixelShaderType = PixelShaderType.alphaTested
            ∧ call.scale = Matrix4.identity
            ∧ ∃ i : Fin 4, visFlag (true, false, false, true) i = true
              ∧ call.rotation = Matrix4.yRotation
                  (constsW.baseAngle i + -(constsW.halfPi - constsW.epsilon) * (1 / 2)))
    ∧ (doorW8.doorType = DoorType.sliding →
      ∃ delta : DrawLists,
        emitAlphaSection vtW8 constsW 2 (0, 0, 0) vW8 = Except.ok (delta, false)
        ∧ delta.staticDrawCalls = [] ∧ delta.chasmDrawCalls = []
        ∧ delta.fadingDrawCalls = []
        ∧ delta.doorDrawCalls.length = visCount (true, false, false, true)
        ∧ ∀ call ∈ delta.doorDrawCalls,
            call.vertexShaderType = VertexShaderType.slidingDoor
            ∧ call.pixelShaderType = PixelShaderType.alphaTestedWithVariableTexCoordUMin
            ∧ call.scale = Matrix4.scale 1 1 (1 - (1 - constsW.doorMinVisible) * (1 / 2))
            ∧ call.pixelShaderParam0 = (1 - constsW.doorMinVisible) * (1 / 2))
    ∧ (doorW8.doorType = DoorType.raising →
      ∃ delta : DrawLists,
        emitAlphaSection vtW8 constsW 2 (0, 0, 0) vW8 = Except.ok (delta, false)
        ∧ delta.staticDrawCalls = [] ∧ delta.chasmDrawCalls = []
        ∧ delta.fadingDrawCalls = []
        ∧ delta.doorDrawCalls.length = visCount (true, false, false, true)
        ∧ ∀ call ∈ delta.doorDrawCalls,
            call.vertexShaderType = VertexShaderType.raisingDoor
            ∧ call.pixelShaderType = PixelShaderType.alphaTestedWithVariableTexCoordVMin
            ∧ call.scale = Matrix4.scale 1 (1 - (1 - constsW.doorMinVisible) * (1 / 2)) 1
            ∧ call.preScaleTranslation = (1, -2, 1)
            ∧ call.pixelShaderParam0 = (1 - constsW.doorMinVisible) * (1 / 2))
    ∧ -(constsW.halfPi - constsW.epsilon) * (0 : ℚ) = 0
    ∧ |-(constsW.halfPi - constsW.epsilon) * (1 / 2)| < constsW.halfPi
    ∧ 1 - (1 - constsW.doorMinVisible) * (0 : ℚ) = 1
    ∧ 1 - (1 - constsW.doorMinVisible) * (1 : ℚ) = constsW.doorMinVisible) :=
  ⟨⟨by decide, by norm_num [constsW], by norm_num [constsW], by norm_num, by norm_num⟩,
    claim_C8_door_transforms vtW8 constsW 2 (0, 0, 0) vW8 doorW8 (1 / 2)
      (true, false, false, true) 0 21 210 rfl rfl rfl rfl (by decide) rfl rfl rfl
      (by norm_num [constsW]) (by norm_num [constsW]) (by norm_num) (by norm_num)⟩

/-- All draw calls of a delta are in the static list. -/
def DrawLists.onlyStatic (d : DrawLists) : Prop :=
  d.doorDrawCalls = [] ∧ d.chasmDrawCalls = [] ∧ d.fadingDrawCalls = []

/-- All draw calls of a delta are in the door list. -/
def DrawLists.onlyDoor (d : DrawLists) : Prop :=
  d.staticDrawCalls = [] ∧ d.chasmDrawCalls = [] ∧ d.fadingDrawCalls = []

/-- All draw calls of a delta are in the chasm list. -/
def DrawLists.onlyChasm (d : DrawLists) : Prop :=
  d.staticDrawCalls = [] ∧ d.doorDrawCalls = [] ∧ d.fadingDrawCalls = []

/-- All draw calls of a delta are in the fading list. -/
def DrawLists.onlyFading (d : DrawLists) : Prop :=
  d.staticDrawCalls = [] ∧ d.doorDrawCalls = [] ∧ d.chasmDrawCalls = []

theorem onlyStatic_empty : DrawLists.empty.onlyStatic := ⟨rfl, rfl, rfl⟩

theorem onlyDoor_empty : DrawLists.empty.onlyDoor := ⟨rfl, rfl, rfl⟩

theorem onlyChasm_empty : DrawLists.empty.onlyChasm := ⟨rfl, rfl, rfl⟩

theorem onlyFading_empty : DrawLists.empty.onlyFading := ⟨rfl, rfl, rfl⟩

theorem onlyStatic_append {a b : DrawLists} (ha : a.onlyStatic) (hb : b.onlyStatic) :
    (a.append b).onlyStatic := by
  obtain ⟨h1, h2, h3⟩ := ha
  obtain ⟨g1, g2, g3⟩ := hb
  exact ⟨by simp [DrawLists.append, h1, g1], by simp [DrawLists.append, h2, g2],
    by simp [DrawLists.append, h3, g3]⟩

theorem onlyDoor_append {a b : DrawLists} (ha : a.onlyDoor) (hb : b.onlyDoor) :
    (a.append b).onlyDoor := by
  obtain ⟨h1, h2, h3⟩ := ha
  obtain ⟨g1, g2, g3⟩ := hb
  exact ⟨by simp [DrawLists.append, h1, g1], by simp [DrawLists.append, h2, g2],
    by simp [DrawLists.append, h3, g3]⟩

theorem onlyChasm_append {a b : DrawLists} (ha : a.onlyChasm) (hb : b.onlyChasm) :
    (a.append b).onlyChasm := by
  obtain ⟨h1, h2, h3⟩ := ha
  obtain ⟨g1, g2, g3⟩ := hb
  exact ⟨by simp [DrawLists.append, h1, g1], by simp [DrawLists.append, h2, g2],
    by simp [DrawLists.append, h3, g3]⟩

theorem onlyFading_append {a b : DrawLists} (ha : a.onlyFading) (hb : b.onlyFading) :
    (a.append b).onlyFading := by
  obtain ⟨h1, h2, h3⟩ := ha
  obtain ⟨g1, g2, g3⟩ := hb
  exact ⟨by simp [DrawLists.append, h1, g1], by simp [DrawLists.append, h2, g2],
    by simp [DrawLists.append, h3, g3]⟩

theorem emitOpaqueGroup_route (vt : List LoadedVoxelTexture)
    (lists : List LoadedChasmFloorTextureList) (keys : List LoadedChasmTextureKey)
    (chunkPos : ℤ × ℤ) (chasmAnimPercent : ℚ) (worldPos : ℚ × ℚ × ℚ) (v : VoxelEntry)
    (i : ℕ) (d : DrawLists)
    (h : emitOpaqueGroup vt lists keys chunkPos chasmAnimPercent worldPos v i =
      Except.ok d) :
    (v.chasmInfo.isSome = true → d.onlyChasm)
    ∧ (v.chasmInfo.isSome = false → v.fadePercent.isSome = true → d.onlyFading)
    ∧ (v.chasmInfo.isSome = false → v.fadePercent.isSome = false → d.onlyStatic) := by
  unfold emitOpaqueGroup at h
  rcases ht : opaqueGroupTexture vt lists keys chunkPos chasmAnimPercent v i with e | t
  · rw [ht] at h
    cases e
    simp at h
  · rw [ht] at h
    rcases t with - | tid
    · obtain rfl : DrawLists.empty = d := by simpa using h
      exact ⟨fun _ => onlyChasm_empty, fun _ _ => onlyFading_empty,
        fun _ _ => onlyStatic_empty⟩
    · rcases hib : v.mesh.opaqueIndexBufferIDs.get? i with - | ib
      · rw [hib] at h
        simp at h
      · rw [hib] at h
        rcases hc : v.chasmInfo.isSome with - | -
        · rcases hf : v.fadePercent.isSome with - | -
          · simp only [hc, hf, Bool.not_false, if_true, Bool.false_eq_true, if_false] at h
            obtain rfl : _ = d := by simpa using h
            exact ⟨fun hcc => absurd hcc Bool.false_ne_true,
              fun _ hff => absurd hff Bool.false_ne_true,
              fun _ _ => ⟨rfl, rfl, rfl⟩⟩
          · simp only [hc, hf, Bool.not_false, if_true, Bool.false_eq_true, if_false] at h
            obtain rfl : _ = d := by simpa using h
            exact ⟨fun hcc => absurd hcc Bool.false_ne_true,
              fun _ _ => ⟨rfl, rfl, rfl⟩,
              fun _ hff => absurd hff.symm Bool.false_ne_true⟩
        · simp only [hc, Bool.not_true, Bool.false_eq_true, if_false, if_true] at h
          obtain rfl : _ = d := by simpa using h
          exact ⟨fun _ => ⟨rfl, rfl, rfl⟩,
            fun hcc _ => absurd hcc.symm Bool.false_ne_true,
            fun hcc _ => absurd hcc.symm Bool.false_ne_true⟩

theorem emitOpaqueSection_induct (vt : List LoadedVoxelTexture)
    (lists : List LoadedChasmFloorTextureList) (keys : List LoadedChasmTextureKey)
    (chunkPos : ℤ × ℤ) (chasmAnimPercent : ℚ) (worldPos : ℚ × ℚ × ℚ) (v : VoxelEntry)
    (P : DrawLists → Prop) (hemp : P DrawLists.empty)
    (happ : ∀ a b, P a → P b → P (a.append b))
    (hg : ∀ i d, emitOpaqueGroup vt lists keys chunkPos chasmAnimPercent worldPos v i =
      Except.ok d → P d) :
    ∀ d, emitOpaqueSection vt lists keys chunkPos chasmAnimPercent worldPos v =
      Except.ok d → P d := by
  unfold emitOpaqueSection
  suffices hgen : ∀ (l : List ℕ) (acc : DrawLists), P acc → ∀ d,
      (l.foldlM (fun acc bufferIndex => do
        let dd ← emitOpaqueGroup vt lists keys chunkPos chasmAnimPercent worldPos v
          bufferIndex
        pure (acc.append dd)) acc) = Except.ok d → P d by
    intro d hd
    exact hgen _ DrawLists.empty hemp d hd
  intro l
  induction l with
  | nil =>
      intro acc hacc d hd
      obtain rfl : acc = d := Except.ok.inj (show Except.ok acc = Except.ok d from hd)
      exact hacc
  | cons i rest ih =>
      intro acc hacc d hd
      rw [List.foldlM_cons] at hd
      rcases hgi : emitOpaqueGroup vt lists keys chunkPos chasmAnimPercent worldPos v i with
        e | dd
      · rw [hgi] at hd
        cases e
        exact Except.noConfusion (show (Except.error () : Except Unit DrawLists) =
          Except.ok d from hd)
      · rw [hgi] at hd
        have hd' : rest.foldlM (fun acc bufferIndex => do
            let dd ← emitOpaqueGroup vt lists keys chunkPos chasmAnimPercent worldPos v
              bufferIndex
            pure (acc.append dd)) (acc.append dd) = Except.ok d := hd
        exact ih (acc.append dd) (happ acc dd hacc (hg i dd hgi)) d hd'

theorem emitChasmWallSection_route (vt : List LoadedVoxelTexture)
    (lists : List LoadedChasmFloorTextureList) (keys : List LoadedChasmTextureKey)
    (chunkPos : ℤ × ℤ) (chasmAnimPercent : ℚ) (worldPos : ℚ × ℚ × ℚ)
    (us ua : Bool) (v : VoxelEntry) (d : DrawLists)
    (h : emitChasmWallSection vt lists keys chunkPos chasmAnimPercent worldPos us ua v =
      Except.ok d) : d.onlyChasm := by
  unfold emitChasmWallSection at h
  rcases hci : v.chasmInfo with - | c
  · simp only [hci] at h
    obtain rfl : DrawLists.empty = d :=
      Except.ok.inj (show Except.ok DrawLists.empty = Except.ok d from h)
    exact onlyChasm_empty
  · simp only [hci] at h
    rcases hw : c.wallIndexBufferID with - | ib
    · simp only [hw] at h
      obtain rfl : DrawLists.empty = d :=
        Except.ok.inj (show Except.ok DrawLists.empty = Except.ok d from h)
      exact onlyChasm_empty
    · simp only [hw] at h
      by_cases hv : v.vtype ≠ VoxelType.chasm
      · rw [if_pos hv] at h
        exact Except.noConfusion (show (Except.error () : Except Unit DrawLists) =
          Except.ok d from h)
      · rw [if_neg hv] at h
        by_cases hcond : ((!!(c.chasmType == ChasmType.dry) && us) ||
            (!(c.chasmType == ChasmType.dry) && ua)) = true
        · rw [if_pos hcond] at h
          rcases h0 : getChasmFloorTextureID lists keys chunkPos c.chasmDefID
              chasmAnimPercent with - | t0
          · simp only [h0] at h
            exact Except.noConfusion (show (Except.error () : Except Unit DrawLists) =
              Except.ok d from h)
          · simp only [h0] at h
            rcases h1 : getChasmWallTextureID vt keys chunkPos c.chasmDefID with - | t1
            · simp only [h1] at h
              exact Except.noConfusion (show (Except.error () : Except Unit DrawLists) =
                Except.ok d from h)
            · simp only [h1] at h
              obtain rfl := (Except.ok.inj h).symm
              exact ⟨rfl, rfl, rfl⟩
        · rw [if_neg hcond] at h
          obtain rfl : DrawLists.empty = d :=
            Except.ok.inj (show Except.ok DrawLists.empty = Except.ok d from h)
          exact onlyChasm_empty

theorem except_ok_pair_inj {α β : Type} {x : α} {y : β} {a : α} {ab : β}
    (h : (Except.ok (x, y) : Except Unit (α × β)) = Except.ok (a, ab)) :
    x = a ∧ y = ab :=
  ⟨congrArg Prod.fst (Except.ok.inj h), congrArg Prod.snd (Except.ok.inj h)⟩

theorem emitAlphaSection_route (vt : List LoadedVoxelTexture) (consts : RenderConsts)
    (ceilingScale : ℚ) (worldPos : ℚ × ℚ × ℚ) (v : VoxelEntry) (a : DrawLists) (ab : Bool)
    (h : emitAlphaSection vt consts ceilingScale worldPos v = Except.ok (a, ab)) :
    (v.doorInfo.isSome = true → a.onlyDoor) ∧ (v.doorInfo = none → a.onlyStatic) := by
  unfold emitAlphaSection at h
  rcases hc : v.chasmInfo.isSome with - | -
  · simp only [hc, Bool.false_eq_true, if_false] at h
    rcases hai : GetVoxelAlphaTestedTextureAssetIndex v.vtype with - | ai
    · simp only [hai] at h
      exact Except.noConfusion (show (Except.error () : Except Unit (DrawLists × Bool)) =
        Except.ok (a, ab) from h)
    · simp only [hai] at h
      rcases hta : v.textureAssets.get? ai with - | ta
      · simp only [hta] at h
        exact Except.noConfusion (show (Except.error () : Except Unit (DrawLists × Bool)) =
          Except.ok (a, ab) from h)
      · simp only [hta] at h
        rcases htid : lookupVoxelTexture vt ta with - | tid
        · simp only [htid] at h
          obtain ⟨rfl, rfl⟩ := except_ok_pair_inj h
          exact ⟨fun _ => onlyDoor_empty, fun _ => onlyStatic_empty⟩
        · simp only [htid] at h
          rcases hdi : v.doorInfo with - | door
          · simp only [hdi] at h
            obtain ⟨rfl, rfl⟩ := except_ok_pair_inj h
            exact ⟨fun hd => absurd hd (by simp [hdi]), fun _ => ⟨rfl, rfl, rfl⟩⟩
          · simp only [hdi] at h
            rcases hvf : door.visibleFaces with - | vis
            · simp only [hvf] at h
              obtain ⟨rfl, rfl⟩ := except_ok_pair_inj h
              exact ⟨fun _ => onlyDoor_empty, fun _ => onlyStatic_empty⟩
            · simp only [hvf] at h
              by_cases hcnt : visCount vis > 2
              · rw [if_pos hcnt] at h
                exact Except.noConfusion
                  (show (Except.error () : Except Unit (DrawLists × Bool)) =
                    Except.ok (a, ab) from h)
              · rw [if_neg hcnt] at h
                rcases hdt : door.doorType
                · simp only [hdt] at h
                  obtain ⟨rfl, rfl⟩ := except_ok_pair_inj h
                  exact ⟨fun _ => ⟨rfl, rfl, rfl⟩, fun hd => Option.noConfusion hd⟩
                · simp only [hdt] at h
                  obtain ⟨rfl, rfl⟩ := except_ok_pair_inj h
                  exact ⟨fun _ => ⟨rfl, rfl, rfl⟩, fun hd => Option.noConfusion hd⟩
                · simp only [hdt] at h
                  obtain ⟨rfl, rfl⟩ := except_ok_pair_inj h
                  exact ⟨fun _ => ⟨rfl, rfl, rfl⟩, fun hd => Option.noConfusion hd⟩
                · simp only [hdt] at h
                  exact Except.noConfusion
                    (show (Except.error () : Except Unit (DrawLists × Bool)) =
                      Except.ok (a, ab) from h)
  · simp only [hc, if_true] at h
    exact Except.noConfusion (show (Except.error () : Except Unit (DrawLists × Bool)) =
      Except.ok (a, ab) from h)

theorem except_pure_eq_ok {α : Type} (a : α) : (pure a : Except Unit α) = Except.ok a := rfl

theorem except_ok_bind {α β : Type} (a : α) (g : α → Except Unit β) :
    (Except.ok a >>= g) = g a := rfl

theorem except_error_bind {α β : Type} (g : α → Except Unit β) :
    ((Except.error () : Except Unit α) >>= g) = Except.error () := rfl

theorem emitChasmWallSection_none (vt : List LoadedVoxelTexture)
    (lists : List LoadedChasmFloorTextureList) (keys : List LoadedChasmTextureKey)
    (chunkPos : ℤ × ℤ) (chasmAnimPercent : ℚ) (worldPos : ℚ × ℚ × ℚ)
    (us ua : Bool) (v : VoxelEntry) (hci : v.chasmInfo = none) :
    emitChasmWallSection vt lists keys chunkPos chasmAnimPercent worldPos us ua v =
      Except.ok DrawLists.empty := by
  unfold emitChasmWallSection
  rw [hci]
  rfl

theorem DrawLists.append_empty (a : DrawLists) : a.append DrawLists.empty = a := by
  simp [DrawLists.append, DrawLists.empty]

theorem DrawLists.empty_append (a : DrawLists) : DrawLists.empty.append a = a := by
  simp [DrawLists.append, DrawLists.empty]

theorem emitVoxel_not_canAnimate (vt : List LoadedVoxelTexture)
    (lists : List LoadedChasmFloorTextureList) (keys : List LoadedChasmTextureKey)
    (consts : RenderConsts) (chunkPos : ℤ × ℤ) (ceilingScale chasmAnimPercent : ℚ)
    (v : VoxelEntry) (hdi : v.doorInfo = none) (hci : v.chasmInfo = none)
    (hfp : v.fadePercent = none) :
    emitVoxel vt lists keys consts chunkPos ceilingScale chasmAnimPercent true true v =
      emitVoxel vt lists keys consts chunkPos ceilingScale chasmAnimPercent true false v
    ∧ emitVoxel vt lists keys consts chunkPos ceilingScale chasmAnimPercent false true v =
      Except.ok DrawLists.empty := by
  have hW := fun us ua => emitChasmWallSection_none vt lists keys chunkPos chasmAnimPercent
    (voxelWorldPos consts chunkPos ceilingScale v) us ua v hci
  constructor
  · unfold emitVoxel
    simp only [hdi, hci, hfp, Option.isSome_none, Bool.or_self, Bool.not_false,
      Bool.and_true, Bool.and_false, Bool.or_false, Bool.false_or, Bool.true_or,
      Bool.true_and, Bool.false_and, hW true true, hW true false]
  · unfold emitVoxel
    by_cases hme : v.meshEmpty
    · simp only [hme, if_true]
      rfl
    · simp only [hme, Bool.false_eq_true, if_false, hdi, hci, hfp, Option.isSome_none,
        Bool.or_self, Bool.not_false, Bool.and_true, Bool.and_false, Bool.or_false,
        Bool.false_or, Bool.true_or, Bool.true_and, Bool.false_and, if_false,
        hW false true, except_pure_eq_ok, except_ok_bind, DrawLists.empty_append,
        DrawLists.append_empty]
      by_cases halpha : v.mesh.alphaTestedIndexBufferID ≥ 0
      · rw [if_pos halpha]
      · rw [if_neg halpha]

/-- Whether a voxel is a dry chasm with a precomputed wall index buffer —
such walls are emitted only by statics rebuilds, yet routed to the chasm
list. -/
def hasDryChasmWall (v : VoxelEntry) : Bool :=
  match v.chasmInfo with
  | some c => c.chasmType == ChasmType.dry && c.wallIndexBufferID.isSome
  | none => false

/-- Well-formedness of a voxel as produced by the world layer and the mesh
loader: door/chasm definitions exist exactly for door/chasm traits types,
the render mesh has no more opaque index buffers than the shape allows, and
an alpha-tested buffer exists only for shapes with an alpha-tested group. -/
def WellFormedVoxel (v : VoxelEntry) : Prop :=
  (v.doorInfo.isSome = true ↔ v.vtype = VoxelType.door)
  ∧ (v.chasmInfo.isSome = true ↔ v.vtype = VoxelType.chasm)
  ∧ v.mesh.opaqueIndexBufferIDs.length ≤ GetOpaqueIndexBufferCount v.vtype
  ∧ (0 ≤ v.mesh.alphaTestedIndexBufferID → GetAlphaTestedIndexBufferCount v.vtype = 1)

instance (v : VoxelEntry) : Decidable (WellFormedVoxel v) := by
  unfold WellFormedVoxel
  infer_instance

theorem emitChasmWallSection_static_empty (vt : List LoadedVoxelTexture)
    (lists : List LoadedChasmFloorTextureList) (keys : List LoadedChasmTextureKey)
    (chunkPos : ℤ × ℤ) (chasmAnimPercent : ℚ) (worldPos : ℚ × ℚ × ℚ)
    (v : VoxelEntry) (c : ChasmInfo) (hci : v.chasmInfo = some c)
    (hnd : hasDryChasmWall v = false) (hvt : v.vtype = VoxelType.chasm) :
    emitChasmWallSection vt lists keys chunkPos chasmAnimPercent worldPos true false v =
      Except.ok DrawLists.empty := by
  unfold emitChasmWallSection
  simp only [hci]
  rcases hw : c.wallIndexBufferID with - | ib
  · rfl
  · simp only []
    rw [if_neg (by simp [hvt])]
    unfold hasDryChasmWall at hnd
    simp only [hci, hw, Option.isSome_some, Bool.and_true] at hnd
    simp only [hnd, Bool.not_false, Bool.not_true, Bool.false_and, Bool.and_false,
      Bool.or_self, Bool.false_eq_true, if_false]
    rfl

theorem emitChasmWallSection_us_irrelevant (vt : List LoadedVoxelTexture)
    (lists : List LoadedChasmFloorTextureList) (keys : List LoadedChasmTextureKey)
    (chunkPos : ℤ × ℤ) (chasmAnimPercent : ℚ) (worldPos : ℚ × ℚ × ℚ)
    (v : VoxelEntry) (hnd : hasDryChasmWall v = false) (us us' ua : Bool) :
    emitChasmWallSection vt lists keys chunkPos chasmAnimPercent worldPos us ua v =
      emitChasmWallSection vt lists keys chunkPos chasmAnimPercent worldPos us' ua v := by
  unfold emitChasmWallSection
  rcases hci : v.chasmInfo with - | c
  · rfl
  · rcases hw : c.wallIndexBufferID with - | ib
    · simp only [hw]
    · simp only [hw]
      by_cases hv : v.vtype ≠ VoxelType.chasm
      · rw [if_pos hv, if_pos hv]
      · rw [if_neg hv, if_neg hv]
        unfold hasDryChasmWall at hnd
        simp only [hci, hw, Option.isSome_some, Bool.and_true] at hnd
        simp only [hnd, Bool.not_false, Bool.not_true, Bool.false_and, Bool.false_or]

theorem emitVoxel_chasm (vt : List LoadedVoxelTexture)
    (lists : List LoadedChasmFloorTextureList) (keys : List LoadedChasmTextureKey)
    (consts : RenderConsts) (chunkPos : ℤ × ℤ) (ceilingScale chasmAnimPercent : ℚ)
    (v : VoxelEntry) (c : ChasmInfo) (hci : v.chasmInfo = some c)
    (hvt : v.vtype = VoxelType.chasm)
    (halpha : ¬(v.mesh.alphaTestedIndexBufferID ≥ 0))
    (hnd : hasDryChasmWall v = false) :
    emitVoxel vt lists keys consts chunkPos ceilingScale chasmAnimPercent true false v =
      Except.ok DrawLists.empty
    ∧ emitVoxel vt lists keys consts chunkPos ceilingScale chasmAnimPercent true true v =
      emitVoxel vt lists keys consts chunkPos ceilingScale chasmAnimPercent false true v := by
  constructor
  · unfold emitVoxel
    by_cases hme : v.meshEmpty
    · simp only [hme, if_true]
      rfl
    · simp only [hme, Bool.false_eq_true, if_false, hci, Option.isSome_some,
        Bool.true_or, Bool.or_true, Bool.not_true, Bool.and_true, Bool.and_false,
        Bool.false_and, Bool.or_false, Bool.false_or, Bool.or_self, if_true,
        halpha, except_pure_eq_ok, except_ok_bind, DrawLists.empty_append,
        emitChasmWallSection_static_empty vt lists keys chunkPos chasmAnimPercent
          (voxelWorldPos consts chunkPos ceilingScale v) v c hci hnd hvt]
  · unfold emitVoxel
    by_cases hme : v.meshEmpty
    · simp only [hme, if_true]
    · simp only [hme, Bool.false_eq_true, if_false, hci, Option.isSome_some,
        Bool.true_or, Bool.or_true, Bool.not_true, Bool.and_true, Bool.and_false,
        Bool.false_and, Bool.or_false, Bool.false_or, Bool.or_self, if_true,
        halpha, except_pure_eq_ok, except_ok_bind,
        emitChasmWallSection_us_irrelevant vt lists keys chunkPos chasmAnimPercent
          (voxelWorldPos consts chunkPos ceilingScale v) v hnd true false true]

theorem emitOpaqueSection_nil (vt : List LoadedVoxelTexture)
    (lists : List LoadedChasmFloorTextureList) (keys : List LoadedChasmTextureKey)
    (chunkPos : ℤ × ℤ) (chasmAnimPercent : ℚ) (worldPos : ℚ × ℚ × ℚ)
    (v : VoxelEntry) (hlen : v.mesh.opaqueIndexBufferIDs.length = 0) :
    emitOpaqueSection vt lists keys chunkPos chasmAnimPercent worldPos v =
      Except.ok DrawLists.empty := by
  unfold emitOpaqueSection
  rw [hlen]
  rfl

theorem emitVoxel_door (vt : List LoadedVoxelTexture)
    (lists : List LoadedChasmFloorTextureList) (keys : List LoadedChasmTextureKey)
    (consts : RenderConsts) (chunkPos : ℤ × ℤ) (ceilingScale chasmAnimPercent : ℚ)
    (v : VoxelEntry) (door : DoorInfo) (hdi : v.doorInfo = some door)
    (hci : v.chasmInfo = none) (hlen : v.mesh.opaqueIndexBufferIDs.length = 0) :
    emitVoxel vt lists keys consts chunkPos ceilingScale chasmAnimPercent true true v =
      emitVoxel vt lists keys consts chunkPos ceilingScale chasmAnimPercent true false v
    ∧ emitVoxel vt lists keys consts chunkPos ceilingScale chasmAnimPercent true true v =
      emitVoxel vt lists keys consts chunkPos ceilingScale chasmAnimPercent false true v := by
  have hO := emitOpaqueSection_nil vt lists keys chunkPos chasmAnimPercent
    (voxelWorldPos consts chunkPos ceilingScale v) v hlen
  have hW := fun us ua => emitChasmWallSection_none vt lists keys chunkPos chasmAnimPercent
    (voxelWorldPos consts chunkPos ceilingScale v) us ua v hci
  constructor
  · unfold emitVoxel
    simp only [hdi, hci, Option.isSome_some, Option.isSome_none, Bool.true_or,
      Bool.or_true, Bool.false_or, Bool.or_false, Bool.not_true, Bool.and_true,
      Bool.and_false, Bool.true_and, Bool.false_and, Bool.false_eq_true, if_false,
      if_true, Bool.or_self, hO, hW, except_pure_eq_ok, except_ok_bind, ite_self]
  · unfold emitVoxel
    simp only [hdi, hci, Option.isSome_some, Option.isSome_none, Bool.true_or,
      Bool.or_true, Bool.false_or, Bool.or_false, Bool.not_true, Bool.and_true,
      Bool.and_false, Bool.true_and, Bool.false_and, Bool.false_eq_true, if_false,
      if_true, Bool.or_self, hO, hW, except_pure_eq_ok, except_ok_bind, ite_self]

theorem emitOpaqueSection_route_chasm (vt : List LoadedVoxelTexture)
    (lists : List LoadedChasmFloorTextureList) (keys : List LoadedChasmTextureKey)
    (chunkPos : ℤ × ℤ) (chasmAnimPercent : ℚ) (worldPos : ℚ × ℚ × ℚ) (v : VoxelEntry)
    (hc : v.chasmInfo.isSome = true) :
    ∀ d, emitOpaqueSection vt lists keys chunkPos chasmAnimPercent worldPos v =
      Except.ok d → d.onlyChasm :=
  emitOpaqueSection_induct vt lists keys chunkPos chasmAnimPercent worldPos v
    DrawLists.onlyChasm onlyChasm_empty (fun _ _ => onlyChasm_append)
    (fun i d hg => (emitOpaqueGroup_route vt lists keys chunkPos chasmAnimPercent
      worldPos v i d hg).1 hc)

theorem emitOpaqueSection_route_fading (vt : List LoadedVoxelTexture)
    (lists : List LoadedChasmFloorTextureList) (keys : List LoadedChasmTextureKey)
    (chunkPos : ℤ × ℤ) (chasmAnimPercent : ℚ) (worldPos : ℚ × ℚ × ℚ) (v : VoxelEntry)
    (hc : v.chasmInfo.isSome = false) (hf : v.fadePercent.isSome = true) :
    ∀ d, emitOpaqueSection vt lists keys chunkPos chasmAnimPercent worldPos v =
      Except.ok d → d.onlyFading :=
  emitOpaqueSection_induct vt lists keys chunkPos chasmAnimPercent worldPos v
    DrawLists.onlyFading onlyFading_empty (fun _ _ => onlyFading_append)
    (fun i d hg => ((emitOpaqueGroup_route vt lists keys chunkPos chasmAnimPercent
      worldPos v i d hg).2).1 hc hf)

theorem emitOpaqueSection_route_static (vt : List LoadedVoxelTexture)
    (lists : List LoadedChasmFloorTextureList) (keys : List LoadedChasmTextureKey)
    (chunkPos : ℤ × ℤ) (chasmAnimPercent : ℚ) (worldPos : ℚ × ℚ × ℚ) (v : VoxelEntry)
    (hc : v.chasmInfo.isSome = false) (hf : v.fadePercent.isSome = false) :
    ∀ d, emitOpaqueSection vt lists keys chunkPos chasmAnimPercent worldPos v =
      Except.ok d → d.onlyStatic :=
  emitOpaqueSection_induct vt lists keys chunkPos chasmAnimPercent worldPos v
    DrawLists.onlyStatic onlyStatic_empty (fun _ _ => onlyStatic_append)
    (fun i d hg => ((emitOpaqueGroup_route vt lists keys chunkPos chasmAnimPercent
      worldPos v i d hg).2).2 hc hf)

theorem DrawLists.append_staticDrawCalls (a b : DrawLists) :
    (a.append b).staticDrawCalls = a.staticDrawCalls ++ b.staticDrawCalls := rfl

theorem DrawLists.append_doorDrawCalls (a b : DrawLists) :
    (a.append b).doorDrawCalls = a.doorDrawCalls ++ b.doorDrawCalls := rfl

theorem DrawLists.append_chasmDrawCalls (a b : DrawLists) :
    (a.append b).chasmDrawCalls = a.chasmDrawCalls ++ b.chasmDrawCalls := rfl

theorem DrawLists.append_fadingDrawCalls (a b : DrawLists) :
    (a.append b).fadingDrawCalls = a.fadingDrawCalls ++ b.fadingDrawCalls := rfl

theorem emitVoxel_route (vt : List LoadedVoxelTexture)
    (lists : List LoadedChasmFloorTextureList) (keys : List LoadedChasmTextureKey)
    (consts : RenderConsts) (chunkPos : ℤ × ℤ) (ceilingScale chasmAnimPercent : ℚ)
    (us ua : Bool) (v : VoxelEntry) (a : DrawLists)
    (hwf : WellFormedVoxel v)
    (h : emitVoxel vt lists keys consts chunkPos ceilingScale chasmAnimPercent us ua v =
      Except.ok a) :
    (v.chasmInfo.isSome = true → a.onlyChasm)
    ∧ (v.doorInfo.isSome = true → a.onlyDoor)
    ∧ (v.doorInfo = none → v.chasmInfo = none → v.fadePercent = none → a.onlyStatic)
    ∧ (v.doorInfo = none → v.chasmInfo = none → v.fadePercent.isSome = true →
        a.doorDrawCalls = [] ∧ a.chasmDrawCalls = []) := by
  obtain ⟨hwf1, hwf2, hwf3, hwf4⟩ := hwf
  set worldPos := voxelWorldPos consts chunkPos ceilingScale v with hwp
  by_cases hme : v.meshEmpty
  · unfold emitVoxel at h
    rw [if_pos hme] at h
    obtain rfl : DrawLists.empty = a :=
      Except.ok.inj (show Except.ok DrawLists.empty = Except.ok a from h)
    exact ⟨fun _ => onlyChasm_empty, fun _ => onlyDoor_empty,
      fun _ _ _ => onlyStatic_empty, fun _ _ _ => ⟨rfl, rfl⟩⟩
  · rcases hci : v.chasmInfo with - | c
    · rcases hdi : v.doorInfo with - | door
      · -- neither chasm nor door
        have hWe := emitChasmWallSection_none vt lists keys chunkPos chasmAnimPercent
          worldPos us ua v hci
        unfold emitVoxel at h
        simp only [hme, Bool.false_eq_true, if_false, hci, hdi, Option.isSome_some,
          Option.isSome_none, Bool.true_or, Bool.or_true, Bool.false_or, Bool.or_false,
          Bool.not_true, Bool.not_false, Bool.and_true, Bool.and_false, Bool.true_and,
          Bool.false_and, if_true, hWe, except_pure_eq_ok, except_ok_bind,
          DrawLists.append_empty, ite_self] at h
        have hOs : v.fadePercent = none → ∀ o, emitOpaqueSection vt lists keys chunkPos
            chasmAnimPercent worldPos v = Except.ok o → o.onlyStatic := fun hfp =>
          emitOpaqueSection_route_static vt lists keys chunkPos chasmAnimPercent worldPos v
            (by rw [hci]; rfl) (by rw [hfp]; rfl)
        have hOf : v.fadePercent.isSome = true → ∀ o, emitOpaqueSection vt lists keys chunkPos
            chasmAnimPercent worldPos v = Except.ok o → o.onlyFading := fun hfp =>
          emitOpaqueSection_route_fading vt lists keys chunkPos chasmAnimPercent worldPos v
            (by rw [hci]; rfl) hfp
        have hAs : ∀ p ab, emitAlphaSection vt consts ceilingScale worldPos v =
            Except.ok (p, ab) → p.onlyStatic := fun p ab hp =>
          (emitAlphaSection_route vt consts ceilingScale worldPos v p ab hp).2 hdi
        have hfin : ∀ (o p : DrawLists),
            (v.fadePercent = none → o.onlyStatic) →
            (v.fadePercent.isSome = true → o.onlyFading) →
            p.onlyStatic → a = o.append p →
            ((v.fadePercent = none → a.onlyStatic)
              ∧ (v.fadePercent.isSome = true →
                  a.doorDrawCalls = [] ∧ a.chasmDrawCalls = [])) := by
          intro o p ho1 ho2 hp ha
          subst ha
          constructor
          · intro hfp
            exact onlyStatic_append (ho1 hfp) hp
          · intro hfp
            obtain ⟨hf1, hf2, hf3⟩ := ho2 hfp
            obtain ⟨hp1, hp2, hp3⟩ := hp
            rw [DrawLists.append_doorDrawCalls, DrawLists.append_chasmDrawCalls,
              hf2, hf3, hp1, hp2]
            exact ⟨rfl, rfl⟩
        have hmain : (v.fadePercent = none → a.onlyStatic)
            ∧ (v.fadePercent.isSome = true →
                a.doorDrawCalls = [] ∧ a.chasmDrawCalls = []) := by
          by_cases hc1 : ((!v.fadePercent.isSome && us) || (v.fadePercent.isSome && ua)) = true
          · rw [if_pos hc1] at h
            rcases hO : emitOpaqueSection vt lists keys chunkPos chasmAnimPercent
                worldPos v with e | o
            · rw [hO] at h
              exact Except.noConfusion (show (Except.error () : Except Unit DrawLists) =
                Except.ok a from h)
            · rw [hO] at h
              rw [except_ok_bind] at h
              by_cases ha : v.mesh.alphaTestedIndexBufferID ≥ 0
              · rw [if_pos ha] at h
                by_cases hus : us = true
                · rw [if_pos hus] at h
                  rcases hA : emitAlphaSection vt consts ceilingScale worldPos v with e | p
                  · rw [hA] at h
                    exact Except.noConfusion
                      (show (Except.error () : Except Unit DrawLists) = Except.ok a from h)
                  · rw [hA] at h
                    rw [except_ok_bind] at h
                    obtain rfl : o.append p.1 = a := Except.ok.inj h
                    exact hfin o p.1 (fun hf => hOs hf o hO) (fun hf => hOf hf o hO)
                      (hAs p.1 p.2 (by rw [hA])) rfl
                · rw [if_neg hus] at h
                  obtain rfl : o = a := Except.ok.inj h
                  refine (DrawLists.append_empty o) ▸ hfin o DrawLists.empty
                    (fun hf => hOs hf o hO) (fun hf => hOf hf o hO) onlyStatic_empty ?_
                  rw [DrawLists.append_empty]
              · rw [if_neg ha] at h
                obtain rfl : o = a := Except.ok.inj h
                refine (DrawLists.append_empty o) ▸ hfin o DrawLists.empty
                  (fun hf => hOs hf o hO) (fun hf => hOf hf o hO) onlyStatic_empty ?_
                rw [DrawLists.append_empty]
          · rw [if_neg hc1] at h
            by_cases ha : v.mesh.alphaTestedIndexBufferID ≥ 0
            · rw [if_pos ha] at h
              by_cases hus : us = true
              · rw [if_pos hus] at h
                rcases hA : emitAlphaSection vt consts ceilingScale worldPos v with e | p
                · rw [hA] at h
                  exact Except.noConfusion
                    (show (Except.error () : Except Unit DrawLists) = Except.ok a from h)
                · rw [hA] at h
                  rw [except_ok_bind] at h
                  obtain rfl : DrawLists.empty.append p.1 = a := Except.ok.inj h
                  exact hfin DrawLists.empty p.1 (fun _ => onlyStatic_empty)
                    (fun _ => onlyFading_empty) (hAs p.1 p.2 (by rw [hA])) rfl
              · rw [if_neg hus] at h
                obtain rfl : DrawLists.empty = a := Except.ok.inj h
                exact ⟨fun _ => onlyStatic_empty, fun _ => ⟨rfl, rfl⟩⟩
            · rw [if_neg ha] at h
              obtain rfl : DrawLists.empty = a := Except.ok.inj h
              exact ⟨fun _ => onlyStatic_empty, fun _ => ⟨rfl, rfl⟩⟩
        exact ⟨fun hcc => absurd hcc (by simp), fun hdd => absurd hdd (by simp),
          fun _ _ hfp => hmain.1 hfp, fun _ _ hfp => hmain.2 hfp⟩
      · -- door voxel
        have hvt : v.vtype = VoxelType.door := hwf1.mp (by rw [hdi]; rfl)
        have hlen : v.mesh.opaqueIndexBufferIDs.length = 0 := by
          have := hwf3
          rw [hvt] at this
          simpa [GetOpaqueIndexBufferCount] using this
        have hO := emitOpaqueSection_nil vt lists keys chunkPos chasmAnimPercent
          worldPos v hlen
        have hWe := emitChasmWallSection_none vt lists keys chunkPos chasmAnimPercent
          worldPos us ua v hci
        have hAd : ∀ p ab, emitAlphaSection vt consts ceilingScale worldPos v =
            Except.ok (p, ab) → p.onlyDoor := fun p ab hp =>
          (emitAlphaSection_route vt consts ceilingScale worldPos v p ab hp).1
            (by rw [hdi]; rfl)
        unfold emitVoxel at h
        simp only [hme, Bool.false_eq_true, if_false, hci, hdi, Option.isSome_some,
          Option.isSome_none, Bool.true_or, Bool.or_true, Bool.false_or, Bool.or_false,
          Bool.not_true, Bool.not_false, Bool.and_true, Bool.and_false, Bool.true_and,
          Bool.false_and, if_true, hO, hWe, except_pure_eq_ok, except_ok_bind,
          DrawLists.append_empty, DrawLists.empty_append, ite_self] at h
        have hmain : a.onlyDoor := by
          by_cases ha : v.mesh.alphaTestedIndexBufferID ≥ 0
          · rw [if_pos ha] at h
            by_cases hc2 : (us || ua) = true
            · rw [if_pos hc2] at h
              rcases hA : emitAlphaSection vt consts ceilingScale worldPos v with e | p
              · rw [hA] at h
                exact Except.noConfusion
                  (show (Except.error () : Except Unit DrawLists) = Except.ok a from h)
              · rw [hA] at h
                rw [except_ok_bind] at h
                obtain rfl : p.1 = a := Except.ok.inj h
                exact hAd p.1 p.2 (by rw [hA])
            · rw [if_neg hc2] at h
              obtain rfl : DrawLists.empty = a := Except.ok.inj h
              exact onlyDoor_empty
          · rw [if_neg ha] at h
            obtain rfl : DrawLists.empty = a := Except.ok.inj h
            exact onlyDoor_empty
        exact ⟨fun hcc => absurd hcc (by simp), fun _ => hmain,
          fun hdd => absurd hdd (by simp), fun hdd => absurd hdd (by simp)⟩
    · -- chasm voxel
      have hvt : v.vtype = VoxelType.chasm := hwf2.mp (by rw [hci]; rfl)
      have hdi : v.doorInfo = none := by
        rcases hd : v.doorInfo with - | door
        · rfl
        · have hv2 := hwf1.mp (by rw [hd]; rfl)
          rw [hv2] at hvt
          cases hvt
      have halpha : ¬(v.mesh.alphaTestedIndexBufferID ≥ 0) := by
        intro hge
        have := hwf4 hge
        rw [hvt] at this
        simp [GetAlphaTestedIndexBufferCount] at this
      unfold emitVoxel at h
      simp only [hme, Bool.false_eq_true, if_false, hci, hdi, Option.isSome_some,
        Option.isSome_none, Bool.true_or, Bool.or_true, Bool.false_or, Bool.or_false,
        Bool.not_true, Bool.not_false, Bool.and_true, Bool.and_false, Bool.true_and,
        Bool.false_and, if_true, halpha, except_pure_eq_ok, except_ok_bind, ite_self] at h
      have hmain : a.onlyChasm := by
        by_cases hc1 : ua = true
        · rw [if_pos hc1] at h
          rcases hO : emitOpaqueSection vt lists keys chunkPos chasmAnimPercent
              worldPos v with e | o
          · rw [hO] at h
            exact Except.noConfusion (show (Except.error () : Except Unit DrawLists) =
              Except.ok a from h)
          · rw [hO] at h
            rw [except_ok_bind] at h
            rcases hWr : emitChasmWallSection vt lists keys chunkPos chasmAnimPercent
                worldPos us ua v with e | w
            · rw [hWr] at h
              exact Except.noConfusion (show (Except.error () : Except Unit DrawLists) =
                Except.ok a from h)
            · rw [hWr] at h
              rw [except_ok_bind] at h
              obtain rfl : o.append w = a := Except.ok.inj h
              exact onlyChasm_append
                (emitOpaqueSection_route_chasm vt lists keys chunkPos chasmAnimPercent
                  worldPos v (by rw [hci]; rfl) o hO)
                (emitChasmWallSection_route vt lists keys chunkPos chasmAnimPercent
                  worldPos us ua v w hWr)
        · rw [if_neg hc1] at h
          rcases hWr : emitChasmWallSection vt lists keys chunkPos chasmAnimPercent
              worldPos us ua v with e | w
          · rw [hWr] at h
            exact Except.noConfusion (show (Except.error () : Except Unit DrawLists) =
              Except.ok a from h)
          · rw [hWr] at h
            rw [except_ok_bind] at h
            obtain rfl : DrawLists.empty.append w = a := Except.ok.inj h
            exact onlyChasm_append onlyChasm_empty
              (emitChasmWallSection_route vt lists keys chunkPos chasmAnimPercent
                worldPos us ua v w hWr)
      exact ⟨fun _ => hmain, fun hdd => absurd (hdi ▸ hdd) (by simp),
        fun _ hcc _ => Option.noConfusion hcc, fun _ hcc _ => Option.noConfusion hcc⟩

theorem DrawLists.ext_mk (d : DrawLists) :
    d = ⟨d.staticDrawCalls, d.doorDrawCalls, d.chasmDrawCalls, d.fadingDrawCalls⟩ := rfl

theorem DrawLists.append_assoc (a b c : DrawLists) :
    (a.append b).append c = a.append (b.append c) := by
  simp [DrawLists.append, List.append_assoc]

theorem emitVoxel_fading (vt : List LoadedVoxelTexture)
    (lists : List LoadedChasmFloorTextureList) (keys : List LoadedChasmTextureKey)
    (consts : RenderConsts) (chunkPos : ℤ × ℤ) (ceilingScale chasmAnimPercent : ℚ)
    (v : VoxelEntry) (a b : DrawLists) (hdi : v.doorInfo = none)
    (hci : v.chasmInfo = none) (hfs : v.fadePercent.isSome = true)
    (ha : emitVoxel vt lists keys consts chunkPos ceilingScale chasmAnimPercent true false v
      = Except.ok a)
    (hb : emitVoxel vt lists keys consts chunkPos ceilingScale chasmAnimPercent false true v
      = Except.ok b) :
    emitVoxel vt lists keys consts chunkPos ceilingScale chasmAnimPercent true true v =
      Except.ok (b.append a)
    ∧ b.staticDrawCalls = [] ∧ a.fadingDrawCalls = [] := by
  have hW := fun us ua => emitChasmWallSection_none vt lists keys chunkPos chasmAnimPercent
    (voxelWorldPos consts chunkPos ceilingScale v) us ua v hci
  by_cases hme : v.meshEmpty
  · unfold emitVoxel at ha hb ⊢
    rw [if_pos hme] at ha hb ⊢
    obtain rfl : DrawLists.empty = a := Except.ok.inj ha
    obtain rfl : DrawLists.empty = b := Except.ok.inj hb
    exact ⟨by rw [DrawLists.append_empty]; rfl, rfl, rfl⟩
  · unfold emitVoxel at ha hb ⊢
    simp only [hme, Bool.false_eq_true, if_false, hdi, hci, hfs, Option.isSome_some,
      Option.isSome_none, Bool.true_or, Bool.or_true, Bool.false_or, Bool.or_false,
      Bool.not_true, Bool.not_false, Bool.and_true, Bool.and_false, Bool.true_and,
      Bool.false_and, Bool.or_self, if_true, hW true false, hW false true,
      hW true true, except_pure_eq_ok, except_ok_bind, DrawLists.empty_append,
      DrawLists.append_empty, ite_self] at ha hb ⊢
    rcases hO : emitOpaqueSection vt lists keys chunkPos chasmAnimPercent
        (voxelWorldPos consts chunkPos ceilingScale v) v with e | o
    · rw [hO] at hb
      exact Except.noConfusion
        (show (Except.error () : Except Unit DrawLists) = Except.ok b from hb)
    · rw [hO] at hb
      rw [except_ok_bind] at hb ⊢
      obtain rfl : o = b := Except.ok.inj hb
      have hbs : o.staticDrawCalls = [] :=
        (emitOpaqueSection_route_fading vt lists keys chunkPos chasmAnimPercent
          (voxelWorldPos consts chunkPos ceilingScale v) v (by rw [hci]; rfl) hfs o hO).1
      by_cases halpha : v.mesh.alphaTestedIndexBufferID ≥ 0
      · rw [if_pos halpha] at ha ⊢
        rcases hA : emitAlphaSection vt consts ceilingScale
            (voxelWorldPos consts chunkPos ceilingScale v) v with e | p
        · rw [hA] at ha
          exact Except.noConfusion
            (show (Except.error () : Except Unit DrawLists) = Except.ok a from ha)
        · rw [hA] at ha
          rw [except_ok_bind] at ha ⊢
          obtain rfl : p.1 = a := Except.ok.inj ha
          have hps : p.1.onlyStatic :=
            (emitAlphaSection_route vt consts ceilingScale
              (voxelWorldPos consts chunkPos ceilingScale v) v p.1 p.2 (by rw [hA])).2 hdi
          exact ⟨rfl, hbs, hps.2.2⟩
      · rw [if_neg halpha] at ha ⊢
        obtain rfl : DrawLists.empty = a := Except.ok.inj ha
        exact ⟨by rw [DrawLists.append_empty], hbs, rfl⟩

theorem emitVoxel_flag_split (vt : List LoadedVoxelTexture)
    (lists : List LoadedChasmFloorTextureList) (keys : List LoadedChasmTextureKey)
    (consts : RenderConsts) (chunkPos : ℤ × ℤ) (ceilingScale chasmAnimPercent : ℚ)
    (v : VoxelEntry) (a b : DrawLists) (hwf : WellFormedVoxel v)
    (hnd : hasDryChasmWall v = false)
    (ha : emitVoxel vt lists keys consts chunkPos ceilingScale chasmAnimPercent true false v
      = Except.ok a)
    (hb : emitVoxel vt lists keys consts chunkPos ceilingScale chasmAnimPercent false true v
      = Except.ok b) :
    emitVoxel vt lists keys consts chunkPos ceilingScale chasmAnimPercent true true v =
      Except.ok ⟨a.staticDrawCalls, b.doorDrawCalls, b.chasmDrawCalls, b.fadingDrawCalls⟩
    ∧ b.staticDrawCalls = [] := by
  rcases hci : v.chasmInfo with - | c
  · rcases hdi : v.doorInfo with - | door
    · rcases hfp : v.fadePercent with - | f
      · have V1 := emitVoxel_not_canAnimate vt lists keys consts chunkPos ceilingScale
          chasmAnimPercent v hdi hci hfp
        obtain rfl : DrawLists.empty = b := Except.ok.inj (V1.2.symm.trans hb)
        obtain ⟨h1, h2, h3⟩ :=
          (emitVoxel_route vt lists keys consts chunkPos ceilingScale chasmAnimPercent
            true false v a hwf ha).2.2.1 hdi hci hfp
        constructor
        · rw [V1.1, ha]
          congr 1
          conv_lhs => rw [DrawLists.ext_mk a]
          rw [h1, h2, h3]
          rfl
        · rfl
      · have hfs : v.fadePercent.isSome = true := by rw [hfp]; rfl
        obtain ⟨hE, hbs, haf⟩ := emitVoxel_fading vt lists keys consts chunkPos ceilingScale
          chasmAnimPercent v a b hdi hci hfs ha hb
        obtain ⟨had, hac⟩ :=
          (emitVoxel_route vt lists keys consts chunkPos ceilingScale chasmAnimPercent
            true false v a hwf ha).2.2.2 hdi hci hfs
        constructor
        · rw [hE]
          congr 1
          rw [DrawLists.ext_mk (b.append a), DrawLists.append_staticDrawCalls,
            DrawLists.append_doorDrawCalls, DrawLists.append_chasmDrawCalls,
            DrawLists.append_fadingDrawCalls, hbs, had, hac, haf, List.nil_append,
            List.append_nil, List.append_nil, List.append_nil]
        · exact hbs
    · have hvt : v.vtype = VoxelType.door := hwf.1.mp (by rw [hdi]; rfl)
      have hlen : v.mesh.opaqueIndexBufferIDs.length = 0 := by
        have := hwf.2.2.1
        rw [hvt] at this
        simpa [GetOpaqueIndexBufferCount] using this
      have V3 := emitVoxel_door vt lists keys consts chunkPos ceilingScale
        chasmAnimPercent v door hdi hci hlen
      obtain rfl : a = b :=
        Except.ok.inj ((ha.symm.trans (V3.1.symm.trans V3.2)).trans hb)
      have hbD := (emitVoxel_route vt lists keys consts chunkPos ceilingScale
        chasmAnimPercent false true v a hwf hb).2.1 (by rw [hdi]; rfl)
      constructor
      · rw [V3.1, ha]
      · exact hbD.1
  · have hvt : v.vtype = VoxelType.chasm := hwf.2.1.mp (by rw [hci]; rfl)
    have hdi : v.doorInfo = none := by
      rcases hd : v.doorInfo with - | door
      · rfl
      · have hv2 := hwf.1.mp (by rw [hd]; rfl)
        rw [hv2] at hvt
        cases hvt
    have halpha : ¬(v.mesh.alphaTestedIndexBufferID ≥ 0) := by
      intro hge
      have := hwf.2.2.2 hge
      rw [hvt] at this
      simp [GetAlphaTestedIndexBufferCount] at this
    have V2 := emitVoxel_chasm vt lists keys consts chunkPos ceilingScale
      chasmAnimPercent v c hci hvt halpha hnd
    obtain rfl : DrawLists.empty = a := Except.ok.inj (V2.1.symm.trans ha)
    have hbC := (emitVoxel_route vt lists keys consts chunkPos ceilingScale
      chasmAnimPercent false true v b hwf hb).1 (by rw [hci]; rfl)
    constructor
    · rw [V2.2, hb]
      congr 1
      conv_lhs => rw [DrawLists.ext_mk b]
      rw [hbC.1]
      rfl
    · exact hbC.1

theorem loadVoxelDrawCallsGo_append (vt : List LoadedVoxelTexture)
    (lists : List LoadedChasmFloorTextureList) (keys : List LoadedChasmTextureKey)
    (consts : RenderConsts) (chunkPos : ℤ × ℤ) (ceilingScale chasmAnimPercent : ℚ)
    (us ua : Bool) (vs : List VoxelEntry) :
    ∀ (acc : DrawLists),
      loadVoxelDrawCallsGo vt lists keys consts chunkPos ceilingScale chasmAnimPercent
        us ua acc vs =
      (loadVoxelDrawCallsGo vt lists keys consts chunkPos ceilingScale chasmAnimPercent
        us ua DrawLists.empty vs).map (fun d => acc.append d) := by
  induction vs with
  | nil =>
      intro acc
      simp [loadVoxelDrawCallsGo, except_pure_eq_ok, Except.map, DrawLists.append_empty]
  | cons v vs ih =>
      intro acc
      simp only [loadVoxelDrawCallsGo]
      rcases hE : emitVoxel vt lists keys consts chunkPos ceilingScale chasmAnimPercent
          us ua v with e | d
      · cases e
        rfl
      · rw [except_ok_bind, except_ok_bind, ih (acc.append d), ih (DrawLists.empty.append d)]
        rcases hG : loadVoxelDrawCallsGo vt lists keys consts chunkPos ceilingScale
            chasmAnimPercent us ua DrawLists.empty vs with e | g
        · cases e
          rfl
        · simp [Except.map, DrawLists.empty_append, DrawLists.append_assoc]

theorem loadVoxelDrawCallsGo_flag_split (vt : List LoadedVoxelTexture)
    (lists : List LoadedChasmFloorTextureList) (keys : List LoadedChasmTextureKey)
    (consts : RenderConsts) (chunkPos : ℤ × ℤ) (ceilingScale chasmAnimPercent : ℚ)
    (vs : List VoxelEntry) :
    (∀ v ∈ vs, WellFormedVoxel v ∧ hasDryChasmWall v = false) →
    ∀ (a b : DrawLists),
    loadVoxelDrawCallsGo vt lists keys consts chunkPos ceilingScale chasmAnimPercent
      true false DrawLists.empty vs = Except.ok a →
    loadVoxelDrawCallsGo vt lists keys consts chunkPos ceilingScale chasmAnimPercent
      false true DrawLists.empty vs = Except.ok b →
    loadVoxelDrawCallsGo vt lists keys consts chunkPos ceilingScale chasmAnimPercent
      true true DrawLists.empty vs =
      Except.ok ⟨a.staticDrawCalls, b.doorDrawCalls, b.chasmDrawCalls, b.fadingDrawCalls⟩
    ∧ b.staticDrawCalls = [] := by
  induction vs with
  | nil =>
      intro _ a b ha hb
      obtain rfl : DrawLists.empty = a :=
        Except.ok.inj (show Except.ok DrawLists.empty = Except.ok a from ha)
      obtain rfl : DrawLists.empty = b :=
        Except.ok.inj (show Except.ok DrawLists.empty = Except.ok b from hb)
      exact ⟨rfl, rfl⟩
  | cons v vs ih =>
      intro hwf a b ha hb
      simp only [loadVoxelDrawCallsGo] at ha hb ⊢
      rcases hE1 : emitVoxel vt lists keys consts chunkPos ceilingScale chasmAnimPercent
          true false v with e | d1
      · cases e
        rw [hE1, except_error_bind] at ha
        exact Except.noConfusion ha
      · rw [hE1, except_ok_bind] at ha
        rcases hE2 : emitVoxel vt lists keys consts chunkPos ceilingScale chasmAnimPercent
            false true v with e | d2
        · cases e
          rw [hE2, except_error_bind] at hb
          exact Except.noConfusion hb
        · rw [hE2, except_ok_bind] at hb
          rw [loadVoxelDrawCallsGo_append vt lists keys consts chunkPos ceilingScale
            chasmAnimPercent true false vs (DrawLists.empty.append d1)] at ha
          rw [loadVoxelDrawCallsGo_append vt lists keys consts chunkPos ceilingScale
            chasmAnimPercent false true vs (DrawLists.empty.append d2)] at hb
          rcases hA : loadVoxelDrawCallsGo vt lists keys consts chunkPos ceilingScale
              chasmAnimPercent true false DrawLists.empty vs with e | da
          · cases e
            rw [hA] at ha
            exact Except.noConfusion
              (show (Except.error () : Except Unit DrawLists) = Except.ok a from ha)
          · rw [hA] at ha
            rcases hB : loadVoxelDrawCallsGo vt lists keys consts chunkPos ceilingScale
                chasmAnimPercent false true DrawLists.empty vs with e | db
            · cases e
              rw [hB] at hb
              exact Except.noConfusion
                (show (Except.error () : Except Unit DrawLists) = Except.ok b from hb)
            · rw [hB] at hb
              obtain rfl : (DrawLists.empty.append d1).append da = a :=
                Except.ok.inj
                  (show Except.ok ((DrawLists.empty.append d1).append da) = Except.ok a
                    from ha)
              obtain rfl : (DrawLists.empty.append d2).append db = b :=
                Except.ok.inj
                  (show Except.ok ((DrawLists.empty.append d2).append db) = Except.ok b
                    from hb)
              have hsplit := emitVoxel_flag_split vt lists keys consts chunkPos ceilingScale
                chasmAnimPercent v d1 d2 (hwf v (List.mem_cons_self v vs)).1
                (hwf v (List.mem_cons_self v vs)).2 hE1 hE2
              have hih := ih (fun w hw => hwf w (List.mem_cons_of_mem v hw)) da db hA hB
              rw [hsplit.1, except_ok_bind,
                loadVoxelDrawCallsGo_append vt lists keys consts chunkPos ceilingScale
                  chasmAnimPercent true true vs, hih.1]
              constructor
              · rfl
              · simp [DrawLists.append_staticDrawCalls, DrawLists.empty_append,
                  hsplit.2, hih.2]

theorem rebuild_lists_flag_split (vt : List LoadedVoxelTexture)
    (lists : List LoadedChasmFloorTextureList) (keys : List LoadedChasmTextureKey)
    (consts : RenderConsts) (chunkPos : ℤ × ℤ) (ceilingScale chasmAnimPercent : ℚ)
    (vs : List VoxelEntry)
    (hwf : ∀ v ∈ vs, WellFormedVoxel v ∧ hasDryChasmWall v = false)
    (L : DrawLists) (nl1 nl2 nl3 : DrawLists)
    (h1 : loadVoxelDrawCallsGo vt lists keys consts chunkPos ceilingScale chasmAnimPercent
      true false (clearLists true false L) vs = Except.ok nl1)
    (h2 : loadVoxelDrawCallsGo vt lists keys consts chunkPos ceilingScale chasmAnimPercent
      false true (clearLists false true nl1) vs = Except.ok nl2)
    (h3 : loadVoxelDrawCallsGo vt lists keys consts chunkPos ceilingScale chasmAnimPercent
      true true (clearLists true true L) vs = Except.ok nl3) :
    nl2 = nl3 := by
  rw [loadVoxelDrawCallsGo_append vt lists keys consts chunkPos ceilingScale
    chasmAnimPercent true false vs] at h1
  rw [loadVoxelDrawCallsGo_append vt lists keys consts chunkPos ceilingScale
    chasmAnimPercent false true vs] at h2
  rw [loadVoxelDrawCallsGo_append vt lists keys consts chunkPos ceilingScale
    chasmAnimPercent true true vs] at h3
  rcases hA : loadVoxelDrawCallsGo vt lists keys consts chunkPos ceilingScale
      chasmAnimPercent true false DrawLists.empty vs with e | da
  · cases e
    rw [hA] at h1
    exact Except.noConfusion
      (show (Except.error () : Except Unit DrawLists) = Except.ok nl1 from h1)
  · rw [hA] at h1
    rcases hB : loadVoxelDrawCallsGo vt lists keys consts chunkPos ceilingScale
        chasmAnimPercent false true DrawLists.empty vs with e | db
    · cases e
      rw [hB] at h2
      exact Except.noConfusion
        (show (Except.error () : Except Unit DrawLists) = Except.ok nl2 from h2)
    · rw [hB] at h2
      have hsplit := loadVoxelDrawCallsGo_flag_split vt lists keys consts chunkPos
        ceilingScale chasmAnimPercent vs hwf da db hA hB
      rw [hsplit.1] at h3
      obtain rfl : (clearLists true false L).append da = nl1 :=
        Except.ok.inj (show _ = _ from h1)
      obtain rfl : (clearLists false true ((clearLists true false L).append da)).append db
          = nl2 := Except.ok.inj (show _ = _ from h2)
      obtain rfl : (clearLists true true L).append
          ⟨da.staticDrawCalls, db.doorDrawCalls, db.chasmDrawCalls, db.fadingDrawCalls⟩
          = nl3 := Except.ok.inj (show _ = _ from h3)
      simp [clearLists, DrawLists.append, hsplit.2]

theorem findIdxOpt_set_congr (p : α → Bool) :
    ∀ (l : List α) (i : ℕ) (x : α),
      (∀ y, l.get? i = some y → p x = p y) →
      findIdxOpt p (l.set i x) = findIdxOpt p l := by
  intro l
  induction l with
  | nil => intro i x _; rfl
  | cons a l ih =>
      intro i x h
      cases i with
      | zero =>
          have hpa : p x = p a := h a rfl
          simp [findIdxOpt, List.set, hpa]
      | succ j =>
          simp [findIdxOpt, List.set, ih j x (fun y hy => h y hy)]

theorem get?_set_of_some {α : Type} :
    ∀ (l : List α) (i : ℕ) (x y : α), l.get? i = some y → (l.set i x).get? i = some x := by
  intro l
  induction l with
  | nil => intro i x y h; cases h
  | cons a l ih =>
      intro i x y h
      cases i with
      | zero => rfl
      | succ j => exact ih j x y h

theorem except_bind_pure_map {α β : Type} (x : Except Unit α) (f : α → β) :
    Except.bind x (fun v => pure (f v)) = x.map f := by
  cases x <;> rfl

theorem rebuildVoxelChunkDrawCalls_eq (consts : RenderConsts) (mgr : RenderChunkMgr)
    (chunk : VoxelChunkData) (ceilingScale chasmAnimPercent : ℚ) (us ua : Bool)
    (i : ℕ) (rc : RenderChunkL)
    (hidx : tryGetRenderChunkIndex mgr chunk.position = some i)
    (hget : mgr.renderChunks.get? i = some rc) :
    rebuildVoxelChunkDrawCalls consts mgr chunk ceilingScale chasmAnimPercent us ua =
      (loadVoxelDrawCallsGo mgr.voxelTextures mgr.chasmFloorTextureLists
        mgr.chasmTextureKeys consts chunk.position ceilingScale chasmAnimPercent us ua
        (clearLists us ua rc.drawLists) chunk.voxels).map
        (fun nl => { mgr with renderChunks :=
          mgr.renderChunks.set i { rc with drawLists := nl } }) := by
  unfold rebuildVoxelChunkDrawCalls
  simp only [hidx, hget]
  exact except_bind_pure_map _ _

/-- C1: running a statics-only rebuild followed by an animating-only rebuild
produces the same manager state as a single rebuild with both flags set —
provided every voxel is well-formed and no voxel is a dry chasm with a wall
index buffer (such walls are emitted by the statics pass into the chasm list,
breaking the equivalence) — and each voxel's draw calls are routed all to the
chasm list, all to the door list, or all to the static list, except that a
fading voxel's alpha-tested draw calls go to the static list while its opaque
draw calls go to the fading list. -/
theorem claim_C1_flag_partition (consts : RenderConsts) (mgr : RenderChunkMgr)
    (chunk : VoxelChunkData) (ceilingScale chasmAnimPercent : ℚ)
    (mgr1 mgr2 mgr3 : RenderChunkMgr)
    (hwf : ∀ v ∈ chunk.voxels, WellFormedVoxel v ∧ hasDryChasmWall v = false)
    (h1 : rebuildVoxelChunkDrawCalls consts mgr chunk ceilingScale chasmAnimPercent
      true false = Except.ok mgr1)
    (h2 : rebuildVoxelChunkDrawCalls consts mgr1 chunk ceilingScale chasmAnimPercent
      false true = Except.ok mgr2)
    (h3 : rebuildVoxelChunkDrawCalls consts mgr chunk ceilingScale chasmAnimPercent
      true true = Except.ok mgr3) :
    mgr2 = mgr3
    ∧ (∀ (us ua : Bool) (v : VoxelEntry), v ∈ chunk.voxels →
       ∀ d, emitVoxel mgr.voxelTextures mgr.chasmFloorTextureLists mgr.chasmTextureKeys
           consts chunk.position ceilingScale chasmAnimPercent us ua v = Except.ok d →
         (v.chasmInfo.isSome = true → d.onlyChasm)
         ∧ (v.doorInfo.isSome = true → d.onlyDoor)
         ∧ (v.doorInfo = none → v.chasmInfo = none → v.fadePercent = none → d.onlyStatic)
         ∧ (v.doorInfo = none → v.chasmInfo = none → v.fadePercent.isSome = true →
             d.doorDrawCalls = [] ∧ d.chasmDrawCalls = [])) := by
  refine ⟨?_, fun us ua v hv d hd =>
    emitVoxel_route mgr.voxelTextures mgr.chasmFloorTextureLists mgr.chasmTextureKeys
      consts chunk.position ceilingScale chasmAnimPercent us ua v d (hwf v hv).1 hd⟩
  rcases hidx : tryGetRenderChunkIndex mgr chunk.position with - | i
  · unfold rebuildVoxelChunkDrawCalls at h1 h3
    simp only [hidx] at h1 h3
    obtain rfl : mgr = mgr1 :=
      Except.ok.inj (show Except.ok mgr = Except.ok mgr1 from h1)
    obtain rfl : mgr = mgr3 :=
      Except.ok.inj (show Except.ok mgr = Except.ok mgr3 from h3)
    unfold rebuildVoxelChunkDrawCalls at h2
    simp only [hidx] at h2
    exact (Except.ok.inj (show Except.ok mgr = Except.ok mgr2 from h2)).symm
  · have hlt : i < mgr.renderChunks.length := findIdxOpt_some_lt hidx
    rcases hget : mgr.renderChunks.get? i with - | rc
    · exact absurd (List.get?_eq_none.mp hget) (by omega)
    · rw [rebuildVoxelChunkDrawCalls_eq consts mgr chunk ceilingScale chasmAnimPercent
        true false i rc hidx hget] at h1
      rw [rebuildVoxelChunkDrawCalls_eq consts mgr chunk ceilingScale chasmAnimPercent
        true true i rc hidx hget] at h3
      rcases hG1 : loadVoxelDrawCallsGo mgr.voxelTextures mgr.chasmFloorTextureLists
          mgr.chasmTextureKeys consts chunk.position ceilingScale chasmAnimPercent
          true false (clearLists true false rc.drawLists) chunk.voxels with e | nl1
      · cases e
        rw [hG1] at h1
        exact Except.noConfusion
          (show (Except.error () : Except Unit RenderChunkMgr) = Except.ok mgr1 from h1)
      · rw [hG1] at h1
        have hm1 : mgr1 = (⟨mgr.voxelTextures, mgr.chasmFloorTextureLists,
            mgr.chasmTextureKeys,
            mgr.renderChunks.set i ⟨rc.position, rc.height, nl1⟩⟩ : RenderChunkMgr) :=
          (Except.ok.inj h1).symm
        rw [hm1] at h2
        have hidx1 : tryGetRenderChunkIndex (⟨mgr.voxelTextures,
            mgr.chasmFloorTextureLists, mgr.chasmTextureKeys,
            mgr.renderChunks.set i ⟨rc.position, rc.height, nl1⟩⟩ : RenderChunkMgr)
            chunk.position = some i := by
          unfold tryGetRenderChunkIndex at hidx ⊢
          show findIdxOpt _ (mgr.renderChunks.set i ⟨rc.position, rc.height, nl1⟩) = some i
          rw [findIdxOpt_set_congr _ _ i _ (fun y hy => by rw [hget] at hy; cases hy; rfl)]
          exact hidx
        have hget1 : (⟨mgr.voxelTextures, mgr.chasmFloorTextureLists,
            mgr.chasmTextureKeys,
            mgr.renderChunks.set i ⟨rc.position, rc.height, nl1⟩⟩ :
              RenderChunkMgr).renderChunks.get? i =
            some (⟨rc.position, rc.height, nl1⟩ : RenderChunkL) :=
          get?_set_of_some _ i _ rc hget
        rw [rebuildVoxelChunkDrawCalls_eq consts _ chunk ceilingScale chasmAnimPercent
          false true i _ hidx1 hget1] at h2
        dsimp only at h2
        rcases hG2 : loadVoxelDrawCallsGo mgr.voxelTextures mgr.chasmFloorTextureLists
            mgr.chasmTextureKeys consts chunk.position ceilingScale chasmAnimPercent
            false true (clearLists false true nl1) chunk.voxels with e | nl2v
        · cases e
          rw [hG2] at h2
          exact Except.noConfusion
            (show (Except.error () : Except Unit RenderChunkMgr) = Except.ok mgr2 from h2)
        · rw [hG2] at h2
          rcases hG3 : loadVoxelDrawCallsGo mgr.voxelTextures mgr.chasmFloorTextureLists
              mgr.chasmTextureKeys consts chunk.position ceilingScale chasmAnimPercent
              true true (clearLists true true rc.drawLists) chunk.voxels with e | nl3v
          · cases e
            rw [hG3] at h3
            exact Except.noConfusion
              (show (Except.error () : Except Unit RenderChunkMgr) = Except.ok mgr3 from h3)
          · rw [hG3] at h3
            have hnl : nl2v = nl3v := rebuild_lists_flag_split mgr.voxelTextures
              mgr.chasmFloorTextureLists mgr.chasmTextureKeys consts chunk.position
              ceilingScale chasmAnimPercent chunk.voxels hwf rc.drawLists nl1 nl2v nl3v
              hG1 hG2 hG3
            obtain rfl := Except.ok.inj h2
            obtain rfl := Except.ok.inj h3
            simp [List.set_set, hnl]

/-- Voxel-texture cache for the C1 scenario: the dry chasm's wall texture and
the three raised-voxel textures. -/
def vtC1 : List LoadedVoxelTexture :=
  [⟨50, 500⟩, ⟨10, 110⟩, ⟨11, 111⟩, ⟨12, 112⟩]

/-- Chasm floor-list cache for the C1 scenario: one solid-color (dry) list. -/
def listsC1 : List LoadedChasmFloorTextureList :=
  [LoadedChasmFloorTextureList.initColor 5 600]

/-- Chasm key cache for the C1 scenario. -/
def keysC1 : List LoadedChasmTextureKey := [⟨(0, 0), 0, 0, 0⟩]

/-- A dry chasm voxel with a precomputed wall index buffer. -/
def vDryChasmC1 : VoxelEntry :=
  { x := 0, y := 0, z := 0
    meshEmpty := false
    vtype := VoxelType.chasm
    textureAssets := []
    doorInfo := none
    chasmInfo := some
      { chasmDefID := 0
        chasmType := ChasmType.dry
        wallIndexBufferID := some 70 }
    fadePercent := none
    mesh :=
      { vertexBufferID := 1
        normalBufferID := 2
        texCoordBufferID := 3
        opaqueIndexBufferIDs := [40]
        alphaTestedIndexBufferID := -1 } }

/-- A fading raised voxel: two opaque groups and an alpha-tested group. -/
def vFadingRaisedC1 : VoxelEntry :=
  { x := 1, y := 0, z := 0
    meshEmpty := false
    vtype := VoxelType.raised
    textureAssets := [10, 11, 12]
    doorInfo := none
    chasmInfo := none
    fadePercent := some (1 / 2)
    mesh :=
      { vertexBufferID := 4
        normalBufferID := 5
        texCoordBufferID := 6
        opaqueIndexBufferIDs := [41, 42]
        alphaTestedIndexBufferID := 43 } }

/-- The chunk data of the C1 counterexample scenario. -/
def chunkC1 : VoxelChunkData :=
  { position := (0, 0)
    height := 3
    textureDefs := []
    chasmDefs := []
    voxels := [vDryChasmC1, vFadingRaisedC1] }

/-- The manager state of the C1 counterexample scenario. -/
def mgrC1 : RenderChunkMgr :=
  { voxelTextures := vtC1
    chasmFloorTextureLists := listsC1
    chasmTextureKeys := keysC1
    renderChunks := [⟨(0, 0), 3, DrawLists.empty⟩] }

/-- Statics-only rebuild followed by animating-only rebuild. -/
def seqC1 : Except Unit RenderChunkMgr :=
  Except.bind (rebuildVoxelChunkDrawCalls constsW mgrC1 chunkC1 1 0 true false)
    (fun m => rebuildVoxelChunkDrawCalls constsW m chunkC1 1 0 false true)

/-- Single rebuild with both flags. -/
def combC1 : Except Unit RenderChunkMgr :=
  rebuildVoxelChunkDrawCalls constsW mgrC1 chunkC1 1 0 true true

/-- C1 counterexample: for a chunk holding a dry chasm voxel with a wall index
buffer and a fading raised voxel, a statics-only rebuild followed by an
animating-only rebuild does not reproduce the state of a single rebuild with
both flags — the chasm list ends with one draw call instead of two (the dry
chasm wall emitted by the statics pass is cleared and not re-emitted by the
animating pass) — and in a single both-flag rebuild the fading voxel's draw
calls land in both the static list (its alpha-tested call) and the fading list
(its two opaque calls), so a voxel's calls are not routed exclusively to one
category. -/
theorem claim_C1_counterexample :
    seqC1.toOption.map (fun m => m.renderChunks.map
        (fun rc => rc.drawLists.chasmDrawCalls.length))
      ≠ combC1.toOption.map (fun m => m.renderChunks.map
        (fun rc => rc.drawLists.chasmDrawCalls.length))
    ∧ seqC1.toOption.map (fun m => m.renderChunks.map
        (fun rc => rc.drawLists.chasmDrawCalls.length)) = some [1]
    ∧ combC1.toOption.map (fun m => m.renderChunks.map
        (fun rc => rc.drawLists.chasmDrawCalls.length)) = some [2]
    ∧ (emitVoxel vtC1 listsC1 keysC1 constsW (0, 0) 1 0 true true
        vFadingRaisedC1).toOption.map
        (fun d => (d.staticDrawCalls.length, d.fadingDrawCalls.length)) = some (1, 2) := by
  decide

/-- A plain wall voxel with one opaque group, for the C1 witness scenario. -/
def vWallW : VoxelEntry :=
  { x := 0
    y := 1
    z := 0
    meshEmpty := false
    vtype := VoxelType.wall
    textureAssets := [20]
    doorInfo := none
    chasmInfo := none
    fadePercent := none
    mesh :=
      { vertexBufferID := 7
        normalBufferID := 8
        texCoordBufferID := 9
        opaqueIndexBufferIDs := [61]
        alphaTestedIndexBufferID := -1 } }

/-- Chunk data of the C1 witness scenario. -/
def chunkC1w : VoxelChunkData :=
  { position := (2, 3)
    height := 2
    textureDefs := []
    chasmDefs := []
    voxels := [vWallW] }

/-- Manager of the C1 witness scenario: the wall texture is cached and a
render chunk exists at the chunk position. -/
def mgrC1w : RenderChunkMgr :=
  { voxelTextures := [⟨20, 200⟩]
    chasmFloorTextureLists := []
    chasmTextureKeys := []
    renderChunks := [⟨(2, 3), 2, DrawLists.empty⟩] }

/-- Result of the statics-only rebuild on the witness scenario. -/
def mgrC1w1 : RenderChunkMgr :=
  (rebuildVoxelChunkDrawCalls constsW mgrC1w chunkC1w 1 0 true false).toOption.getD mgrC1w

/-- Result of the follow-up animating-only rebuild. -/
def mgrC1w2 : RenderChunkMgr :=
  (rebuildVoxelChunkDrawCalls constsW mgrC1w1 chunkC1w 1 0 false true).toOption.getD mgrC1w

/-- Result of the single both-flag rebuild. -/
def mgrC1w3 : RenderChunkMgr :=
  (rebuildVoxelChunkDrawCalls constsW mgrC1w chunkC1w 1 0 true true).toOption.getD mgrC1w

theorem claim_C1_flag_partition_witness :
    mgrC1w2 = mgrC1w3
    ∧ (∀ (us ua : Bool) (v : VoxelEntry), v ∈ chunkC1w.voxels →
       ∀ d, emitVoxel mgrC1w.voxelTextures mgrC1w.chasmFloorTextureLists
           mgrC1w.chasmTextureKeys constsW chunkC1w.position 1 0 us ua v = Except.ok d →
         (v.chasmInfo.isSome = true → d.onlyChasm)
         ∧ (v.doorInfo.isSome = true → d.onlyDoor)
         ∧ (v.doorInfo = none → v.chasmInfo = none → v.fadePercent = none → d.onlyStatic)
         ∧ (v.doorInfo = none → v.chasmInfo = none → v.fadePercent.isSome = true →
             d.doorDrawCalls = [] ∧ d.chasmDrawCalls = [])) :=
  claim_C1_flag_partition constsW mgrC1w chunkC1w 1 0 mgrC1w1 mgrC1w2 mgrC1w3
    (by decide) rfl rfl rfl

theorem emitVoxel_static_skip (vt : List LoadedVoxelTexture)
    (lists : List LoadedChasmFloorTextureList) (keys : List LoadedChasmTextureKey)
    (consts : RenderConsts) (chunkPos : ℤ × ℤ) (ceilingScale chasmAnimPercent : ℚ)
    (ua : Bool) (v : VoxelEntry) (a : DrawLists) (hwf : WellFormedVoxel v)
    (h : emitVoxel vt lists keys consts chunkPos ceilingScale chasmAnimPercent false ua v
      = Except.ok a) :
    a.staticDrawCalls = [] := by
  rcases hci : v.chasmInfo with - | c
  · rcases hdi : v.doorInfo with - | door
    · by_cases hme : v.meshEmpty
      · unfold emitVoxel at h
        rw [if_pos hme] at h
        obtain rfl : DrawLists.empty = a := Except.ok.inj h
        rfl
      · have hW := fun us ua => emitChasmWallSection_none vt lists keys chunkPos
          chasmAnimPercent (voxelWorldPos consts chunkPos ceilingScale v) us ua v hci
        unfold emitVoxel at h
        simp only [hme, Bool.false_eq_true, if_false, hdi, hci, Option.isSome_some,
          Option.isSome_none, Bool.true_or, Bool.or_true, Bool.false_or, Bool.or_false,
          Bool.not_true, Bool.not_false, Bool.and_true, Bool.and_false, Bool.true_and,
          Bool.false_and, Bool.or_self, if_true, hW false ua, except_pure_eq_ok,
          except_ok_bind, DrawLists.empty_append, DrawLists.append_empty, ite_self] at h
        by_cases hc1 : (v.fadePercent.isSome && ua) = true
        · rw [if_pos hc1] at h
          have hfs : v.fadePercent.isSome = true := by
            revert hc1
            cases v.fadePercent.isSome <;> simp
          rcases hO : emitOpaqueSection vt lists keys chunkPos chasmAnimPercent
              (voxelWorldPos consts chunkPos ceilingScale v) v with e | o
          · rw [hO] at h
            exact Except.noConfusion
              (show (Except.error () : Except Unit DrawLists) = Except.ok a from h)
          · rw [hO, except_ok_bind] at h
            obtain rfl : o = a := Except.ok.inj h
            exact (emitOpaqueSection_route_fading vt lists keys chunkPos chasmAnimPercent
              (voxelWorldPos consts chunkPos ceilingScale v) v (by rw [hci]; rfl) hfs
              o hO).1
        · rw [if_neg hc1] at h
          obtain rfl : DrawLists.empty = a := Except.ok.inj h
          rfl
    · exact ((emitVoxel_route vt lists keys consts chunkPos ceilingScale chasmAnimPercent
        false ua v a hwf h).2.1 (by rw [hdi]; rfl)).1
  · exact ((emitVoxel_route vt lists keys consts chunkPos ceilingScale chasmAnimPercent
      false ua v a hwf h).1 (by rw [hci]; rfl)).1

theorem emitVoxel_fading_skip (vt : List LoadedVoxelTexture)
    (lists : List LoadedChasmFloorTextureList) (keys : List LoadedChasmTextureKey)
    (consts : RenderConsts) (chunkPos : ℤ × ℤ) (ceilingScale chasmAnimPercent : ℚ)
    (us : Bool) (v : VoxelEntry) (a : DrawLists) (hwf : WellFormedVoxel v)
    (h : emitVoxel vt lists keys consts chunkPos ceilingScale chasmAnimPercent us false v
      = Except.ok a) :
    a.fadingDrawCalls = [] := by
  rcases hci : v.chasmInfo with - | c
  · rcases hdi : v.doorInfo with - | door
    · rcases hfp : v.fadePercent with - | f
      · exact ((emitVoxel_route vt lists keys consts chunkPos ceilingScale chasmAnimPercent
          us false v a hwf h).2.2.1 hdi hci hfp).2.2
      · have hfs : v.fadePercent.isSome = true := by rw [hfp]; rfl
        by_cases hme : v.meshEmpty
        · unfold emitVoxel at h
          rw [if_pos hme] at h
          obtain rfl : DrawLists.empty = a := Except.ok.inj h
          rfl
        · have hW := fun us ua => emitChasmWallSection_none vt lists keys chunkPos
            chasmAnimPercent (voxelWorldPos consts chunkPos ceilingScale v) us ua v hci
          unfold emitVoxel at h
          simp only [hme, Bool.false_eq_true, if_false, hdi, hci, hfs, Option.isSome_some,
            Option.isSome_none, Bool.true_or, Bool.or_true, Bool.false_or, Bool.or_false,
            Bool.not_true, Bool.not_false, Bool.and_true, Bool.and_false, Bool.true_and,
            Bool.false_and, Bool.or_self, if_true, if_false, hW us false,
            except_pure_eq_ok, except_ok_bind, DrawLists.empty_append,
            DrawLists.append_empty, ite_self] at h
          by_cases hus : us = true
          · rw [if_pos hus] at h
            by_cases halpha : v.mesh.alphaTestedIndexBufferID ≥ 0
            · rw [if_pos halpha] at h
              rcases hA : emitAlphaSection vt consts ceilingScale
                  (voxelWorldPos consts chunkPos ceilingScale v) v with e | p
              · rw [hA] at h
                exact Except.noConfusion
                  (show (Except.error () : Except Unit DrawLists) = Except.ok a from h)
              · rw [hA, except_ok_bind] at h
                obtain rfl : p.1 = a := Except.ok.inj h
                exact ((emitAlphaSection_route vt consts ceilingScale
                  (voxelWorldPos consts chunkPos ceilingScale v) v p.1 p.2
                  (by rw [hA])).2 hdi).2.2
            · rw [if_neg halpha] at h
              obtain rfl : DrawLists.empty = a := Except.ok.inj h
              rfl
          · rw [if_neg hus] at h
            by_cases halpha : v.mesh.alphaTestedIndexBufferID ≥ 0
            · rw [if_pos halpha] at h
              obtain rfl : DrawLists.empty = a := Except.ok.inj h
              rfl
            · rw [if_neg halpha] at h
              obtain rfl : DrawLists.empty = a := Except.ok.inj h
              rfl
    · exact ((emitVoxel_route vt lists keys consts chunkPos ceilingScale chasmAnimPercent
        us false v a hwf h).2.1 (by rw [hdi]; rfl)).2.2
  · exact ((emitVoxel_route vt lists keys consts chunkPos ceilingScale chasmAnimPercent
      us false v a hwf h).1 (by rw [hci]; rfl)).2.2

theorem loadVoxelDrawCallsGo_static_acc (vt : List LoadedVoxelTexture)
    (lists : List LoadedChasmFloorTextureList) (keys : List LoadedChasmTextureKey)
    (consts : RenderConsts) (chunkPos : ℤ × ℤ) (ceilingScale chasmAnimPercent : ℚ)
    (ua : Bool) (vs : List VoxelEntry) :
    ∀ (acc r : DrawLists), (∀ v ∈ vs, WellFormedVoxel v) →
      loadVoxelDrawCallsGo vt lists keys consts chunkPos ceilingScale chasmAnimPercent
        false ua acc vs = Except.ok r →
      r.staticDrawCalls = acc.staticDrawCalls := by
  induction vs with
  | nil =>
      intro acc r _ h
      obtain rfl : acc = r := Except.ok.inj (show Except.ok acc = Except.ok r from h)
      rfl
  | cons v vs ih =>
      intro acc r hwf h
      simp only [loadVoxelDrawCallsGo] at h
      rcases hE : emitVoxel vt lists keys consts chunkPos ceilingScale chasmAnimPercent
          false ua v with e | d
      · cases e
        rw [hE, except_error_bind] at h
        exact Except.noConfusion h
      · rw [hE, except_ok_bind] at h
        have hd := emitVoxel_static_skip vt lists keys consts chunkPos ceilingScale
          chasmAnimPercent ua v d (hwf v (List.mem_cons_self v vs)) hE
        have := ih (acc.append d) r (fun w hw => hwf w (List.mem_cons_of_mem v hw)) h
        rw [this, DrawLists.append_staticDrawCalls, hd, List.append_nil]

theorem loadVoxelDrawCallsGo_fading_acc (vt : List LoadedVoxelTexture)
    (lists : List LoadedChasmFloorTextureList) (keys : List LoadedChasmTextureKey)
    (consts : RenderConsts) (chunkPos : ℤ × ℤ) (ceilingScale chasmAnimPercent : ℚ)
    (us : Bool) (vs : List VoxelEntry) :
    ∀ (acc r : DrawLists), (∀ v ∈ vs, WellFormedVoxel v) →
      loadVoxelDrawCallsGo vt lists keys consts chunkPos ceilingScale chasmAnimPercent
        us false acc vs = Except.ok r →
      r.fadingDrawCalls = acc.fadingDrawCalls := by
  induction vs with
  | nil =>
      intro acc r _ h
      obtain rfl : acc = r := Except.ok.inj (show Except.ok acc = Except.ok r from h)
      rfl
  | cons v vs ih =>
      intro acc r hwf h
      simp only [loadVoxelDrawCallsGo] at h
      rcases hE : emitVoxel vt lists keys consts chunkPos ceilingScale chasmAnimPercent
          us false v with e | d
      · cases e
        rw [hE, except_error_bind] at h
        exact Except.noConfusion h
      · rw [hE, except_ok_bind] at h
        have hd := emitVoxel_fading_skip vt lists keys consts chunkPos ceilingScale
          chasmAnimPercent us v d (hwf v (List.mem_cons_self v vs)) hE
        have := ih (acc.append d) r (fun w hw => hwf w (List.mem_cons_of_mem v hw)) h
        rw [this, DrawLists.append_fadingDrawCalls, hd, List.append_nil]

theorem loadVoxelDrawCallsGo_door_chasm_prefix (vt : List LoadedVoxelTexture)
    (lists : List LoadedChasmFloorTextureList) (keys : List LoadedChasmTextureKey)
    (consts : RenderConsts) (chunkPos : ℤ × ℤ) (ceilingScale chasmAnimPercent : ℚ)
    (us ua : Bool) (vs : List VoxelEntry) :
    ∀ (acc r : DrawLists),
      loadVoxelDrawCallsGo vt lists keys consts chunkPos ceilingScale chasmAnimPercent
        us ua acc vs = Except.ok r →
      (∃ t, r.doorDrawCalls = acc.doorDrawCalls ++ t)
      ∧ (∃ t, r.chasmDrawCalls = acc.chasmDrawCalls ++ t) := by
  induction vs with
  | nil =>
      intro acc r h
      obtain rfl : acc = r := Except.ok.inj (show Except.ok acc = Except.ok r from h)
      exact ⟨⟨[], (List.append_nil _).symm⟩, ⟨[], (List.append_nil _).symm⟩⟩
  | cons v vs ih =>
      intro acc r h
      simp only [loadVoxelDrawCallsGo] at h
      rcases hE : emitVoxel vt lists keys consts chunkPos ceilingScale chasmAnimPercent
          us ua v with e | d
      · cases e
        rw [hE, except_error_bind] at h
        exact Except.noConfusion h
      · rw [hE, except_ok_bind] at h
        obtain ⟨⟨t1, ht1⟩, ⟨t2, ht2⟩⟩ := ih (acc.append d) r h
        rw [DrawLists.append_doorDrawCalls] at ht1
        rw [DrawLists.append_chasmDrawCalls] at ht2
        exact ⟨⟨d.doorDrawCalls ++ t1, by rw [ht1, List.append_assoc]⟩,
          ⟨d.chasmDrawCalls ++ t2, by rw [ht2, List.append_assoc]⟩⟩

/-- C2: a rebuild with `updateStatics = false` leaves the chunk's static
draw-call list unchanged, and a rebuild with `updateAnimating = false` leaves
the fading list unchanged and never removes existing door or chasm entries —
but it does not leave the door and chasm lists untouched: door draw calls
(under `updateStatics`, for door voxels) and dry-chasm wall draw calls are
appended behind the existing entries. -/
theorem claim_C2_untouched_lists (consts : RenderConsts) (mgr : RenderChunkMgr)
    (chunk : VoxelChunkData) (ceilingScale chasmAnimPercent : ℚ) (us ua : Bool)
    (mgr' : RenderChunkMgr) (i : ℕ) (rc : RenderChunkL)
    (hwf : ∀ v ∈ chunk.voxels, WellFormedVoxel v)
    (hidx : tryGetRenderChunkIndex mgr chunk.position = some i)
    (hget : mgr.renderChunks.get? i = some rc)
    (h : rebuildVoxelChunkDrawCalls consts mgr chunk ceilingScale chasmAnimPercent us ua
      = Except.ok mgr') :
    ∃ rc', mgr'.renderChunks.get? i = some rc'
      ∧ (us = false →
          rc'.drawLists.staticDrawCalls = rc.drawLists.staticDrawCalls)
      ∧ (ua = false →
          rc'.drawLists.fadingDrawCalls = rc.drawLists.fadingDrawCalls
          ∧ (∃ t, rc'.drawLists.doorDrawCalls = rc.drawLists.doorDrawCalls ++ t)
          ∧ (∃ t, rc'.drawLists.chasmDrawCalls = rc.drawLists.chasmDrawCalls ++ t)) := by
  rw [rebuildVoxelChunkDrawCalls_eq consts mgr chunk ceilingScale chasmAnimPercent us ua
    i rc hidx hget] at h
  rcases hG : loadVoxelDrawCallsGo mgr.voxelTextures mgr.chasmFloorTextureLists
      mgr.chasmTextureKeys consts chunk.position ceilingScale chasmAnimPercent us ua
      (clearLists us ua rc.drawLists) chunk.voxels with e | nl
  · cases e
    rw [hG] at h
    exact Except.noConfusion
      (show (Except.error () : Except Unit RenderChunkMgr) = Except.ok mgr' from h)
  · rw [hG] at h
    obtain rfl := Except.ok.inj h
    refine ⟨⟨rc.position, rc.height, nl⟩, get?_set_of_some _ i _ rc hget, ?_, ?_⟩
    · rintro rfl
      have := loadVoxelDrawCallsGo_static_acc mgr.voxelTextures mgr.chasmFloorTextureLists
        mgr.chasmTextureKeys consts chunk.position ceilingScale chasmAnimPercent ua
        chunk.voxels _ nl hwf hG
      rw [this]
      show (if False then [] else rc.drawLists.staticDrawCalls) = _
      rw [if_neg (by exact fun hh => hh)]
    · rintro rfl
      have hf := loadVoxelDrawCallsGo_fading_acc mgr.voxelTextures
        mgr.chasmFloorTextureLists mgr.chasmTextureKeys consts chunk.position
        ceilingScale chasmAnimPercent us chunk.voxels _ nl hwf hG
      have hp := loadVoxelDrawCallsGo_door_chasm_prefix mgr.voxelTextures
        mgr.chasmFloorTextureLists mgr.chasmTextureKeys consts chunk.position
        ceilingScale chasmAnimPercent us false chunk.voxels _ nl hG
      refine ⟨?_, ?_, ?_⟩
      · rw [hf]
        show (if False then [] else rc.drawLists.fadingDrawCalls) = _
        rw [if_neg (by exact fun hh => hh)]
      · obtain ⟨t, ht⟩ := hp.1
        exact ⟨t, by rw [ht]; rfl⟩
      · obtain ⟨t, ht⟩ := hp.2
        exact ⟨t, by rw [ht]; rfl⟩

/-- Voxel-texture cache for the C2 scenario: the door's texture. -/
def vtC2 : List LoadedVoxelTexture := [⟨30, 300⟩]

/-- A swinging door voxel with one visible face, a quarter open. -/
def vDoorC2 : VoxelEntry :=
  { x := 0
    y := 1
    z := 0
    meshEmpty := false
    vtype := VoxelType.door
    textureAssets := [30]
    doorInfo := some
      { doorType := DoorType.swinging
        animPercent := some (1 / 4)
        visibleFaces := some (true, false, false, false) }
    chasmInfo := none
    fadePercent := none
    mesh :=
      { vertexBufferID := 1
        normalBufferID := 2
        texCoordBufferID := 3
        opaqueIndexBufferIDs := []
        alphaTestedIndexBufferID := 5 } }

/-- Chunk data of the C2 scenario. -/
def chunkC2 : VoxelChunkData :=
  { position := (0, 0)
    height := 2
    textureDefs := []
    chasmDefs := []
    voxels := [vDoorC2] }

/-- Manager of the C2 scenario. -/
def mgrC2 : RenderChunkMgr :=
  { voxelTextures := vtC2
    chasmFloorTextureLists := []
    chasmTextureKeys := []
    renderChunks := [⟨(0, 0), 2, DrawLists.empty⟩] }

/-- C2 counterexample: a rebuild with `updateAnimating = false` (statics only)
on a chunk holding a door voxel appends a door draw call — the door list goes
from empty to one entry, so the rebuild modifies a list it was not asked to
update. -/
theorem claim_C2_counterexample :
    (rebuildVoxelChunkDrawCalls constsW mgrC2 chunkC2 1 0 true false).toOption.map
        (fun m => m.renderChunks.map (fun rc => rc.drawLists.doorDrawCalls.length))
      = some [1]
    ∧ mgrC2.renderChunks.map (fun rc => rc.drawLists.doorDrawCalls.length) = [0] := by
  decide

/-- Result of the statics-only rebuild on the C2 scenario. -/
def mgrC2r : RenderChunkMgr :=
  (rebuildVoxelChunkDrawCalls constsW mgrC2 chunkC2 1 0 true false).toOption.getD mgrC2

theorem claim_C2_untouched_lists_witness :
    ∃ rc', mgrC2r.renderChunks.get? 0 = some rc'
      ∧ (true = false →
          rc'.drawLists.staticDrawCalls = DrawLists.empty.staticDrawCalls)
      ∧ (false = false →
          rc'.drawLists.fadingDrawCalls = DrawLists.empty.fadingDrawCalls
          ∧ (∃ t, rc'.drawLists.doorDrawCalls = DrawLists.empty.doorDrawCalls ++ t)
          ∧ (∃ t, rc'.drawLists.chasmDrawCalls = DrawLists.empty.chasmDrawCalls ++ t)) :=
  claim_C2_untouched_lists constsW mgrC2 chunkC2 1 0 true false mgrC2r 0
    ⟨(0, 0), 2, DrawLists.empty⟩ (by decide) rfl rfl rfl

/-- `RenderChunkManager::loadVoxelChunk`: init a fresh render chunk, load the
chunk's voxel textures (all texture definitions, then all chasm definitions,
against the now-updated voxel-texture cache), and append the render chunk.
Mesh-buffer and chasm-wall loading touch only the render chunk's own GPU
resources and are not modelled here. `none` is the crash outcome of
`LoadChasmDefTextures`'s asserts. -/
def loadVoxelChunk (o : TexOracle) (mgr : RenderChunkMgr) (chunk : VoxelChunkData) :
    Option RenderChunkMgr :=
  let vt := chunk.textureDefs.foldl (fun acc d => LoadVoxelDefTextures o d acc)
    mgr.voxelTextures
  match chunk.chasmDefs.enum.foldlM
      (fun lk p => LoadChasmDefTextures o chunk.position p.1 p.2 vt lk.1 lk.2)
      (mgr.chasmFloorTextureLists, mgr.chasmTextureKeys) with
  | none => none
  | some (lists, keys) =>
      some { voxelTextures := vt
             chasmFloorTextureLists := lists
             chasmTextureKeys := keys
             renderChunks := mgr.renderChunks ++
               [⟨chunk.position, chunk.height, DrawLists.empty⟩] }

/-- `RenderChunkManager::unloadVoxelChunk`: free and erase the first render
chunk at the position, if any; the texture caches are not touched. -/
def unloadVoxelChunk (mgr : RenderChunkMgr) (chunkPos : ℤ × ℤ) : RenderChunkMgr :=
  { mgr with renderChunks :=
      mgr.renderChunks.eraseP (fun rc => rc.position == chunkPos) }

theorem loadVoxelTextures_defs_cached (o : TexOracle) (defs : List (List TextureAsset))
    (vt : List LoadedVoxelTexture)
    (h : ∀ d ∈ defs, ∀ ta ∈ d, ta ∈ vt.map (·.textureAsset)) :
    defs.foldl (fun acc d => LoadVoxelDefTextures o d acc) vt = vt := by
  induction defs with
  | nil => rfl
  | cons d defs ih =>
      show defs.foldl _ (LoadVoxelDefTextures o d vt) = vt
      rw [LoadVoxelDefTextures_of_cached o d vt (h d (List.mem_cons_self d defs))]
      exact ih (fun d' hd' => h d' (List.mem_cons_of_mem d hd'))

theorem loadVoxelTextures_chasms_cached (o : TexOracle) (cp : ℤ × ℤ)
    (vt : List LoadedVoxelTexture) (ps : List (ℕ × ChasmDefinition))
    (lists : List LoadedChasmFloorTextureList) (keys : List LoadedChasmTextureKey)
    (h : ∀ p ∈ ps, (keys.any fun k => k.chasmDefID == p.1 && k.chunkPos == cp) = true) :
    ps.foldlM (fun lk p => LoadChasmDefTextures o cp p.1 p.2 vt lk.1 lk.2)
      (lists, keys) = some (lists, keys) := by
  induction ps with
  | nil => rfl
  | cons p ps ih =>
      rw [List.foldlM_cons,
        LoadChasmDefTextures_key_exists o cp p.1 p.2 vt lists keys
          (h p (List.mem_cons_self p ps))]
      exact ih (fun q hq => h q (List.mem_cons_of_mem p hq))

/-- C6: loading a chunk and immediately unloading the same position restores
the manager exactly — caches unchanged (not merely in size) and no render
chunk left at the position — provided every texture asset of the chunk's
texture definitions is already cached, every chasm definition of the chunk
already has a cache key for this chunk position, and no render chunk at this
position predates the load.  Without those provisos the caches grow: the
voxel-texture and chasm caches are append-only and `unloadVoxelChunk` never
removes their entries. -/
theorem claim_C6_load_unload (o : TexOracle) (mgr : RenderChunkMgr)
    (chunk : VoxelChunkData)
    (hta : ∀ d ∈ chunk.textureDefs, ∀ ta ∈ d, ta ∈ mgr.voxelTextures.map (·.textureAsset))
    (hkeys : ∀ p ∈ chunk.chasmDefs.enum,
      (mgr.chasmTextureKeys.any fun k =>
        k.chasmDefID == p.1 && k.chunkPos == chunk.position) = true)
    (hpos : ∀ rc ∈ mgr.renderChunks, (rc.position == chunk.position) = false) :
    (loadVoxelChunk o mgr chunk).map (fun m => unloadVoxelChunk m chunk.position)
      = some mgr
    ∧ ∀ m, loadVoxelChunk o mgr chunk = some m →
        ∀ rc ∈ (unloadVoxelChunk m chunk.position).renderChunks,
          (rc.position == chunk.position) = false := by
  have hload : loadVoxelChunk o mgr chunk =
      some { voxelTextures := mgr.voxelTextures
             chasmFloorTextureLists := mgr.chasmFloorTextureLists
             chasmTextureKeys := mgr.chasmTextureKeys
             renderChunks := mgr.renderChunks ++
               [⟨chunk.position, chunk.height, DrawLists.empty⟩] } := by
    unfold loadVoxelChunk
    rw [loadVoxelTextures_defs_cached o chunk.textureDefs mgr.voxelTextures hta]
    dsimp only
    rw [loadVoxelTextures_chasms_cached o chunk.position mgr.voxelTextures
      chunk.chasmDefs.enum mgr.chasmFloorTextureLists mgr.chasmTextureKeys hkeys]
  have herase : (mgr.renderChunks ++
      [(⟨chunk.position, chunk.height, DrawLists.empty⟩ : RenderChunkL)]).eraseP
        (fun rc => rc.position == chunk.position) = mgr.renderChunks := by
    rw [List.eraseP_append_right]
    · rw [List.eraseP_cons_of_pos]
      · rw [List.append_nil]
      · exact beq_self_eq_true _
    · intro b hb
      rw [hpos b hb]
      exact Bool.false_ne_true
  have hunload : (loadVoxelChunk o mgr chunk).map
      (fun m => unloadVoxelChunk m chunk.position) = some mgr := by
    rw [hload]
    show some (unloadVoxelChunk _ chunk.position) = some mgr
    unfold unloadVoxelChunk
    congr 1
    rw [herase]
  refine ⟨hunload, fun m hm rc hrc => ?_⟩
  rw [hload] at hm
  obtain rfl := Option.some.inj hm
  revert hrc
  show rc ∈ (unloadVoxelChunk _ chunk.position).renderChunks → _
  unfold unloadVoxelChunk
  intro hrc
  simp only [herase] at hrc
  exact hpos rc hrc

/-- Chunk data for the C6 counterexample: one texture definition with a new
asset `7` and one solid-color chasm definition whose wall asset `8` is
already cached. -/
def chunkC6 : VoxelChunkData :=
  { position := (5, 5)
    height := 2
    textureDefs := [[7]]
    chasmDefs := [⟨AnimationType.solidColor, 3, [], 8⟩]
    voxels := [] }

/-- Manager for the C6 counterexample: only the chasm wall asset is cached. -/
def mgrC6 : RenderChunkMgr :=
  { voxelTextures := [⟨8, 80⟩]
    chasmFloorTextureLists := []
    chasmTextureKeys := []
    renderChunks := [] }

/-- C6 counterexample: loading a chunk that brings a new texture asset and a
new chasm definition and then unloading the same position leaves the
voxel-texture cache with 2 entries (was 1), the chasm floor-list cache with 1
(was 0), and the chasm key list with 1 (was 0): `unloadVoxelChunk` removes
only the render chunk, never cache entries, so the sizes are not unchanged. -/
theorem claim_C6_counterexample :
    ((loadVoxelChunk oracleAllOk mgrC6 chunkC6).map
        (fun m => unloadVoxelChunk m chunkC6.position)).map
        (fun m => (m.voxelTextures.length, m.chasmFloorTextureLists.length,
          m.chasmTextureKeys.length, m.renderChunks.length))
      = some (2, 1, 1, 0)
    ∧ (mgrC6.voxelTextures.length, mgrC6.chasmFloorTextureLists.length,
        mgrC6.chasmTextureKeys.length) = (1, 0, 0) := by
  decide

/-- Chunk data for the C6 witness: everything already cached. -/
def chunkC6w : VoxelChunkData :=
  { position := (5, 5)
    height := 2
    textureDefs := [[8]]
    chasmDefs := [⟨AnimationType.solidColor, 3, [], 8⟩]
    voxels := [] }

/-- Manager for the C6 witness: asset, floor list and key already cached. -/
def mgrC6w : RenderChunkMgr :=
  { voxelTextures := [⟨8, 80⟩]
    chasmFloorTextureLists := [LoadedChasmFloorTextureList.initColor 3 600]
    chasmTextureKeys := [⟨(5, 5), 0, 0, 0⟩]
    renderChunks := [⟨(9, 9), 2, DrawLists.empty⟩] }

theorem claim_C6_load_unload_witness :
    ((loadVoxelChunk oracleAllOk mgrC6w chunkC6w).map
        (fun m => unloadVoxelChunk m chunkC6w.position) = some mgrC6w)
    ∧ ∀ m, loadVoxelChunk oracleAllOk mgrC6w chunkC6w = some m →
        ∀ rc ∈ (unloadVoxelChunk m chunkC6w.position).renderChunks,
          (rc.position == chunkC6w.position) = false :=
  claim_C6_load_unload oracleAllOk mgrC6w chunkC6w (by decide) (by decide) (by decide)
